import Mathlib

/-!
# Split-flap controller task: embedding of `splitflap_task.cpp`

A shallow embedding of `src/arduino/splitflap/esp32/splitflap_task.cpp`.

* Machine integers are `Nat`/`Int` with explicit reduction modulo `2^w` where the source
  computes in `uint8_t`/`uint32_t`.
* The task object is a record `SplitflapTask`; every member function is a state transformer.
* Serial input is the list of bytes waiting in the UART receive queue, passed to a tick and
  handed back with what the tick left unread; serial output is the list of bytes written so far.
* Calls on collaborators (modules, bus transfer, mutex, watchdog) are recorded in a call log, so
  that statements of the form "no `go_to` is issued" can be expressed.
* Constants and helpers that live in headers outside this file (`NUM_MODULES`, `flaps`,
  `SplitflapModule::Update`, `motor_sensor_io`, ...) are fields of `Config`.
* Array accesses outside the bounds of a buffer (undefined behaviour in the source) read `0` and
  write nothing.
-/

namespace Splitflap

/-! ## Data model -/

/-- Modelled from the spec: the enumeration `State` of `splitflap_module.h`, "one of {Normal,
LookForHome, SensorError, Panic, Disabled}", with the member names used in this file and in the
order of the `switch` of `dumpStatus`. -/
inductive State where
  | NORMAL
  | LOOK_FOR_HOME
  | SENSOR_ERROR
  | PANIC
  | STATE_DISABLED
  deriving DecidableEq, Repr, Inhabited

/-- Ordinal of a state, as used by the comparison `flashGroup < modules[i]->state`. -/
def State.ord : State → Nat
  | .NORMAL => 0
  | .LOOK_FOR_HOME => 1
  | .SENSOR_ERROR => 2
  | .PANIC => 3
  | .STATE_DISABLED => 4

/-- Modelled from the spec: the class `SplitflapModule` (declared in `splitflap_module.h`, not
part of this file), reduced to the fields that the task reads and that the data model names. -/
structure SplitflapModule where
  state : State
  current_accel_step : Nat
  current_flap_index : Nat
  target_flap_index : Nat
  count_missed_home : Nat
  count_unexpected_home : Nat
  deriving DecidableEq, Repr, Inhabited

/-- Modelled from the spec: `SplitflapModule::GoToFlapIndex` (declared in `splitflap_module.h`,
not part of this file); "`go_to(index)` sets a new target and begins approach". -/
def SplitflapModule.GoToFlapIndex (m : SplitflapModule) (index : Nat) : SplitflapModule :=
  { m with target_flap_index := index }

/-- Modelled from the spec: `SplitflapModule::GoHome`; "`go_home()` forces `LookForHome`". -/
def SplitflapModule.GoHome (m : SplitflapModule) : SplitflapModule :=
  { m with state := State.LOOK_FOR_HOME }

/-- Modelled from the spec: `SplitflapModule::ResetErrorCounters`; "`reset_fault_counters()`
clears the two counters without altering `state`". -/
def SplitflapModule.ResetErrorCounters (m : SplitflapModule) : SplitflapModule :=
  { m with count_missed_home := 0, count_unexpected_home := 0 }

/-- Modelled from the spec: `SplitflapModule::Disable`; "any state → `Disabled` on an external
disable signal", "Disabling sets every module to `Disabled`". -/
def SplitflapModule.Disable (m : SplitflapModule) : SplitflapModule :=
  { m with state := State.STATE_DISABLED }

/-- Modelled from the spec: the accessor `GetTargetFlapIndex()` of the module's target. -/
def SplitflapModule.GetTargetFlapIndex (m : SplitflapModule) : Nat := m.target_flap_index

/-- Modelled from the spec: the accessor `GetCurrentFlapIndex()` of the module's position. -/
def SplitflapModule.GetCurrentFlapIndex (m : SplitflapModule) : Nat := m.current_flap_index

/-- Build constants and external collaborators of the task (`config.h`, `spi_io_config.h`,
`splitflap_module.h`). The embedding follows the source for `NUM_MODULES ≤ 255`
(module loops count in `uint8_t`), `NUM_FLAPS ≤ 127` (`findFlapIndex` counts in `int8_t`) and
`flaps.length = NUM_FLAPS`. -/
structure Config where
  NUM_MODULES : Nat
  NUM_FLAPS : Nat
  /-- The display alphabet `flaps[]`. -/
  flaps : List Nat
  FORCE_FULL_ROTATION : Bool
  MOTOR_BUFFER_LENGTH : Nat
  NUM_LOOPBACKS : Nat
  /-- Whether `CHAINLINK` is defined. -/
  CHAINLINK : Bool
  /-- Value of `INA219_POWER_SENSE`. -/
  INA219_POWER_SENSE : Bool
  /-- `modules[i]->Update()`: reads the sensor buffer, returns the advanced module and the motor
  buffer with its control bits written. -/
  Update : Nat → SplitflapModule → List Nat → List Nat → SplitflapModule × List Nat
  /-- `modules[i]->Init()`. -/
  Init : Nat → SplitflapModule → SplitflapModule
  /-- `modules[i]->GetHomeState()`: reads the module's home sensor bit. -/
  GetHomeState : Nat → SplitflapModule → List Nat → Bool
  /-- `motor_sensor_io()`: the sensor bytes clocked in by a transfer, as a function of every
  motor buffer clocked out so far (most recent first). -/
  motor_sensor_io : List (List Nat) → List Nat
  /-- `initialize_modules()`: bring-up of the bus; its effect on `(motor_buffer, sensor_buffer)`. -/
  initialize_modules : List Nat → List Nat → List Nat × List Nat

/-- Well-formed build constants: the range in which the loops of the source terminate and index
inside their arrays. -/
def Config.WF (cfg : Config) : Prop :=
  cfg.NUM_MODULES ≤ 255 ∧ cfg.NUM_FLAPS ≤ 127 ∧ cfg.flaps.length = cfg.NUM_FLAPS

instance (cfg : Config) : Decidable cfg.WF := by
  unfold Config.WF; infer_instance

/-- Calls on collaborators, recorded in program order. -/
inductive Call where
  | Init (i : Nat)
  | GoHome (i : Nat)
  | Update (i : Nat)
  | GoToFlapIndex (i : Nat) (index : Nat)
  | ResetErrorCounters (i : Nat)
  | Disable (i : Nat)
  | motor_sensor_io
  | lock
  | wdt_reset
  | getCurrent_mA
  | getBusVoltage_V
  | runUpdate
  deriving DecidableEq, Repr

/-- One entry of `SplitflapState::modules`. -/
structure SplitflapModuleState where
  flapIndex : Nat
  state : State
  deriving DecidableEq, Repr, Inhabited

/-- The member variables of `SplitflapTask`, the global bus buffers and module array, and the
serial port. -/
structure SplitflapTask where
  modules : List SplitflapModule
  motor_buffer : List Nat
  sensor_buffer : List Nat
  /-- Motor buffers clocked out so far, most recent first. -/
  bus_history : List (List Nat)
  recv_buffer : List Nat
  recv_count : Nat
  sensor_test_ : Bool
  pending_no_op : Bool
  pending_move_response : Bool
  was_stopped : Bool
  stopped_at_millis : Nat
  lastCurrentReadMillis : Nat
  currentmA : ℚ
  disabled : Bool
  state_cache_ : List SplitflapModuleState
  /-- Bytes written to the UART so far. -/
  serial_out : List Nat
  calls : List Call
  deriving DecidableEq

/-! ## Serial port helpers -/

/-- Bytes of an ASCII literal. -/
def bytesOf (s : String) : List Nat := s.toList.map Char.toNat

/-- `Serial.print(const char*)`. -/
def Serial_print (str : String) (s : SplitflapTask) : SplitflapTask :=
  { s with serial_out := s.serial_out ++ bytesOf str }

/-- `Serial.print(n)` for an unsigned integer: decimal digits. -/
def Serial_printNat (n : Nat) (s : SplitflapTask) : SplitflapTask :=
  { s with serial_out := s.serial_out ++ (Nat.toDigits 10 n).map Char.toNat }

/-- `Serial.write(byte)`. -/
def Serial_write (b : Nat) (s : SplitflapTask) : SplitflapTask :=
  { s with serial_out := s.serial_out ++ [b % 256] }

/-- Record a collaborator call. -/
def logCall (c : Call) (s : SplitflapTask) : SplitflapTask :=
  { s with calls := s.calls ++ [c] }

/-- A counted `for (i = 0; i < n; i++)` loop over a state. -/
def forLoop {σ : Type} (n : Nat) (body : Nat → σ → σ) (s : σ) : σ :=
  (List.range n).foldl (fun acc i => body i acc) s

/-- Assignment to `modules[i]`. -/
def setModule (i : Nat) (m : SplitflapModule) (s : SplitflapTask) : SplitflapTask :=
  { s with modules := s.modules.set i m }

/-- Apply a module method to `modules[i]`, logging the call. -/
def onModule (i : Nat) (c : Call) (f : SplitflapModule → SplitflapModule)
    (s : SplitflapTask) : SplitflapTask :=
  match s.modules[i]? with
  | none => s
  | some m => logCall c (setModule i (f m) s)

/-! ## `findFlapIndex` and `showString` -/

/-- The loop of `findFlapIndex`, from index `i` with `n` iterations left. -/
def findFlapIndexLoop (cfg : Config) (character : Nat) : Nat → Nat → Int
  | _, 0 => -1
  | i, n + 1 =>
    if character = cfg.flaps.getD i 0 then (i : Int)
    else findFlapIndexLoop cfg character (i + 1) n

/-- `SplitflapTask::findFlapIndex`. -/
def findFlapIndex (cfg : Config) (character : Nat) : Int :=
  findFlapIndexLoop cfg character 0 cfg.NUM_FLAPS

/-- The guarded `GoToFlapIndex` in the loop of `showString`, for the looked-up `index`. -/
def showStringGoTo (cfg : Config) (i : Nat) (index : Int) (s : SplitflapTask) : SplitflapTask :=
  if index ≠ -1 then
    if cfg.FORCE_FULL_ROTATION = true ∨
        index ≠ ((s.modules.getD i default).GetTargetFlapIndex : Int) then
      onModule i (Call.GoToFlapIndex i index.toNat) (fun m => m.GoToFlapIndex index.toNat) s
    else s
  else s

/-- Body of the `for` loop of `showString`. -/
def showStringBody (cfg : Config) (str : List Nat) (i : Nat) (s : SplitflapTask) :
    SplitflapTask :=
  Serial_write (str.getD i 0) (showStringGoTo cfg i (findFlapIndex cfg (str.getD i 0)) s)

/-- The head of `showString`: mutex taken, `pending_move_response` set, record opened. -/
def showStringOpen (s : SplitflapTask) : SplitflapTask :=
  Serial_print "\x7b\"type\":\"move_echo\", \"dest\":\""
    { logCall Call.lock s with pending_move_response := true }

/-- `SplitflapTask::showString(str, length)`. -/
def showString (cfg : Config) (str : List Nat) (length : Nat) (s : SplitflapTask) :
    SplitflapTask :=
  Serial_print "\"\x7d\n" (forLoop length (showStringBody cfg str) (showStringOpen s))

/-! ## The command interpreter of `runUpdate` -/

/-- The `sensor_test` record, printed from the current value of `sensor_test_`. -/
def announceSensorTest (s : SplitflapTask) : SplitflapTask :=
  Serial_print "\x7d\n"
    (Serial_print (if s.sensor_test_ then "true" else "false")
      (Serial_print "\x7b\"type\":\"sensor_test\", \"enabled\":" s))

/-- The branch `b == '%' && all_stopped`: toggle sensor-test mode and acknowledge. -/
def toggleSensorTest (s : SplitflapTask) : SplitflapTask :=
  announceSensorTest { s with sensor_test_ := !s.sensor_test_ }

/-- The loop of `case '@'`: reset the fault counters of every module and re-home it. -/
def resetAll (cfg : Config) (s : SplitflapTask) : SplitflapTask :=
  forLoop cfg.NUM_MODULES (fun i s =>
    onModule i (Call.GoHome i) SplitflapModule.GoHome
      (onModule i (Call.ResetErrorCounters i) SplitflapModule.ResetErrorCounters s)) s

/-- The `default` case of the `switch`: append the byte unless the buffer is full. -/
def appendByte (cfg : Config) (b : Nat) (s : SplitflapTask) : SplitflapTask :=
  if (s.recv_count : Int) > (cfg.NUM_MODULES : Int) - 1 then s
  else
    { s with recv_buffer := s.recv_buffer.set s.recv_count (b % 256),
             recv_count := (s.recv_count + 1) % 256 }

/-- Body of `while (Serial.available() > 0)` for one byte `b = Serial.read()`. The character
codes are `'%' = 37`, `'@' = 64`, `'#' = 35`, `'=' = 61` and newline `= 10`. -/
def processByte (cfg : Config) (all_stopped : Bool) (b : Nat) (s : SplitflapTask) :
    SplitflapTask :=
  if b = 37 ∧ all_stopped = true then toggleSensorTest s
  else if s.sensor_test_ = false then
    if b = 64 then resetAll cfg s
    else if b = 35 then { s with pending_no_op := true }
    else if b = 61 then { s with recv_count := 0 }
    else if b = 10 then showString cfg s.recv_buffer s.recv_count s
    else appendByte cfg b s
  else s

/-- The `while (Serial.available() > 0)` loop: every waiting byte is read and processed. -/
def commandLoop (cfg : Config) (all_stopped : Bool) : List Nat → SplitflapTask → SplitflapTask
  | [], s => s
  | b :: rest, s => commandLoop cfg all_stopped rest (processByte cfg all_stopped b s)

/-! ## Bus buffers: LED and loopback bit layout -/

/-- `setLedStatus(moduleIndex, on)` acting on `motor_buffer` (`ledOn` is the source's `on`); the
body is compiled only when `CHAINLINK` is defined. `byteIndex` is computed in `int` and stored in
a `uint8_t`. -/
def setLedStatus (cfg : Config) (moduleIndex : Nat) (ledOn : Bool)
    (motor_buffer : List Nat) : List Nat :=
  if cfg.CHAINLINK then
    let groupPosition := moduleIndex % 6
    let byteIndex : Nat :=
      (((cfg.MOTOR_BUFFER_LENGTH : Int) - 1 - ((moduleIndex / 6 * 4 : Nat) : Int)
        - (if groupPosition < 3 then 1 else 2)) % 256).toNat
    let bitMask : Nat :=
      if groupPosition < 3 then 1 <<< (4 + groupPosition) else 1 <<< (groupPosition - 3)
    if ledOn then
      motor_buffer.set byteIndex (motor_buffer.getD byteIndex 0 ||| bitMask)
    else
      motor_buffer.set byteIndex (motor_buffer.getD byteIndex 0 &&& (255 ^^^ bitMask))
  else motor_buffer

/-- `loopbackMotorByte(loopbackIndex)`, computed in `int` and returned as `uint8_t`. -/
def loopbackMotorByte (cfg : Config) (loopbackIndex : Nat) : Nat :=
  (((cfg.MOTOR_BUFFER_LENGTH : Int) - 1 - ((loopbackIndex / 2 * 4 : Nat) : Int)
    - (if loopbackIndex % 2 = 0 then 1 else 2)) % 256).toNat

/-- `loopbackMotorBitMask(loopbackIndex)`. -/
def loopbackMotorBitMask (loopbackIndex : Nat) : Nat :=
  if loopbackIndex % 2 = 0 then 1 <<< 7 else 1 <<< 3

/-- `loopbackSensorByte(loopbackIndex)`. -/
def loopbackSensorByte (loopbackIndex : Nat) : Nat := loopbackIndex / 2

/-- `loopbackSensorBitMask(loopbackIndex)`. -/
def loopbackSensorBitMask (loopbackIndex : Nat) : Nat :=
  if loopbackIndex % 2 = 0 then 1 <<< 6 else 1 <<< 7

/-- One call of `motor_sensor_io()`: the motor buffer is clocked out and the sensor buffer is
replaced by what the bus returns. -/
def motor_sensor_io (cfg : Config) (s : SplitflapTask) : SplitflapTask :=
  logCall Call.motor_sensor_io
    { s with bus_history := s.motor_buffer :: s.bus_history,
             sensor_buffer := cfg.motor_sensor_io (s.motor_buffer :: s.bus_history) }

/-- Assignment to the global `motor_buffer`. -/
def setMotorBuffer (motor_buffer : List Nat) (s : SplitflapTask) : SplitflapTask :=
  { s with motor_buffer := motor_buffer }

/-! ## Status cache -/

/-- The snapshot built by the loop of `updateStateCache` in the local `new_state`. -/
def buildSnapshot (cfg : Config) (s : SplitflapTask) : List SplitflapModuleState :=
  forLoop cfg.NUM_MODULES
    (fun i new_state =>
      new_state.set i
        { flapIndex := (s.modules.getD i default).GetCurrentFlapIndex,
          state := (s.modules.getD i default).state })
    (List.replicate cfg.NUM_MODULES default)

/-- `SplitflapTask::updateStateCache`: `memcmp` is equality of the two snapshots, the guarded
block takes the mutex and copies. -/
def updateStateCache (cfg : Config) (s : SplitflapTask) : SplitflapTask :=
  if s.state_cache_ ≠ buildSnapshot cfg s then
    { logCall Call.lock s with state_cache_ := buildSnapshot cfg s }
  else s

/-- `SplitflapTask::getState`: takes the mutex and returns a copy of the cache. -/
def getState (s : SplitflapTask) : List SplitflapModuleState × SplitflapTask :=
  (s.state_cache_, logCall Call.lock s)

/-! ## `dumpStatus` and `disableAll` -/

/-- The text printed by the `switch` of `dumpStatus`. -/
def stateName : State → String
  | .NORMAL => "normal"
  | .LOOK_FOR_HOME => "look_for_home"
  | .SENSOR_ERROR => "sensor_error"
  | .PANIC => "panic"
  | .STATE_DISABLED => "disabled"

/-- The object printed by `dumpStatus` for one module. -/
def dumpModule (cfg : Config) (m : SplitflapModule) (s : SplitflapTask) : SplitflapTask :=
  Serial_print "\x7d"
    (Serial_printNat m.count_unexpected_home
      (Serial_print ", \"count_unexpected_home\":"
        (Serial_printNat m.count_missed_home
          (Serial_print "\", \"count_missed_home\":"
            (Serial_write (cfg.flaps.getD m.GetCurrentFlapIndex 0)
              (Serial_print "\", \"flap\":\""
                (Serial_print (stateName m.state)
                  (Serial_print "\x7b\"state\":\"" s))))))))

/-- Body of the `for` loop of `dumpStatus`: the object of module `i` and its separator. -/
def dumpStatusBody (cfg : Config) (i : Nat) (s : SplitflapTask) : SplitflapTask :=
  if (i : Int) < (cfg.NUM_MODULES : Int) - 1 then
    Serial_print ", " (dumpModule cfg (s.modules.getD i default) s)
  else dumpModule cfg (s.modules.getD i default) s

/-- `SplitflapTask::dumpStatus`. -/
def dumpStatus (cfg : Config) (s : SplitflapTask) : SplitflapTask :=
  Serial_print "]\x7d\n"
    (forLoop cfg.NUM_MODULES (dumpStatusBody cfg)
      (Serial_print "\x7b\"type\":\"status\", \"modules\":[" s))

/-- The loop of `disableAll`: `modules[i]->Disable()` for every module. -/
def disableModules (cfg : Config) (s : SplitflapTask) : SplitflapTask :=
  forLoop cfg.NUM_MODULES (fun i s => onModule i (Call.Disable i) SplitflapModule.Disable s) s

/-- The tail of `disableAll`, after the transfer: announce the first disable only. -/
def announceDisabled (message : String) (s : SplitflapTask) : SplitflapTask :=
  if s.disabled then s
  else
    Serial_print (message ++ "\r\n")
      (Serial_print "#### DISABLED! ####\r\n" { s with disabled := true })

/-- Modelled from the spec: `SplitflapTask::disableAll(message)`, which `runUpdate` calls when
`INA219_POWER_SENSE` is set but which has no live definition in the source; "Disabling sets every
module to `Disabled` and performs one Bus Transfer". The body follows the one kept commented out
at the end of the source file. -/
def disableAll (cfg : Config) (message : String) (s : SplitflapTask) : SplitflapTask :=
  announceDisabled message (motor_sensor_io cfg (disableModules cfg s))

/-! ## `runUpdate` -/

/-- What one iteration of the control loop reads from its environment: `millis()` and, when they
are sampled, the power sensor readings. -/
structure TickInput where
  millis : Nat
  current_mA : ℚ
  busVoltage_V : ℚ

/-- The per-module classification `is_idle` of `runUpdate`. -/
def is_idle (m : SplitflapModule) : Bool :=
  m.state == State.PANIC
    || m.state == State.STATE_DISABLED
    || m.state == State.LOOK_FOR_HOME
    || m.state == State.SENSOR_ERROR
    || (m.state == State.NORMAL && m.current_accel_step == 0)

/-- The per-module classification `is_stopped` of `runUpdate`. -/
def is_stopped (m : SplitflapModule) : Bool :=
  m.state == State.PANIC
    || m.state == State.STATE_DISABLED
    || m.current_accel_step == 0

/-- The task together with the locals `all_idle` and `all_stopped` of `runUpdate`. -/
structure TickState where
  task : SplitflapTask
  all_idle : Bool
  all_stopped : Bool

/-- `modules[i]->Update()` followed by `setLedStatus(i, flashGroup < state && flashPhase == 0)`,
for the module `m0` found at index `i`. -/
def updateModule (cfg : Config) (flashGroup flashPhase : Nat) (i : Nat) (m0 : SplitflapModule)
    (s : SplitflapTask) : SplitflapTask :=
  let r := cfg.Update i m0 s.sensor_buffer s.motor_buffer
  logCall (Call.Update i)
    (setMotorBuffer
      (setLedStatus cfg i (decide (flashGroup < r.1.state.ord) && flashPhase == 0) r.2)
      (setModule i r.1 s))

/-- Body of the module loop of `runUpdate` (the `!sensor_test_` branch). -/
def updateBody (cfg : Config) (flashGroup flashPhase : Nat) (i : Nat) (t : TickState) :
    TickState :=
  match t.task.modules[i]? with
  | none => t
  | some m0 =>
    { task := updateModule cfg flashGroup flashPhase i m0 t.task,
      all_idle :=
        t.all_idle && is_idle (cfg.Update i m0 t.task.sensor_buffer t.task.motor_buffer).1,
      all_stopped :=
        t.all_stopped && is_stopped (cfg.Update i m0 t.task.sensor_buffer t.task.motor_buffer).1 }

/-- The bookkeeping after the module loop: `stopped_at_millis` and `was_stopped`. -/
def noteStopped (iterationStartMillis : Nat) (all_stopped : Bool) (s : SplitflapTask) :
    SplitflapTask :=
  if all_stopped = true ∧ s.was_stopped = false then
    { s with stopped_at_millis := iterationStartMillis, was_stopped := all_stopped }
  else { s with was_stopped := all_stopped }

/-- Body of the LED loop of sensor-test mode: `setLedStatus(i, modules[i]->GetHomeState())`. -/
def sensorLedBody (cfg : Config) (i : Nat) (s : SplitflapTask) : SplitflapTask :=
  setMotorBuffer
    (setLedStatus cfg i (cfg.GetHomeState i (s.modules.getD i default) s.sensor_buffer)
      s.motor_buffer) s

/-- The module loop of the `!sensor_test_` branch, started with both flags `true`. -/
def moduleLoop (cfg : Config) (iterationStartMillis : Nat) (s : SplitflapTask) : TickState :=
  forLoop cfg.NUM_MODULES
    (updateBody cfg ((iterationStartMillis / 200 % 16) / 2) (iterationStartMillis / 200 % 2))
    { task := s, all_idle := true, all_stopped := true }

/-- The first part of `runUpdate`: module advancement (or, in sensor-test mode, the LED
reflection of the home sensors) and the bus transfers. -/
def advancePhase (cfg : Config) (iterationStartMillis : Nat) (s : SplitflapTask) : TickState :=
  if s.sensor_test_ = false then
    { task := motor_sensor_io cfg
        (noteStopped iterationStartMillis (moduleLoop cfg iterationStartMillis s).all_stopped
          (moduleLoop cfg iterationStartMillis s).task),
      all_idle := (moduleLoop cfg iterationStartMillis s).all_idle,
      all_stopped := (moduleLoop cfg iterationStartMillis s).all_stopped }
  else
    { task := motor_sensor_io cfg
        (forLoop cfg.NUM_MODULES (sensorLedBody cfg) (motor_sensor_io cfg s)),
      all_idle := true,
      all_stopped := true }

/-- Difference of two `uint32_t` millisecond stamps. -/
def millisSince (now last : Nat) : Nat := (((now : Int) - (last : Int)) % 4294967296).toNat

/-- `currentmA = powerSense.getCurrent_mA()`. -/
def sampleCurrent (inp : TickInput) (s : SplitflapTask) : SplitflapTask :=
  logCall Call.getCurrent_mA { s with currentmA := inp.current_mA }

/-- The two current conditions of the safety monitor. -/
def currentCheck (cfg : Config) (inp : TickInput) (all_stopped : Bool) (s : SplitflapTask) :
    SplitflapTask :=
  if s.currentmA > ((cfg.NUM_MODULES * 250 : Nat) : ℚ) then
    disableAll cfg "Over current" s
  else if all_stopped = true ∧ millisSince inp.millis s.stopped_at_millis > 100
      ∧ s.currentmA ≥ 3 then
    disableAll cfg "Unexpected current" s
  else s

/-- The `#if INA219_POWER_SENSE` block after the module loop: the current check, evaluated when
more than 100 ms have passed since the last reading. -/
def safetyMonitor (cfg : Config) (inp : TickInput) (all_stopped : Bool) (s : SplitflapTask) :
    SplitflapTask :=
  if cfg.INA219_POWER_SENSE = true ∧ millisSince inp.millis s.lastCurrentReadMillis > 100 then
    { currentCheck cfg inp all_stopped (sampleCurrent inp s) with
      lastCurrentReadMillis := inp.millis }
  else s

/-- The `#if INA219_POWER_SENSE` block inside `if (all_idle)`: the voltage check. -/
def voltageCheck (cfg : Config) (inp : TickInput) (s : SplitflapTask) : SplitflapTask :=
  if cfg.INA219_POWER_SENSE = true then
    if inp.busVoltage_V > 14 then disableAll cfg "Over voltage" (logCall Call.getBusVoltage_V s)
    else if inp.busVoltage_V < 10 then
      disableAll cfg "Under voltage" (logCall Call.getBusVoltage_V s)
    else logCall Call.getBusVoltage_V s
  else s

/-- `if (pending_no_op && all_stopped)`: print the `no_op` record and clear the latch. -/
def ackNoOp (all_stopped : Bool) (s : SplitflapTask) : SplitflapTask :=
  if s.pending_no_op = true ∧ all_stopped = true then
    { Serial_print "\x7b\"type\":\"no_op\"\x7d\n" s with pending_no_op := false }
  else s

/-- `if (pending_move_response && all_stopped)`: clear the latch and dump the status. -/
def ackMove (cfg : Config) (all_stopped : Bool) (s : SplitflapTask) : SplitflapTask :=
  if s.pending_move_response = true ∧ all_stopped = true then
    dumpStatus cfg { s with pending_move_response := false }
  else s

/-- The `if (all_idle)` block of `runUpdate`, up to the command interpreter. -/
def idlePrelude (cfg : Config) (inp : TickInput) (all_stopped : Bool) (s : SplitflapTask) :
    SplitflapTask :=
  ackMove cfg all_stopped (ackNoOp all_stopped (voltageCheck cfg inp s))

/-- `SplitflapTask::runUpdate`: one tick, given the bytes waiting on the serial port; returns the
task and the bytes left unread. -/
def runUpdate (cfg : Config) (inp : TickInput) (pending : List Nat) (s : SplitflapTask) :
    SplitflapTask × List Nat :=
  if (advancePhase cfg inp.millis s).all_idle = true then
    (commandLoop cfg (advancePhase cfg inp.millis s).all_stopped pending
      (idlePrelude cfg inp (advancePhase cfg inp.millis s).all_stopped
        (safetyMonitor cfg inp (advancePhase cfg inp.millis s).all_stopped
          (advancePhase cfg inp.millis s).task)), [])
  else
    (safetyMonitor cfg inp (advancePhase cfg inp.millis s).all_stopped
      (advancePhase cfg inp.millis s).task, pending)

/-! ## `run`: start-up, loopback self test, and the two endless loops -/

/-- The task together with the local `loopback_error` of `run`. -/
structure SelfTest where
  task : SplitflapTask
  loopback_error : Bool

/-- `Serial.printf` of the first self-test message. -/
def printBadLoopback (loop_out_index loop_in_index : Nat) (s : SplitflapTask) : SplitflapTask :=
  Serial_print "\n"
    (Serial_printNat loop_in_index
      (Serial_print " but found unexpected value at loopback "
        (Serial_printNat loop_out_index
          (Serial_print "Bad loopback. Set loopback " s))))

/-- `Serial.printf` of the second self-test message. -/
def printBadZero (i : Nat) (s : SplitflapTask) : SplitflapTask :=
  Serial_print " - should have been 0\n"
    (Serial_printNat i (Serial_print "Bad loopback at index " s))

/-- The comparison `actual_bit_mask != expected_bit_mask` of the inner self-test loop, on a
sensor buffer. -/
def loopbackMismatch (sensor_buffer : List Nat) (loop_out_index loop_in_index : Nat) : Bool :=
  decide
    (sensor_buffer.getD (loopbackSensorByte loop_in_index) 0
        &&& loopbackSensorBitMask loop_in_index
      ≠ (if loop_out_index = loop_in_index then loopbackSensorBitMask loop_in_index else 0))

/-- Body of the inner loop of the self test: compare one loopback input with its expectation. -/
def loopbackCheckBody (loop_out_index loop_in_index : Nat) (t : SelfTest) : SelfTest :=
  if loopbackMismatch t.task.sensor_buffer loop_out_index loop_in_index = true then
    { task := printBadLoopback loop_out_index loop_in_index t.task, loopback_error := true }
  else t

/-- Body of the outer loop of the self test: assert one loopback output, transfer twice, check
every input, release the output. -/
def loopbackOutBody (cfg : Config) (loop_out_index : Nat) (t : SelfTest) : SelfTest :=
  let s := setMotorBuffer
    (t.task.motor_buffer.set (loopbackMotorByte cfg loop_out_index)
      (loopbackMotorBitMask loop_out_index)) t.task
  let checked := forLoop cfg.NUM_LOOPBACKS (loopbackCheckBody loop_out_index)
    { task := motor_sensor_io cfg (motor_sensor_io cfg s), loopback_error := t.loopback_error }
  { task := setMotorBuffer
      (checked.task.motor_buffer.set (loopbackMotorByte cfg loop_out_index) 0) checked.task,
    loopback_error := checked.loopback_error }

/-- The condition of the final self-test loop: loopback input `i` does not read zero. -/
def loopbackNonZero (sensor_buffer : List Nat) (i : Nat) : Bool :=
  decide (sensor_buffer.getD (loopbackSensorByte i) 0 &&& loopbackSensorBitMask i ≠ 0)

/-- Body of the final loop of the self test: every loopback input must read zero. -/
def loopbackZeroBody (i : Nat) (t : SelfTest) : SelfTest :=
  if loopbackNonZero t.task.sensor_buffer i = true then
    { task := printBadZero i t.task, loopback_error := true }
  else t

/-- `memset(motor_buffer, 0, MOTOR_BUFFER_LENGTH)`. -/
def clearMotorBuffer (cfg : Config) (motor_buffer : List Nat) : List Nat :=
  (motor_buffer.take cfg.MOTOR_BUFFER_LENGTH).map (fun _ => 0)
    ++ motor_buffer.drop cfg.MOTOR_BUFFER_LENGTH

/-- The first loop of the self test: one loopback output asserted at a time. -/
def loopbackScan (cfg : Config) (s : SplitflapTask) : SelfTest :=
  forLoop cfg.NUM_LOOPBACKS (loopbackOutBody cfg) { task := s, loopback_error := false }

/-- Everything off and two transfers, between the two loops of the self test. -/
def loopbackQuiesce (cfg : Config) (s : SplitflapTask) : SplitflapTask :=
  motor_sensor_io cfg
    (motor_sensor_io cfg (setMotorBuffer (clearMotorBuffer cfg s.motor_buffer) s))

/-- The loopback self test of `run` (compiled when `CHAINLINK` is defined), up to the decision
on `loopback_error`. -/
def selfTest (cfg : Config) (s : SplitflapTask) : SelfTest :=
  forLoop cfg.NUM_LOOPBACKS loopbackZeroBody
    { task := loopbackQuiesce cfg (loopbackScan cfg s).task,
      loopback_error := (loopbackScan cfg s).loopback_error }

/-- Body of the LED acknowledgement loop: pulse the LED of module `i`. -/
def flashBody (cfg : Config) (i : Nat) (s : SplitflapTask) : SplitflapTask :=
  let lit := motor_sensor_io cfg (setMotorBuffer (setLedStatus cfg i true s.motor_buffer) s)
  motor_sensor_io cfg (setMotorBuffer (setLedStatus cfg i false lit.motor_buffer) lit)

/-- The three rounds of LED pulses after a successful self test. -/
def flashRounds (cfg : Config) (s : SplitflapTask) : SplitflapTask :=
  forLoop 3 (fun _ s => logCall Call.wdt_reset (forLoop cfg.NUM_MODULES (flashBody cfg) s)) s

/-- The loop `modules[i]->Init(); modules[i]->GoHome();` of `run`. -/
def homeAll (cfg : Config) (s : SplitflapTask) : SplitflapTask :=
  forLoop cfg.NUM_MODULES
    (fun i s => onModule i (Call.GoHome i) SplitflapModule.GoHome
      (onModule i (Call.Init i) (cfg.Init i) s)) s

/-- `initialize_modules()` followed by the first `motor_sensor_io()`. -/
def bringUp (cfg : Config) (s : SplitflapTask) : SplitflapTask :=
  motor_sensor_io cfg
    { s with motor_buffer := (cfg.initialize_modules s.motor_buffer s.sensor_buffer).1,
             sensor_buffer := (cfg.initialize_modules s.motor_buffer s.sensor_buffer).2 }

/-- The loop `recv_buffer[i] = 0` of `run`. -/
def clearRecvBuffer (cfg : Config) (s : SplitflapTask) : SplitflapTask :=
  { s with recv_buffer :=
      forLoop cfg.NUM_MODULES (fun i recv_buffer => recv_buffer.set i 0) s.recv_buffer }

/-- The `init` record printed by `run`. -/
def printInit (cfg : Config) (s : SplitflapTask) : SplitflapTask :=
  Serial_print "\x7d\n"
    (Serial_printNat cfg.NUM_MODULES
      (Serial_print "\x7b\"type\":\"init\", \"num_modules\":" (Serial_print "\n\n\n" s)))

/-- The prologue of `run`, before the self test. -/
def runPrologue (cfg : Config) (s : SplitflapTask) : SplitflapTask :=
  printInit cfg (clearRecvBuffer cfg (bringUp cfg s))

/-- Which of the two endless loops `run` ends up in, with the task state on entry. -/
inductive RunPhase where
  /-- The `while(1)` under `if (loopback_error)`. -/
  | diagnosticHold (s : SplitflapTask)
  /-- The final `while(1)`, entered after `Init`/`GoHome` of every module. -/
  | controlLoop (s : SplitflapTask)

/-- The part of `run` that precedes its endless loops. -/
def runStartup (cfg : Config) (s : SplitflapTask) : RunPhase :=
  if cfg.CHAINLINK = true then
    if (selfTest cfg (runPrologue cfg s)).loopback_error = true then
      RunPhase.diagnosticHold (selfTest cfg (runPrologue cfg s)).task
    else
      RunPhase.controlLoop (homeAll cfg (flashRounds cfg (selfTest cfg (runPrologue cfg s)).task))
  else RunPhase.controlLoop (homeAll cfg (runPrologue cfg s))

/-- One iteration of the diagnostic hold. -/
def holdIteration (cfg : Config) (s : SplitflapTask) : SplitflapTask :=
  logCall Call.wdt_reset (updateStateCache cfg s)

/-- What the environment supplies to one iteration of the control loop: the bytes that arrived
on the serial port since the previous iteration, and the readings of the tick. -/
structure LoopInput where
  arrived : List Nat
  tick : TickInput

/-- The task and the serial receive queue, as carried around the control loop. -/
structure LoopState where
  task : SplitflapTask
  pending : List Nat

/-- One iteration of the control loop: `runUpdate(); updateStateCache(); esp_task_wdt_reset()`. -/
def controlIteration (cfg : Config) (inp : LoopInput) (l : LoopState) : LoopState :=
  let r := runUpdate cfg inp.tick (l.pending ++ inp.arrived) (logCall Call.runUpdate l.task)
  { task := logCall Call.wdt_reset (updateStateCache cfg r.1), pending := r.2 }

/-- The first `inputs.length` iterations of whichever endless loop `run` enters. -/
def run (cfg : Config) (inputs : List LoopInput) (s : SplitflapTask) : LoopState :=
  match runStartup cfg s with
  | RunPhase.diagnosticHold s =>
    inputs.foldl (fun l inp =>
      { task := holdIteration cfg l.task, pending := l.pending ++ inp.arrived })
      { task := s, pending := [] }
  | RunPhase.controlLoop s =>
    inputs.foldl (fun l inp => controlIteration cfg inp l) { task := s, pending := [] }

/-! ## A concrete build, used to evaluate the definitions -/

/-- A toy `Update`: a homing module first starts turning, then reaches `NORMAL` at flap 0; a
`NORMAL` module steps one flap towards its target and is at rest once it shows it. -/
def exampleUpdate (_i : Nat) (m : SplitflapModule) (_sensor_buffer motor_buffer : List Nat) :
    SplitflapModule × List Nat :=
  match m.state with
  | State.LOOK_FOR_HOME =>
    if m.current_accel_step = 0 then ({ m with current_accel_step := 1 }, motor_buffer)
    else
      ({ m with state := State.NORMAL, current_flap_index := 0, current_accel_step := 0 },
        motor_buffer)
  | State.NORMAL =>
    if m.current_flap_index = m.target_flap_index then
      ({ m with current_accel_step := 0 }, motor_buffer)
    else
      ({ m with current_flap_index := (m.current_flap_index + 1) % 4, current_accel_step := 1 },
        motor_buffer)
  | _ => (m, motor_buffer)

/-- A toy bus with two working loopback channels: loopback output `0` (byte 2, bit 7) returns on
sensor bit 6 and loopback output `1` (byte 1, bit 3) on sensor bit 7, one transfer later. -/
def exampleBus : List (List Nat) → List Nat
  | _ :: previous :: _ =>
    [(if previous.getD 2 0 &&& 128 ≠ 0 then 64 else 0)
      ||| (if previous.getD 1 0 &&& 8 ≠ 0 then 128 else 0)]
  | _ => [0]

/-- Three modules, alphabet `" ABC"`, one chainlink group. -/
def exampleConfig : Config where
  NUM_MODULES := 3
  NUM_FLAPS := 4
  flaps := [32, 65, 66, 67]
  FORCE_FULL_ROTATION := false
  MOTOR_BUFFER_LENGTH := 4
  NUM_LOOPBACKS := 2
  CHAINLINK := true
  INA219_POWER_SENSE := true
  Update := exampleUpdate
  Init := fun _ m => m
  GetHomeState := fun _ _ sensor_buffer => sensor_buffer.getD 0 0 % 2 = 1
  motor_sensor_io := exampleBus
  initialize_modules := fun motor_buffer sensor_buffer => (motor_buffer, sensor_buffer)

/-- A module at rest showing flap `k` with target `k`. -/
def restingModule (k : Nat) : SplitflapModule :=
  { state := State.NORMAL, current_accel_step := 0, current_flap_index := k,
    target_flap_index := k, count_missed_home := 0, count_unexpected_home := 0 }

/-- A task of `exampleConfig` with three resting modules and nothing pending. -/
def exampleTask : SplitflapTask where
  modules := [restingModule 0, restingModule 0, restingModule 3]
  motor_buffer := [0, 0, 0, 0]
  sensor_buffer := [0]
  bus_history := []
  recv_buffer := [0, 0, 0]
  recv_count := 0
  sensor_test_ := false
  pending_no_op := false
  pending_move_response := false
  was_stopped := true
  stopped_at_millis := 0
  lastCurrentReadMillis := 0
  currentmA := 0
  disabled := false
  state_cache_ := [⟨0, State.NORMAL⟩, ⟨0, State.NORMAL⟩, ⟨3, State.NORMAL⟩]
  serial_out := []
  calls := []

/-- The example task with module 0 re-homing: after its next `Update` it is still in
`LOOK_FOR_HOME` but turning, so the tick is idle without being stopped. -/
def homingTask : SplitflapTask :=
  { exampleTask with modules := [(restingModule 0).GoHome, restingModule 0, restingModule 3] }

/-- The example task with module 0 sent to flap 2: its next `Update` sets it turning in
`NORMAL`, so the tick is not idle. -/
def movingTask : SplitflapTask :=
  { exampleTask with
    modules := [(restingModule 0).GoToFlapIndex 2, restingModule 0, restingModule 3] }

/-! ## Views used in the statements -/

/-- The fields of the task that only the command interpreter and the acknowledgment code
write. -/
structure CommandView where
  recv_buffer : List Nat
  recv_count : Nat
  sensor_test_ : Bool
  pending_no_op : Bool
  pending_move_response : Bool
  deriving DecidableEq

/-- Projection of a task on its `CommandView`. -/
def SplitflapTask.view (s : SplitflapTask) : CommandView :=
  { recv_buffer := s.recv_buffer, recv_count := s.recv_count, sensor_test_ := s.sensor_test_,
    pending_no_op := s.pending_no_op, pending_move_response := s.pending_move_response }

/-- The calls by which the command interpreter drives the modules: `go_to`, `go_home` and the
fault-counter reset. -/
def Call.isCommand : Call → Bool
  | Call.GoToFlapIndex _ _ => true
  | Call.GoHome _ => true
  | Call.ResetErrorCounters _ => true
  | _ => false

/-- The call log of `r` is the call log of `s` followed by calls that all satisfy `P`. -/
def CallsExtend (P : Call → Prop) (s r : SplitflapTask) : Prop :=
  ∃ added : List Call, r.calls = s.calls ++ added ∧ ∀ c ∈ added, P c

/-- The `go_to` that iteration `i` of `showString` issues on the modules of `s`, if any. -/
def showStringCall (cfg : Config) (str : List Nat) (s : SplitflapTask) (i : Nat) :
    Option Call :=
  if findFlapIndex cfg (str.getD i 0) ≠ -1
      ∧ (cfg.FORCE_FULL_ROTATION = true
        ∨ findFlapIndex cfg (str.getD i 0)
          ≠ (((s.modules.getD i default).GetTargetFlapIndex : Nat) : Int)) then
    some (Call.GoToFlapIndex i (findFlapIndex cfg (str.getD i 0)).toNat)
  else none

/-- The sensor buffer that the self test, started on `s`, reads back in outer iteration `i`:
after the iterations before `i`, loopback output `i` is asserted and two transfers are made. -/
def loopbackSensed (cfg : Config) (s : SplitflapTask) (i : Nat) : List Nat :=
  (motor_sensor_io cfg (motor_sensor_io cfg
    (setMotorBuffer
      ((forLoop i (loopbackOutBody cfg)
          { task := s, loopback_error := false }).task.motor_buffer.set
        (loopbackMotorByte cfg i) (loopbackMotorBitMask i))
      (forLoop i (loopbackOutBody cfg)
        { task := s, loopback_error := false }).task))).sensor_buffer

/-- The sensor buffer that the self test, started on `s`, reads back after clearing every
output and making two transfers. -/
def loopbackQuiesced (cfg : Config) (s : SplitflapTask) : List Nat :=
  (loopbackQuiesce cfg (loopbackScan cfg s).task).sensor_buffer

/-- The wiring condition checked by the self test started on `s`: for all channels
`i, j < NUM_LOOPBACKS`, with output `i` asserted the loopback input bit `j` reads back set
exactly when `j = i`; and with every output cleared every loopback input bit reads zero. -/
def LoopbackWiringOk (cfg : Config) (s : SplitflapTask) : Prop :=
  (∀ i, i < cfg.NUM_LOOPBACKS → ∀ j, j < cfg.NUM_LOOPBACKS →
      (loopbackSensed cfg s i).getD (loopbackSensorByte j) 0 &&& loopbackSensorBitMask j
        = if i = j then loopbackSensorBitMask j else 0)
  ∧ ∀ i, i < cfg.NUM_LOOPBACKS →
      (loopbackQuiesced cfg s).getD (loopbackSensorByte i) 0 &&& loopbackSensorBitMask i = 0

instance (cfg : Config) (s : SplitflapTask) : Decidable (LoopbackWiringOk cfg s) := by
  unfold LoopbackWiringOk; infer_instance

/-- The example build on a dead bus: every transfer reads zero. -/
def deadBusConfig : Config := { exampleConfig with motor_sensor_io := fun _ => [0] }

/-- The snapshot entry of module `i`: its current flap index and its state. -/
def snapshotEntry (s : SplitflapTask) (i : Nat) : SplitflapModuleState :=
  { flapIndex := (s.modules.getD i default).GetCurrentFlapIndex,
    state := (s.modules.getD i default).state }

/-- The calls that belong to normal operation: module `Init`/`GoHome` and `runUpdate`. -/
def Call.startsOperation : Call → Bool
  | Call.Init _ => true
  | Call.GoHome _ => true
  | Call.runUpdate => true
  | _ => false

/-- The local `byteIndex` of `setLedStatus` for a module index. -/
def ledByteIndex (cfg : Config) (moduleIndex : Nat) : Nat :=
  (((cfg.MOTOR_BUFFER_LENGTH : Int) - 1 - ((moduleIndex / 6 * 4 : Nat) : Int)
    - (if moduleIndex % 6 < 3 then 1 else 2)) % 256).toNat

/-- The local `bitMask` of `setLedStatus` for a module index. -/
def ledBitMask (moduleIndex : Nat) : Nat :=
  if moduleIndex % 6 < 3 then 1 <<< (4 + moduleIndex % 6) else 1 <<< (moduleIndex % 6 - 3)

/-- The number of the bit selected by `ledBitMask`. -/
def ledBit (moduleIndex : Nat) : Nat :=
  if moduleIndex % 6 < 3 then 4 + moduleIndex % 6 else moduleIndex % 6 - 3

/-- The number of the bit selected by `loopbackMotorBitMask`. -/
def loopbackMotorBit (loopbackIndex : Nat) : Nat :=
  if loopbackIndex % 2 = 0 then 7 else 3

/-- A module halted on a sensor error, with both fault counters raised. -/
def faultedModule : SplitflapModule :=
  { state := State.SENSOR_ERROR, current_accel_step := 0, current_flap_index := 0,
    target_flap_index := 0, count_missed_home := 2, count_unexpected_home := 1 }

/-- The example task in sensor-test mode, with module 1 faulted and `"AB"` accumulated. -/
def sensorTestTask : SplitflapTask :=
  { exampleTask with
    modules := [restingModule 0, faultedModule, restingModule 3],
    recv_buffer := [65, 66, 0], recv_count := 2, sensor_test_ := true }

/-- The task with its receive accumulator (`recv_buffer`, `recv_count`) blanked: two tasks have
the same image exactly when they agree on every other field. -/
def SplitflapTask.withoutRecv (s : SplitflapTask) : SplitflapTask :=
  { s with recv_buffer := [], recv_count := 0 }

/-- The task with the no-op latch set to `c` and the bytes `p` put in front of everything it has
written to the serial port: the same task as far as every other field is concerned. -/
def SplitflapTask.retag (c : Bool) (p : List Nat) (s : SplitflapTask) : SplitflapTask :=
  { s with pending_no_op := c, serial_out := p ++ s.serial_out }

/-- Whether loopback output `k` is asserted in a motor buffer: the bit that
`loopbackMotorByte`/`loopbackMotorBitMask` select for the channel is set. -/
def loopbackAsserted (cfg : Config) (motor_buffer : List Nat) (k : Nat) : Bool :=
  decide (motor_buffer.getD (loopbackMotorByte cfg k) 0 &&& loopbackMotorBitMask k ≠ 0)

/-- The motor buffer `base` with loopback output `i` asserted: the byte of the channel holds the
channel's mask. -/
def assertLoopback (cfg : Config) (base : List Nat) (i : Nat) : List Nat :=
  base.set (loopbackMotorByte cfg i) (loopbackMotorBitMask i)

/-- The motor buffers clocked out (most recent first) once the channels `0, .., n - 1` have been
tested on top of the history `h0`: for each channel in turn, the buffer with that channel
asserted, twice. -/
def selfTestHistory (cfg : Config) (base : List Nat) (h0 : List (List Nat)) :
    Nat → List (List Nat)
  | 0 => h0
  | n + 1 =>
    assertLoopback cfg base n :: assertLoopback cfg base n :: selfTestHistory cfg base h0 n

/-- The wiring condition in terms of the bus alone, for a test that starts from the motor buffer
`base` and the history `h0`: for all channels `i, j < NUM_LOOPBACKS`, after two transfers of the
buffer with channel `i` asserted the loopback input `j` reads set exactly when `j = i`; and after
two transfers of the all-zero buffer every loopback input reads clear. -/
def LoopbackIsolated (cfg : Config) (base : List Nat) (h0 : List (List Nat)) : Prop :=
  (∀ i, i < cfg.NUM_LOOPBACKS → ∀ j, j < cfg.NUM_LOOPBACKS →
      (loopbackNonZero (cfg.motor_sensor_io (selfTestHistory cfg base h0 (i + 1))) j = true
        ↔ j = i))
  ∧ ∀ j, j < cfg.NUM_LOOPBACKS →
      loopbackNonZero
        (cfg.motor_sensor_io
          (List.replicate cfg.MOTOR_BUFFER_LENGTH 0 :: List.replicate cfg.MOTOR_BUFFER_LENGTH 0
            :: selfTestHistory cfg base h0 cfg.NUM_LOOPBACKS)) j = false

instance (cfg : Config) (base : List Nat) (h0 : List (List Nat)) :
    Decidable (LoopbackIsolated cfg base h0) := by
  unfold LoopbackIsolated; infer_instance

/-! # Theorems -/

/-! ## Loops -/

theorem forLoop_zero {σ : Type} (body : Nat → σ → σ) (s : σ) : forLoop 0 body s = s := rfl

theorem forLoop_succ {σ : Type} (n : Nat) (body : Nat → σ → σ) (s : σ) :
    forLoop (n + 1) body s = body n (forLoop n body s) := by
  simp [forLoop, List.range_succ, List.foldl_append]

/-- A property preserved by every iteration is preserved by the loop. -/
theorem forLoop_inv {σ : Type} (P : σ → Prop) (body : Nat → σ → σ)
    (hbody : ∀ i s, P s → P (body i s)) (n : Nat) (s : σ) (hs : P s) :
    P (forLoop n body s) := by
  induction n with
  | zero => exact hs
  | succ n ih => rw [forLoop_succ]; exact hbody n _ ih

/-- A projection left alone by every iteration is left alone by the loop. -/
theorem forLoop_frame {σ α : Type} (f : σ → α) (body : Nat → σ → σ)
    (hbody : ∀ i s, f (body i s) = f s) (n : Nat) (s : σ) :
    f (forLoop n body s) = f s := by
  induction n with
  | zero => rfl
  | succ n ih => rw [forLoop_succ, hbody, ih]

/-! ## The command view is framed by everything but the interpreter -/

@[simp] theorem logCall_view (c : Call) (s : SplitflapTask) : (logCall c s).view = s.view := rfl

@[simp] theorem Serial_print_view (str : String) (s : SplitflapTask) :
    (Serial_print str s).view = s.view := rfl

@[simp] theorem Serial_printNat_view (n : Nat) (s : SplitflapTask) :
    (Serial_printNat n s).view = s.view := rfl

@[simp] theorem Serial_write_view (b : Nat) (s : SplitflapTask) :
    (Serial_write b s).view = s.view := rfl

@[simp] theorem setModule_view (i : Nat) (m : SplitflapModule) (s : SplitflapTask) :
    (setModule i m s).view = s.view := rfl

@[simp] theorem setMotorBuffer_view (b : List Nat) (s : SplitflapTask) :
    (setMotorBuffer b s).view = s.view := rfl

@[simp] theorem motor_sensor_io_view (cfg : Config) (s : SplitflapTask) :
    (motor_sensor_io cfg s).view = s.view := rfl

@[simp] theorem onModule_view (i : Nat) (c : Call) (f : SplitflapModule → SplitflapModule)
    (s : SplitflapTask) : (onModule i c f s).view = s.view := by
  unfold onModule; split <;> rfl

@[simp] theorem showStringGoTo_view (cfg : Config) (i : Nat) (index : Int) (s : SplitflapTask) :
    (showStringGoTo cfg i index s).view = s.view := by
  unfold showStringGoTo; split_ifs <;> simp

@[simp] theorem showStringBody_view (cfg : Config) (str : List Nat) (i : Nat)
    (s : SplitflapTask) : (showStringBody cfg str i s).view = s.view := by
  simp [showStringBody]

@[simp] theorem showString_view (cfg : Config) (str : List Nat) (n : Nat) (s : SplitflapTask) :
    (showString cfg str n s).view = { s.view with pending_move_response := true } := by
  unfold showString
  rw [Serial_print_view, forLoop_frame SplitflapTask.view _ (showStringBody_view cfg str)]
  rfl

@[simp] theorem resetAll_view (cfg : Config) (s : SplitflapTask) :
    (resetAll cfg s).view = s.view :=
  forLoop_frame SplitflapTask.view _ (fun i s => by simp) _ s

@[simp] theorem disableAll_view (cfg : Config) (message : String) (s : SplitflapTask) :
    (disableAll cfg message s).view = s.view := by
  have h : (disableModules cfg s).view = s.view :=
    forLoop_frame SplitflapTask.view _ (fun i s => by simp) _ s
  unfold disableAll announceDisabled
  split_ifs
  · simpa using h
  · rw [Serial_print_view, Serial_print_view]
    exact h

@[simp] theorem dumpStatus_view (cfg : Config) (s : SplitflapTask) :
    (dumpStatus cfg s).view = s.view := by
  unfold dumpStatus
  rw [Serial_print_view, forLoop_frame SplitflapTask.view (dumpStatusBody cfg)]
  · rfl
  · intro i s
    unfold dumpStatusBody dumpModule
    split_ifs <;> simp

@[simp] theorem updateBody_view (cfg : Config) (fg fp i : Nat) (t : TickState) :
    (updateBody cfg fg fp i t).task.view = t.task.view := by
  unfold updateBody
  split
  · rfl
  · simp [updateModule]

@[simp] theorem moduleLoop_view (cfg : Config) (now : Nat) (s : SplitflapTask) :
    (moduleLoop cfg now s).task.view = s.view :=
  forLoop_frame (fun t : TickState => t.task.view) _ (updateBody_view cfg _ _) _ _

@[simp] theorem noteStopped_view (now : Nat) (b : Bool) (s : SplitflapTask) :
    (noteStopped now b s).view = s.view := by
  unfold noteStopped; split_ifs <;> rfl

@[simp] theorem advancePhase_view (cfg : Config) (now : Nat) (s : SplitflapTask) :
    (advancePhase cfg now s).task.view = s.view := by
  unfold advancePhase
  split_ifs
  · simp
  · simp only [motor_sensor_io_view]
    rw [forLoop_frame SplitflapTask.view (sensorLedBody cfg) (fun i s => rfl)]
    rfl

@[simp] theorem currentCheck_view (cfg : Config) (inp : TickInput) (st : Bool)
    (s : SplitflapTask) : (currentCheck cfg inp st s).view = s.view := by
  unfold currentCheck; split_ifs <;> simp

@[simp] theorem safetyMonitor_view (cfg : Config) (inp : TickInput) (st : Bool)
    (s : SplitflapTask) : (safetyMonitor cfg inp st s).view = s.view := by
  unfold safetyMonitor
  split_ifs
  · exact (currentCheck_view cfg inp st (sampleCurrent inp s)).trans rfl
  · rfl

@[simp] theorem voltageCheck_view (cfg : Config) (inp : TickInput) (s : SplitflapTask) :
    (voltageCheck cfg inp s).view = s.view := by
  unfold voltageCheck; split_ifs <;> simp

@[simp] theorem updateStateCache_view (cfg : Config) (s : SplitflapTask) :
    (updateStateCache cfg s).view = s.view := by
  unfold updateStateCache; split_ifs <;> rfl

theorem ackNoOp_view (st : Bool) (s : SplitflapTask) :
    (ackNoOp st s).view = { s.view with pending_no_op := s.pending_no_op && !st } := by
  unfold ackNoOp
  split_ifs with h
  · simp [SplitflapTask.view, Serial_print, h.1, h.2]
  · cases hp : s.pending_no_op <;> cases st <;> simp_all [SplitflapTask.view]

theorem ackMove_view (cfg : Config) (st : Bool) (s : SplitflapTask) :
    (ackMove cfg st s).view
      = { s.view with pending_move_response := s.pending_move_response && !st } := by
  unfold ackMove
  split_ifs with h
  · rw [dumpStatus_view]
    simp [SplitflapTask.view, h.2]
  · cases hp : s.pending_move_response <;> cases st <;> simp_all [SplitflapTask.view]

theorem idlePrelude_view (cfg : Config) (inp : TickInput) (st : Bool) (s : SplitflapTask) :
    (idlePrelude cfg inp st s).view
      = { s.view with
          pending_no_op := s.pending_no_op && !st,
          pending_move_response := s.pending_move_response && !st } := by
  unfold idlePrelude
  rw [ackMove_view, ackNoOp_view, voltageCheck_view]
  have h1 : (ackNoOp st (voltageCheck cfg inp s)).pending_move_response
      = s.pending_move_response := by
    have := congrArg CommandView.pending_move_response
      ((ackNoOp_view st (voltageCheck cfg inp s)).trans
        (by rw [voltageCheck_view]))
    exact this
  have h2 : (voltageCheck cfg inp s).pending_no_op = s.pending_no_op :=
    congrArg CommandView.pending_no_op (voltageCheck_view cfg inp s)
  rw [h1, h2]

/-! ## C1: the receive buffer never overflows -/

theorem appendByte_eq (cfg : Config) (b : Nat) (s : SplitflapTask) :
    appendByte cfg b s =
      if s.recv_count < cfg.NUM_MODULES then
        { s with recv_buffer := s.recv_buffer.set s.recv_count (b % 256),
                 recv_count := (s.recv_count + 1) % 256 }
      else s := by
  unfold appendByte
  by_cases h : s.recv_count < cfg.NUM_MODULES
  · rw [if_neg (by omega), if_pos h]
  · rw [if_pos (by omega), if_neg h]

/-- The interpreter never moves `recv_count` past `NUM_MODULES`. -/
theorem processByte_recv_count_le (cfg : Config) (all_stopped : Bool) (b : Nat)
    (s : SplitflapTask) (h : s.recv_count ≤ cfg.NUM_MODULES) :
    (processByte cfg all_stopped b s).recv_count ≤ cfg.NUM_MODULES := by
  unfold processByte
  split_ifs with h1 h2 h3 h4 h5 h6
  · exact h
  · rw [show (resetAll cfg s).recv_count = s.recv_count from
      congrArg CommandView.recv_count (resetAll_view cfg s)]
    exact h
  · exact h
  · exact Nat.zero_le _
  · rw [show (showString cfg s.recv_buffer s.recv_count s).recv_count = s.recv_count from
      congrArg CommandView.recv_count (showString_view cfg _ _ s)]
    exact h
  · rw [appendByte_eq]
    split_ifs with h7
    · exact le_trans (Nat.mod_le _ _) h7
    · exact h
  · exact h

theorem commandLoop_recv_count_le (cfg : Config) (all_stopped : Bool) (bytes : List Nat)
    (s : SplitflapTask) (h : s.recv_count ≤ cfg.NUM_MODULES) :
    (commandLoop cfg all_stopped bytes s).recv_count ≤ cfg.NUM_MODULES := by
  induction bytes generalizing s with
  | nil => exact h
  | cons b rest ih => exact ih _ (processByte_recv_count_le cfg all_stopped b s h)

theorem runUpdate_recv_count_le (cfg : Config) (inp : TickInput) (pending : List Nat)
    (s : SplitflapTask) (h : s.recv_count ≤ cfg.NUM_MODULES) :
    (runUpdate cfg inp pending s).1.recv_count ≤ cfg.NUM_MODULES := by
  have h1 : (safetyMonitor cfg inp (advancePhase cfg inp.millis s).all_stopped
      (advancePhase cfg inp.millis s).task).recv_count = s.recv_count :=
    congrArg CommandView.recv_count
      ((safetyMonitor_view cfg inp _ _).trans (advancePhase_view cfg inp.millis s))
  unfold runUpdate
  split_ifs
  · apply commandLoop_recv_count_le
    rw [show (idlePrelude cfg inp (advancePhase cfg inp.millis s).all_stopped
        (safetyMonitor cfg inp (advancePhase cfg inp.millis s).all_stopped
          (advancePhase cfg inp.millis s).task)).recv_count = _ from
      congrArg CommandView.recv_count (idlePrelude_view cfg inp _ _)]
    exact le_of_eq_of_le h1 h
  · exact le_of_eq_of_le h1 h

theorem controlIteration_recv_count_le (cfg : Config) (inp : LoopInput) (l : LoopState)
    (h : l.task.recv_count ≤ cfg.NUM_MODULES) :
    (controlIteration cfg inp l).task.recv_count ≤ cfg.NUM_MODULES := by
  unfold controlIteration
  simp only
  rw [show (logCall Call.wdt_reset (updateStateCache cfg
      (runUpdate cfg inp.tick (l.pending ++ inp.arrived)
        (logCall Call.runUpdate l.task)).1)).recv_count
      = (runUpdate cfg inp.tick (l.pending ++ inp.arrived)
        (logCall Call.runUpdate l.task)).1.recv_count from
    congrArg CommandView.recv_count
      ((logCall_view Call.wdt_reset _).trans (updateStateCache_view cfg _))]
  exact runUpdate_recv_count_le cfg _ _ _ h

theorem controlLoop_recv_count_le (cfg : Config) (inputs : List LoopInput) (l : LoopState)
    (h : l.task.recv_count ≤ cfg.NUM_MODULES) :
    (inputs.foldl (fun l inp => controlIteration cfg inp l) l).task.recv_count
      ≤ cfg.NUM_MODULES := by
  induction inputs generalizing l with
  | nil => exact h
  | cons inp rest ih => exact ih _ (controlIteration_recv_count_le cfg inp l h)

theorem processByte_recv_buffer (cfg : Config) (all_stopped : Bool) (b : Nat)
    (s : SplitflapTask) :
    (processByte cfg all_stopped b s).recv_buffer =
      if (¬ (b = 37 ∧ all_stopped = true) ∧ s.sensor_test_ = false
          ∧ b ≠ 64 ∧ b ≠ 35 ∧ b ≠ 61 ∧ b ≠ 10) ∧ s.recv_count < cfg.NUM_MODULES then
        s.recv_buffer.set s.recv_count (b % 256)
      else s.recv_buffer := by
  unfold processByte
  split_ifs with h1 h2 h3 h4 h5 h6 h7 h8 h9 <;>
    first
    | rfl
    | exact congrArg CommandView.recv_buffer (resetAll_view cfg s)
    | exact congrArg CommandView.recv_buffer (showString_view cfg _ _ s)
    | (rw [appendByte_eq]; split_ifs <;> first | rfl | omega | tauto)
    | tauto

/-- C1. Receive-buffer bound: from `recv_count = 0`, after any number of control-loop iterations
fed any input bytes, and after every single byte inside a tick, `recv_count ≤ NUM_MODULES`;
the interpreter writes `recv_buffer` only at index `recv_count` and only when
`recv_count < NUM_MODULES`; and a non-command byte arriving at `recv_count = NUM_MODULES` leaves
`recv_buffer` and `recv_count` unchanged. -/
theorem recv_buffer_never_overflows (cfg : Config) :
    (∀ (inputs : List LoopInput) (l : LoopState), l.task.recv_count = 0 →
      (inputs.foldl (fun l inp => controlIteration cfg inp l) l).task.recv_count
        ≤ cfg.NUM_MODULES)
    ∧ (∀ (all_stopped : Bool) (bytes : List Nat) (s : SplitflapTask),
        s.recv_count ≤ cfg.NUM_MODULES →
        (commandLoop cfg all_stopped bytes s).recv_count ≤ cfg.NUM_MODULES)
    ∧ (∀ (all_stopped : Bool) (b : Nat) (s : SplitflapTask),
        (processByte cfg all_stopped b s).recv_buffer =
          if (¬ (b = 37 ∧ all_stopped = true) ∧ s.sensor_test_ = false
              ∧ b ≠ 64 ∧ b ≠ 35 ∧ b ≠ 61 ∧ b ≠ 10) ∧ s.recv_count < cfg.NUM_MODULES then
            s.recv_buffer.set s.recv_count (b % 256)
          else s.recv_buffer)
    ∧ (∀ (all_stopped : Bool) (b : Nat) (s : SplitflapTask),
        b ∉ [37, 64, 35, 61, 10] → s.recv_count = cfg.NUM_MODULES →
        (processByte cfg all_stopped b s).recv_buffer = s.recv_buffer
          ∧ (processByte cfg all_stopped b s).recv_count = s.recv_count) := by
  refine ⟨fun inputs l h => controlLoop_recv_count_le cfg inputs l (by omega),
    commandLoop_recv_count_le cfg, processByte_recv_buffer cfg, ?_⟩
  intro all_stopped b s hb hfull
  simp only [List.mem_cons, List.mem_singleton, List.not_mem_nil, or_false, not_or] at hb
  obtain ⟨h37, h64, h35, h61, h10⟩ := hb
  unfold processByte
  rw [if_neg (fun h => h37 h.1)]
  split_ifs with hs
  · rw [appendByte_eq, if_neg (by omega)]
    exact ⟨rfl, rfl⟩
  · exact ⟨rfl, rfl⟩

/-- Witness for C1 on the three-module build: a full buffer drops a further character. -/
theorem recv_buffer_never_overflows_witness :
    (commandLoop exampleConfig true [65, 66, 67, 68] exampleTask).recv_count ≤ 3
    ∧ (processByte exampleConfig true 68
          (commandLoop exampleConfig true [65, 66, 67] exampleTask)).recv_buffer = [65, 66, 67]
    ∧ (processByte exampleConfig true 68
          (commandLoop exampleConfig true [65, 66, 67] exampleTask)).recv_count = 3 :=
  ⟨(recv_buffer_never_overflows exampleConfig).2.1 true [65, 66, 67, 68] exampleTask
      (by decide),
    ((recv_buffer_never_overflows exampleConfig).2.2.2 true 68
      (commandLoop exampleConfig true [65, 66, 67] exampleTask) (by decide) (by decide)).1.trans
      (by decide),
    ((recv_buffer_never_overflows exampleConfig).2.2.2 true 68
      (commandLoop exampleConfig true [65, 66, 67] exampleTask) (by decide) (by decide)).2.trans
      (by decide)⟩

/-! ## C2: targets set by `showString` -/

theorem getD_set_eq {α : Type} (l : List α) (i j : Nat) (a d : α) :
    (l.set i a).getD j d = if i = j ∧ j < l.length then a else l.getD j d := by
  simp only [List.getD_eq_getElem?_getD, List.getElem?_set]
  by_cases hij : i = j
  · subst hij
    by_cases hl : i < l.length
    · simp [hl]
    · have : l[i]? = none := List.getElem?_eq_none_iff.mpr (by omega)
      simp [hl, this]
  · simp [hij]

theorem set_getD_self {α : Type} (l : List α) (i : Nat) (d : α) :
    l.set i (l.getD i d) = l := by
  apply List.ext_getElem?
  intro j
  rw [List.getElem?_set]
  by_cases hij : i = j
  · subst hij
    by_cases hl : i < l.length
    · simp [hl, List.getElem?_eq_getElem hl]
    · simp [hl, List.getElem?_eq_none_iff.mpr (Nat.le_of_not_lt hl)]
  · simp [hij]

theorem onModule_modules (i : Nat) (c : Call) (f : SplitflapModule → SplitflapModule)
    (s : SplitflapTask) :
    (onModule i c f s).modules = s.modules.set i (f (s.modules.getD i default)) := by
  unfold onModule
  split
  next h =>
    rw [List.getElem?_eq_none_iff] at h
    exact (List.set_eq_of_length_le h).symm
  next m h =>
    have : s.modules.getD i default = m := by
      simp [List.getD_eq_getElem?_getD, h]
    rw [this]; rfl

/-- A module whose target is `index`: the module itself if it already targets `index`. -/
theorem goTo_of_target_eq (m : SplitflapModule) (index : Nat)
    (h : m.target_flap_index = index) : m.GoToFlapIndex index = m := by
  cases m; simp_all [SplitflapModule.GoToFlapIndex]

theorem findFlapIndexLoop_range (cfg : Config) (c : Nat) (i n : Nat) :
    findFlapIndexLoop cfg c i n = -1
      ∨ ((i : Int) ≤ findFlapIndexLoop cfg c i n ∧ findFlapIndexLoop cfg c i n < (i + n : Nat)) := by
  induction n generalizing i with
  | zero => left; rfl
  | succ n ih =>
    unfold findFlapIndexLoop
    split_ifs
    · right; constructor <;> omega
    · rcases ih (i + 1) with h | h
      · left; exact h
      · right; constructor <;> omega

/-- The result of `findFlapIndex` is `-1` or an index into the alphabet. -/
theorem findFlapIndex_range (cfg : Config) (c : Nat) :
    findFlapIndex cfg c = -1
      ∨ (0 ≤ findFlapIndex cfg c ∧ findFlapIndex cfg c < cfg.NUM_FLAPS) := by
  unfold findFlapIndex
  rcases findFlapIndexLoop_range cfg c 0 cfg.NUM_FLAPS with h | h
  · left; exact h
  · right; constructor <;> omega

theorem showStringGoTo_modules (cfg : Config) (i : Nat) (index : Int) (s : SplitflapTask) :
    (showStringGoTo cfg i index s).modules =
      if index ≠ -1 then
        s.modules.set i ((s.modules.getD i default).GoToFlapIndex index.toNat)
      else s.modules := by
  unfold showStringGoTo
  split_ifs with h1 h2
  · exact onModule_modules _ _ _ _
  · have h3 : (s.modules.getD i default).target_flap_index = index.toNat := by
      have : index = (((s.modules.getD i default).GetTargetFlapIndex : Nat) : Int) := by
        by_contra hne; exact h2 (Or.inr hne)
      rw [this]; rfl
    rw [goTo_of_target_eq _ _ h3, set_getD_self]
  · rfl

theorem showStringBody_modules (cfg : Config) (str : List Nat) (i : Nat) (s : SplitflapTask) :
    (showStringBody cfg str i s).modules =
      if findFlapIndex cfg (str.getD i 0) ≠ -1 then
        s.modules.set i
          ((s.modules.getD i default).GoToFlapIndex (findFlapIndex cfg (str.getD i 0)).toNat)
      else s.modules := by
  unfold showStringBody
  exact showStringGoTo_modules cfg i _ s

/-- The module array after `k` iterations of the loop of `showString`. -/
theorem showStringLoop_modules (cfg : Config) (str : List Nat) (k : Nat) (s : SplitflapTask) :
    (forLoop k (showStringBody cfg str) s).modules.length = s.modules.length
    ∧ ∀ i, (forLoop k (showStringBody cfg str) s).modules.getD i default =
        if i < k ∧ i < s.modules.length ∧ findFlapIndex cfg (str.getD i 0) ≠ -1 then
          (s.modules.getD i default).GoToFlapIndex (findFlapIndex cfg (str.getD i 0)).toNat
        else s.modules.getD i default := by
  induction k with
  | zero => exact ⟨rfl, fun i => by simp [forLoop_zero]⟩
  | succ k ih =>
    obtain ⟨hlen, hget⟩ := ih
    rw [forLoop_succ, showStringBody_modules]
    split_ifs with hm
    · refine ⟨by rw [List.length_set, hlen], fun i => ?_⟩
      rw [getD_set_eq, hlen, hget k, hget i]
      by_cases hik : k = i
      · subst hik
        by_cases hl : k < s.modules.length
        · rw [if_pos ⟨rfl, hl⟩, if_neg (by omega), if_pos ⟨by omega, hl, hm⟩]
        · rw [if_neg (fun h => hl h.2), if_neg (by omega), if_neg (fun h => hl h.2.1)]
      · have h1 : (i < k + 1) = (i < k) := by
          apply propext; constructor <;> intro h <;> omega
        simp only [hik, false_and, if_false, h1]
    · refine ⟨hlen, fun i => ?_⟩
      rw [hget i]
      by_cases hik : i = k
      · subst hik
        rw [if_neg (by omega), if_neg (fun h => hm h.2.2)]
      · have h1 : (i < k + 1) = (i < k) := by
          apply propext; constructor <;> intro h <;> omega
        simp only [h1]

theorem showString_modules (cfg : Config) (str : List Nat) (n : Nat) (s : SplitflapTask) :
    (showString cfg str n s).modules.length = s.modules.length
    ∧ ∀ i, (showString cfg str n s).modules.getD i default =
        if i < n ∧ i < s.modules.length ∧ findFlapIndex cfg (str.getD i 0) ≠ -1 then
          (s.modules.getD i default).GoToFlapIndex (findFlapIndex cfg (str.getD i 0)).toNat
        else s.modules.getD i default :=
  showStringLoop_modules cfg str n (showStringOpen s)

/-- The interpreter on the four bytes of `"=AB\n"`, outside sensor-test mode and with room for
two characters: the buffer holds `A`, `B` and is dispatched with length 2. -/
theorem commandLoop_eqABnl (cfg : Config) (all_stopped : Bool) (s : SplitflapTask)
    (hN : 2 ≤ cfg.NUM_MODULES) (hst : s.sensor_test_ = false) :
    commandLoop cfg all_stopped [61, 65, 66, 10] s =
      showString cfg ((s.recv_buffer.set 0 65).set 1 66) 2
        { s with recv_buffer := (s.recv_buffer.set 0 65).set 1 66, recv_count := 2 } := by
  have h0 : (0 : Nat) < cfg.NUM_MODULES := by omega
  have h1 : (1 : Nat) < cfg.NUM_MODULES := by omega
  simp [commandLoop, processByte, appendByte_eq, hst, h0, h1]

/-- C2. Show-string targets: for a buffer of length `n ≤ NUM_MODULES` dispatched by `showString`,
every module `i < n` whose character is in the alphabet ends with target
`findFlapIndex(str[i])`, and every other module (character unmatched, or `i ≥ n`) is left as it
was; in particular the input `"=AB\n"`, with `A` and `B` in the alphabet, sets the targets of
modules 0 and 1 and leaves every further module as it was. -/
theorem showString_sets_targets (cfg : Config) :
    (∀ (str : List Nat) (n : Nat) (s : SplitflapTask),
      n ≤ cfg.NUM_MODULES → s.modules.length = cfg.NUM_MODULES →
      (showString cfg str n s).modules.length = cfg.NUM_MODULES
      ∧ ∀ i, i < cfg.NUM_MODULES →
        ((i < n ∧ findFlapIndex cfg (str.getD i 0) ≠ -1) →
          ((((showString cfg str n s).modules.getD i default).GetTargetFlapIndex : Nat) : Int)
            = findFlapIndex cfg (str.getD i 0))
        ∧ (¬ (i < n ∧ findFlapIndex cfg (str.getD i 0) ≠ -1) →
          (showString cfg str n s).modules.getD i default = s.modules.getD i default))
    ∧ (∀ (all_stopped : Bool) (s : SplitflapTask),
      2 ≤ cfg.NUM_MODULES → s.modules.length = cfg.NUM_MODULES →
      s.recv_buffer.length = cfg.NUM_MODULES → s.sensor_test_ = false →
      findFlapIndex cfg 65 ≠ -1 → findFlapIndex cfg 66 ≠ -1 →
      ((((commandLoop cfg all_stopped [61, 65, 66, 10] s).modules.getD 0
          default).GetTargetFlapIndex : Nat) : Int) = findFlapIndex cfg 65
      ∧ ((((commandLoop cfg all_stopped [61, 65, 66, 10] s).modules.getD 1
          default).GetTargetFlapIndex : Nat) : Int) = findFlapIndex cfg 66
      ∧ ∀ i, 2 ≤ i →
          (commandLoop cfg all_stopped [61, 65, 66, 10] s).modules.getD i default
            = s.modules.getD i default) := by
  have key : ∀ (str : List Nat) (n : Nat) (s : SplitflapTask) (i : Nat),
      i < s.modules.length →
      ((i < n ∧ findFlapIndex cfg (str.getD i 0) ≠ -1) →
          ((((showString cfg str n s).modules.getD i default).GetTargetFlapIndex : Nat) : Int)
            = findFlapIndex cfg (str.getD i 0))
      ∧ (¬ (i < n ∧ findFlapIndex cfg (str.getD i 0) ≠ -1) →
          (showString cfg str n s).modules.getD i default = s.modules.getD i default) := by
    intro str n s i hi
    have h := (showString_modules cfg str n s).2 i
    constructor
    · intro hm
      rw [h, if_pos ⟨hm.1, hi, hm.2⟩]
      rcases findFlapIndex_range cfg (str.getD i 0) with h1 | h1
      · exact absurd h1 hm.2
      · exact Int.toNat_of_nonneg h1.1
    · intro hm
      rw [h, if_neg (fun hc => hm ⟨hc.1, hc.2.2⟩)]
  refine ⟨fun str n s _ hlen => ⟨by rw [(showString_modules cfg str n s).1, hlen],
    fun i hi => key str n s i (by omega)⟩, ?_⟩
  intro all_stopped s hN hlen hbuf hst hA hB
  rw [commandLoop_eqABnl cfg all_stopped s hN hst]
  have g0 : ((s.recv_buffer.set 0 65).set 1 66).getD 0 0 = 65 := by
    rw [getD_set_eq, if_neg (by omega), getD_set_eq, if_pos ⟨rfl, by omega⟩]
  have g1 : ((s.recv_buffer.set 0 65).set 1 66).getD 1 0 = 66 := by
    rw [getD_set_eq, if_pos ⟨rfl, by rw [List.length_set]; omega⟩]
  refine ⟨?_, ?_, ?_⟩
  · have h := (key ((s.recv_buffer.set 0 65).set 1 66) 2
      { s with recv_buffer := (s.recv_buffer.set 0 65).set 1 66, recv_count := 2 } 0
      (by show 0 < s.modules.length; omega)).1
    rw [g0] at h
    exact h ⟨by omega, hA⟩
  · have h := (key ((s.recv_buffer.set 0 65).set 1 66) 2
      { s with recv_buffer := (s.recv_buffer.set 0 65).set 1 66, recv_count := 2 } 1
      (by show 1 < s.modules.length; omega)).1
    rw [g1] at h
    exact h ⟨by omega, hB⟩
  · intro i hi
    have h := (showString_modules cfg ((s.recv_buffer.set 0 65).set 1 66) 2
      { s with recv_buffer := (s.recv_buffer.set 0 65).set 1 66, recv_count := 2 }).2 i
    rw [h, if_neg (fun hc => by omega)]

/-- Witness for C2 on the three-module build: `"=AB\n"` retargets modules 0 and 1 to the flap
indices of `A` and `B`, and module 2 keeps its target 3. -/
theorem showString_sets_targets_witness :
    (commandLoop exampleConfig true [61, 65, 66, 10] exampleTask).modules.map
        SplitflapModule.GetTargetFlapIndex = [1, 2, 3]
    ∧ (commandLoop exampleConfig true [61, 65, 66, 10] exampleTask).modules.getD 2 default
        = exampleTask.modules.getD 2 default
    ∧ ((((showString exampleConfig [65, 63, 66] 2 exampleTask).modules.getD 0
          default).GetTargetFlapIndex : Nat) : Int) = findFlapIndex exampleConfig 65 :=
  ⟨by decide,
    ((showString_sets_targets exampleConfig).2 true exampleTask (by decide) (by decide)
      (by decide) (by decide) (by decide) (by decide)).2.2 2 (by decide),
    (((showString_sets_targets exampleConfig).1 [65, 63, 66] 2 exampleTask (by decide)
      (by decide)).2 0 (by decide)).1 ⟨by decide, by decide⟩⟩

/-! ## C3: a `'%'` byte while the modules are not all stopped -/

theorem commandLoop_append (cfg : Config) (all_stopped : Bool) (bytes : List Nat) (b : Nat)
    (s : SplitflapTask) :
    commandLoop cfg all_stopped (bytes ++ [b]) s
      = processByte cfg all_stopped b (commandLoop cfg all_stopped bytes s) := by
  induction bytes generalizing s with
  | nil => rfl
  | cons a rest ih => exact ih _

/-- Without `all_stopped` no byte changes `sensor_test_`. -/
theorem processByte_sensor_test_of_not_stopped (cfg : Config) (b : Nat) (s : SplitflapTask) :
    (processByte cfg false b s).sensor_test_ = s.sensor_test_ := by
  unfold processByte
  rw [if_neg (by simp)]
  split_ifs
  · exact congrArg CommandView.sensor_test_ (resetAll_view cfg s)
  · rfl
  · rfl
  · exact congrArg CommandView.sensor_test_ (showString_view cfg _ _ s)
  · rw [appendByte_eq]; split_ifs <;> rfl
  · rfl

theorem commandLoop_sensor_test_of_not_stopped (cfg : Config) (bytes : List Nat)
    (s : SplitflapTask) :
    (commandLoop cfg false bytes s).sensor_test_ = s.sensor_test_ := by
  induction bytes generalizing s with
  | nil => rfl
  | cons b rest ih =>
    exact (ih _).trans (processByte_sensor_test_of_not_stopped cfg b s)

/-- A tick in which not all modules are stopped is not a sensor-test tick. -/
theorem sensor_test_of_not_all_stopped (cfg : Config) (now : Nat) (s : SplitflapTask)
    (h : (advancePhase cfg now s).all_stopped = false) : s.sensor_test_ = false := by
  unfold advancePhase at h
  split_ifs at h with hs
  exact hs

/-! ## C4: no command is accepted while a module is not idle -/

theorem callsExtend_refl (P : Call → Prop) (s : SplitflapTask) : CallsExtend P s s :=
  ⟨[], by simp, by simp⟩

theorem callsExtend_of_calls_eq {P : Call → Prop} {s r : SplitflapTask}
    (h : r.calls = s.calls) : CallsExtend P s r :=
  ⟨[], by simp [h], by simp⟩

theorem callsExtend_trans {P : Call → Prop} {a b c : SplitflapTask}
    (h1 : CallsExtend P a b) (h2 : CallsExtend P b c) : CallsExtend P a c := by
  obtain ⟨x, hx, px⟩ := h1
  obtain ⟨y, hy, py⟩ := h2
  refine ⟨x ++ y, by rw [hy, hx, List.append_assoc], ?_⟩
  intro d hd
  rcases List.mem_append.mp hd with h | h
  · exact px d h
  · exact py d h

theorem callsExtend_logCall {P : Call → Prop} (c : Call) (hc : P c) (s : SplitflapTask) :
    CallsExtend P s (logCall c s) :=
  ⟨[c], rfl, by simpa using hc⟩

theorem callsExtend_onModule {P : Call → Prop} (i : Nat) (c : Call) (hc : P c)
    (f : SplitflapModule → SplitflapModule) (s : SplitflapTask) :
    CallsExtend P s (onModule i c f s) := by
  unfold onModule
  split
  · exact callsExtend_refl P s
  · exact ⟨[c], rfl, by simpa using hc⟩

theorem callsExtend_forLoop {σ : Type} {P : Call → Prop} (f : σ → SplitflapTask)
    (body : Nat → σ → σ) (hbody : ∀ i t, CallsExtend P (f t) (f (body i t))) (n : Nat) (t : σ) :
    CallsExtend P (f t) (f (forLoop n body t)) := by
  induction n with
  | zero => exact callsExtend_refl P _
  | succ n ih => rw [forLoop_succ]; exact callsExtend_trans ih (hbody n _)

theorem callsExtend_motor_sensor_io {P : Call → Prop} (hc : P Call.motor_sensor_io)
    (cfg : Config) (s : SplitflapTask) : CallsExtend P s (motor_sensor_io cfg s) :=
  ⟨[Call.motor_sensor_io], rfl, by simpa using hc⟩

theorem callsExtend_disableAll {P : Call → Prop} (hio : P Call.motor_sensor_io)
    (hd : ∀ i, P (Call.Disable i)) (cfg : Config) (message : String) (s : SplitflapTask) :
    CallsExtend P s (disableAll cfg message s) := by
  have h1 : CallsExtend P s (disableModules cfg s) :=
    callsExtend_forLoop id _ (fun i t => callsExtend_onModule i _ (hd i) _ t) _ s
  have h2 := callsExtend_trans h1 (callsExtend_motor_sensor_io hio cfg (disableModules cfg s))
  refine callsExtend_trans h2 (callsExtend_of_calls_eq ?_)
  unfold disableAll announceDisabled
  split_ifs <;> rfl

theorem callsExtend_updateBody {P : Call → Prop} (hu : ∀ i, P (Call.Update i)) (cfg : Config)
    (fg fp i : Nat) (t : TickState) : CallsExtend P t.task (updateBody cfg fg fp i t).task := by
  unfold updateBody
  split
  · exact callsExtend_refl P _
  · exact ⟨[Call.Update i], rfl, by simpa using hu i⟩

theorem callsExtend_advancePhase {P : Call → Prop} (hu : ∀ i, P (Call.Update i))
    (hio : P Call.motor_sensor_io) (cfg : Config) (now : Nat) (s : SplitflapTask) :
    CallsExtend P s (advancePhase cfg now s).task := by
  unfold advancePhase
  split_ifs
  · have h1 : CallsExtend P s (moduleLoop cfg now s).task :=
      callsExtend_forLoop (fun t : TickState => t.task) _
        (fun i t => callsExtend_updateBody hu cfg _ _ i t) _ _
    have h2 : CallsExtend P (moduleLoop cfg now s).task
        (noteStopped now (moduleLoop cfg now s).all_stopped (moduleLoop cfg now s).task) :=
      callsExtend_of_calls_eq (by unfold noteStopped; split_ifs <;> rfl)
    exact callsExtend_trans (callsExtend_trans h1 h2) (callsExtend_motor_sensor_io hio cfg _)
  · have h1 := callsExtend_motor_sensor_io hio cfg s
    have h2 : CallsExtend P (motor_sensor_io cfg s)
        (forLoop cfg.NUM_MODULES (sensorLedBody cfg) (motor_sensor_io cfg s)) :=
      callsExtend_forLoop id (sensorLedBody cfg) (fun i t => callsExtend_of_calls_eq rfl) _ _
    exact callsExtend_trans (callsExtend_trans h1 h2) (callsExtend_motor_sensor_io hio cfg _)

theorem callsExtend_safetyMonitor {P : Call → Prop} (hio : P Call.motor_sensor_io)
    (hd : ∀ i, P (Call.Disable i)) (hc : P Call.getCurrent_mA) (cfg : Config)
    (inp : TickInput) (st : Bool) (s : SplitflapTask) :
    CallsExtend P s (safetyMonitor cfg inp st s) := by
  unfold safetyMonitor
  split_ifs
  · have h1 : CallsExtend P s (sampleCurrent inp s) :=
      ⟨[Call.getCurrent_mA], rfl, by simpa using hc⟩
    have h2 : CallsExtend P (sampleCurrent inp s)
        (currentCheck cfg inp st (sampleCurrent inp s)) := by
      unfold currentCheck
      split_ifs
      · exact callsExtend_disableAll hio hd cfg _ _
      · exact callsExtend_disableAll hio hd cfg _ _
      · exact callsExtend_refl P _
    exact callsExtend_trans (callsExtend_trans h1 h2) (callsExtend_of_calls_eq rfl)
  · exact callsExtend_refl P s

/-- C4. Command gating: in a tick in which at least one module is not idle the command
interpreter reads no byte: the pending input is handed back whole, `recv_buffer`, `recv_count`,
`sensor_test_`, `pending_no_op` and `pending_move_response` are as before the tick, and the calls
made during the tick contain no `go_to`, `go_home` or counter reset. -/
theorem no_command_while_not_idle (cfg : Config) (inp : TickInput) (pending : List Nat)
    (s : SplitflapTask) (h : (advancePhase cfg inp.millis s).all_idle = false) :
    (runUpdate cfg inp pending s).2 = pending
    ∧ (runUpdate cfg inp pending s).1.recv_buffer = s.recv_buffer
    ∧ (runUpdate cfg inp pending s).1.recv_count = s.recv_count
    ∧ (runUpdate cfg inp pending s).1.sensor_test_ = s.sensor_test_
    ∧ (runUpdate cfg inp pending s).1.pending_no_op = s.pending_no_op
    ∧ (runUpdate cfg inp pending s).1.pending_move_response = s.pending_move_response
    ∧ ∃ added : List Call, (runUpdate cfg inp pending s).1.calls = s.calls ++ added
        ∧ ∀ c ∈ added, c.isCommand = false := by
  have e : runUpdate cfg inp pending s =
      (safetyMonitor cfg inp (advancePhase cfg inp.millis s).all_stopped
        (advancePhase cfg inp.millis s).task, pending) := by
    unfold runUpdate
    rw [if_neg (by simp [h])]
  have hv : (runUpdate cfg inp pending s).1.view = s.view := by
    rw [e]
    exact (safetyMonitor_view cfg inp _ _).trans (advancePhase_view cfg inp.millis s)
  refine ⟨by rw [e], congrArg CommandView.recv_buffer hv, congrArg CommandView.recv_count hv,
    congrArg CommandView.sensor_test_ hv, congrArg CommandView.pending_no_op hv,
    congrArg CommandView.pending_move_response hv, ?_⟩
  rw [e]
  exact callsExtend_trans
    (callsExtend_advancePhase (P := fun c => c.isCommand = false) (fun _ => rfl) rfl cfg
      inp.millis s)
    (callsExtend_safetyMonitor (P := fun c => c.isCommand = false) rfl (fun _ => rfl) rfl cfg
      inp _ _)

/-- Witness for C4 on the three-module build: module 0 is turning towards a new target, so the
pending `"=AB\n"` is left unread. -/
theorem no_command_while_not_idle_witness :
    (runUpdate exampleConfig ⟨1000, 0, 12⟩ [61, 65, 66, 10] movingTask).2 = [61, 65, 66, 10] :=
  (no_command_while_not_idle exampleConfig ⟨1000, 0, 12⟩ [61, 65, 66, 10] movingTask
    (by decide)).1

/-! ## C5: the idle and stopped classifications -/

theorem is_idle_iff (m : SplitflapModule) :
    is_idle m = true ↔
      (m.state = State.PANIC ∨ m.state = State.STATE_DISABLED ∨ m.state = State.LOOK_FOR_HOME
        ∨ m.state = State.SENSOR_ERROR
        ∨ (m.state = State.NORMAL ∧ m.current_accel_step = 0)) := by
  simp [is_idle, or_assoc]

theorem is_stopped_iff (m : SplitflapModule) :
    is_stopped m = true ↔
      (m.state = State.PANIC ∨ m.state = State.STATE_DISABLED ∨ m.current_accel_step = 0) := by
  simp [is_stopped, or_assoc]

/-- State of the module loop of `runUpdate` after `k` iterations. -/
theorem moduleLoop_invariant (cfg : Config) (fg fp : Nat) (s : SplitflapTask) (k : Nat)
    (hk : k ≤ s.modules.length) :
    let t := forLoop k (updateBody cfg fg fp) { task := s, all_idle := true, all_stopped := true }
    t.task.modules.length = s.modules.length
    ∧ t.task.sensor_buffer = s.sensor_buffer
    ∧ (∀ i, k ≤ i → t.task.modules.getD i default = s.modules.getD i default)
    ∧ (∀ i, i < k → ∃ motor_buffer, t.task.modules.getD i default
        = (cfg.Update i (s.modules.getD i default) s.sensor_buffer motor_buffer).1)
    ∧ (t.all_idle = true ↔ ∀ i, i < k → is_idle (t.task.modules.getD i default) = true)
    ∧ (t.all_stopped = true ↔ ∀ i, i < k → is_stopped (t.task.modules.getD i default) = true) := by
  induction k with
  | zero =>
    refine ⟨rfl, rfl, fun i _ => rfl, fun i hi => absurd hi (by omega), ?_, ?_⟩ <;>
      simp [forLoop_zero]
  | succ k ih =>
    obtain ⟨hlen, hsens, hrest, hdone, hidle, hstop⟩ := ih (by omega)
    simp only at hlen hsens hrest hdone hidle hstop ⊢
    rw [forLoop_succ]
    generalize forLoop k (updateBody cfg fg fp)
      { task := s, all_idle := true, all_stopped := true } = t at *
    have hkl : k < t.task.modules.length := by omega
    have hsome : t.task.modules[k]? = some (t.task.modules.getD k default) := by
      simp [List.getD_eq_getElem?_getD, List.getElem?_eq_getElem hkl]
    have hbody : updateBody cfg fg fp k t =
        { task := updateModule cfg fg fp k (t.task.modules.getD k default) t.task,
          all_idle := t.all_idle &&
            is_idle (cfg.Update k (t.task.modules.getD k default) t.task.sensor_buffer
              t.task.motor_buffer).1,
          all_stopped := t.all_stopped &&
            is_stopped (cfg.Update k (t.task.modules.getD k default) t.task.sensor_buffer
              t.task.motor_buffer).1 } := by
      unfold updateBody
      rw [hsome]
    have hmods : (updateBody cfg fg fp k t).task.modules =
        t.task.modules.set k
          (cfg.Update k (t.task.modules.getD k default) t.task.sensor_buffer
            t.task.motor_buffer).1 := by
      rw [hbody]; rfl
    have hget : ∀ i, (updateBody cfg fg fp k t).task.modules.getD i default =
        if i = k then
          (cfg.Update k (s.modules.getD k default) s.sensor_buffer t.task.motor_buffer).1
        else t.task.modules.getD i default := by
      intro i
      rw [hmods, getD_set_eq, hrest k (le_refl k), hsens]
      by_cases hik : i = k
      · subst hik; rw [if_pos ⟨rfl, hkl⟩, if_pos rfl]
      · rw [if_neg (fun h => hik h.1.symm), if_neg hik]
    have hsplit : ∀ (p : Nat → Prop), (∀ i, i < k + 1 → p i) ↔ ((∀ i, i < k → p i) ∧ p k) := by
      intro p
      constructor
      · intro h; exact ⟨fun i hi => h i (by omega), h k (by omega)⟩
      · intro h i hi
        by_cases hik : i = k
        · subst hik; exact h.2
        · exact h.1 i (by omega)
    have hai : (updateBody cfg fg fp k t).all_idle = (t.all_idle &&
        is_idle (cfg.Update k (s.modules.getD k default) s.sensor_buffer
          t.task.motor_buffer).1) := by
      rw [hbody, hrest k (le_refl k), hsens]
    have has : (updateBody cfg fg fp k t).all_stopped = (t.all_stopped &&
        is_stopped (cfg.Update k (s.modules.getD k default) s.sensor_buffer
          t.task.motor_buffer).1) := by
      rw [hbody, hrest k (le_refl k), hsens]
    have hsb : (updateBody cfg fg fp k t).task.sensor_buffer = s.sensor_buffer := by
      rw [hbody]; exact hsens
    have hold : ∀ i, i < k → (updateBody cfg fg fp k t).task.modules.getD i default
        = t.task.modules.getD i default := by
      intro i hi; rw [hget, if_neg (by omega)]
    have hnew : (updateBody cfg fg fp k t).task.modules.getD k default
        = (cfg.Update k (s.modules.getD k default) s.sensor_buffer t.task.motor_buffer).1 := by
      rw [hget, if_pos rfl]
    generalize updateBody cfg fg fp k t = b at *
    refine ⟨by rw [hmods, List.length_set, hlen], hsb, ?_, ?_, ?_, ?_⟩
    · intro i hi
      rw [hget, if_neg (by omega)]
      exact hrest i (by omega)
    · intro i hi
      rw [hget]
      by_cases hik : i = k
      · subst hik; rw [if_pos rfl]; exact ⟨_, rfl⟩
      · rw [if_neg hik]; exact hdone i (by omega)
    · rw [hai, Bool.and_eq_true, hidle, hsplit]
      constructor
      · rintro ⟨h1, h2⟩
        exact ⟨fun i hi => by rw [hold i hi]; exact h1 i hi, by rw [hnew]; exact h2⟩
      · rintro ⟨h1, h2⟩
        exact ⟨fun i hi => by rw [← hold i hi]; exact h1 i hi, by rw [← hnew]; exact h2⟩
    · rw [has, Bool.and_eq_true, hstop, hsplit]
      constructor
      · rintro ⟨h1, h2⟩
        exact ⟨fun i hi => by rw [hold i hi]; exact h1 i hi, by rw [hnew]; exact h2⟩
      · rintro ⟨h1, h2⟩
        exact ⟨fun i hi => by rw [← hold i hi]; exact h1 i hi, by rw [← hnew]; exact h2⟩

theorem forall_getD_iff_forall_mem {α : Type} (l : List α) (d : α) (p : α → Prop) :
    (∀ i, i < l.length → p (l.getD i d)) ↔ ∀ m ∈ l, p m := by
  constructor
  · intro h m hm
    obtain ⟨i, hi, rfl⟩ := List.getElem_of_mem hm
    have := h i hi
    rwa [List.getD_eq_getElem?_getD, List.getElem?_eq_getElem hi] at this
  · intro h i hi
    rw [List.getD_eq_getElem?_getD, List.getElem?_eq_getElem hi]
    exact h _ (List.getElem_mem hi)

theorem advancePhase_of_not_sensor_test (cfg : Config) (now : Nat) (s : SplitflapTask)
    (hst : s.sensor_test_ = false) :
    (advancePhase cfg now s).task.modules = (moduleLoop cfg now s).task.modules
    ∧ (advancePhase cfg now s).all_idle = (moduleLoop cfg now s).all_idle
    ∧ (advancePhase cfg now s).all_stopped = (moduleLoop cfg now s).all_stopped := by
  unfold advancePhase
  rw [if_pos hst]
  refine ⟨?_, rfl, rfl⟩
  unfold noteStopped
  split_ifs <;> rfl

/-- C5. Idle/stopped classification: in a tick outside sensor-test mode every module has been
advanced by its `Update`, `all_idle` is true exactly when every module is then in `PANIC`,
`STATE_DISABLED`, `LOOK_FOR_HOME` or `SENSOR_ERROR`, or in `NORMAL` with
`current_accel_step = 0`, and `all_stopped` is true exactly when every module is then in `PANIC`
or `STATE_DISABLED` or has `current_accel_step = 0`. -/
theorem idle_stopped_classification (cfg : Config) (now : Nat) (s : SplitflapTask)
    (hst : s.sensor_test_ = false) (hlen : s.modules.length = cfg.NUM_MODULES) :
    (∀ i, i < cfg.NUM_MODULES → ∃ motor_buffer,
      (advancePhase cfg now s).task.modules.getD i default
        = (cfg.Update i (s.modules.getD i default) s.sensor_buffer motor_buffer).1)
    ∧ ((advancePhase cfg now s).all_idle = true ↔
        ∀ m ∈ (advancePhase cfg now s).task.modules,
          m.state = State.PANIC ∨ m.state = State.STATE_DISABLED
            ∨ m.state = State.LOOK_FOR_HOME ∨ m.state = State.SENSOR_ERROR
            ∨ (m.state = State.NORMAL ∧ m.current_accel_step = 0))
    ∧ ((advancePhase cfg now s).all_stopped = true ↔
        ∀ m ∈ (advancePhase cfg now s).task.modules,
          m.state = State.PANIC ∨ m.state = State.STATE_DISABLED
            ∨ m.current_accel_step = 0) := by
  obtain ⟨hm, hi, hs⟩ := advancePhase_of_not_sensor_test cfg now s hst
  obtain ⟨h1, -, -, h4, h5, h6⟩ :=
    moduleLoop_invariant cfg ((now / 200 % 16) / 2) (now / 200 % 2) s cfg.NUM_MODULES
      (by omega)
  change (moduleLoop cfg now s).task.modules.length = _ at h1
  change ∀ i, i < _ → ∃ mb, (moduleLoop cfg now s).task.modules.getD i default = _ at h4
  change (moduleLoop cfg now s).all_idle = true ↔
    ∀ i, i < _ → is_idle ((moduleLoop cfg now s).task.modules.getD i default) = true at h5
  change (moduleLoop cfg now s).all_stopped = true ↔
    ∀ i, i < _ → is_stopped ((moduleLoop cfg now s).task.modules.getD i default) = true at h6
  rw [hm, hi, hs]
  refine ⟨h4, ?_, ?_⟩
  · rw [h5, ← forall_getD_iff_forall_mem _ default, h1, hlen]
    simp only [is_idle_iff]
  · rw [h6, ← forall_getD_iff_forall_mem _ default, h1, hlen]
    simp only [is_stopped_iff]

/-- Witness for C5 on the homing example: every module is idle, module 0 is not stopped. -/
theorem idle_stopped_classification_witness :
    (advancePhase exampleConfig 1000 homingTask).all_idle = true
    ∧ ¬ ((advancePhase exampleConfig 1000 homingTask).all_stopped = true) :=
  ⟨(idle_stopped_classification exampleConfig 1000 homingTask (by decide) (by decide)).2.1.mpr
      (by decide),
    fun h =>
      absurd ((idle_stopped_classification exampleConfig 1000 homingTask (by decide)
        (by decide)).2.2.mp h) (by decide)⟩

/-! ## C6: which `go_to` calls `showString` issues -/

theorem onModule_calls (i : Nat) (c : Call) (f : SplitflapModule → SplitflapModule)
    (s : SplitflapTask) :
    (onModule i c f s).calls = if i < s.modules.length then s.calls ++ [c] else s.calls := by
  unfold onModule
  split
  next h =>
    rw [List.getElem?_eq_none_iff] at h
    rw [if_neg (by omega)]
  next m h =>
    have : i < s.modules.length := by
      by_contra hc
      rw [List.getElem?_eq_none_iff.mpr (by omega)] at h
      cases h
    rw [if_pos this]; rfl

theorem showStringBody_calls (cfg : Config) (str : List Nat) (i : Nat) (s : SplitflapTask)
    (hi : i < s.modules.length) :
    (showStringBody cfg str i s).calls = s.calls ++
      (if findFlapIndex cfg (str.getD i 0) ≠ -1
          ∧ (cfg.FORCE_FULL_ROTATION = true
            ∨ findFlapIndex cfg (str.getD i 0)
              ≠ (((s.modules.getD i default).GetTargetFlapIndex : Nat) : Int)) then
        [Call.GoToFlapIndex i (findFlapIndex cfg (str.getD i 0)).toNat]
      else []) := by
  unfold showStringBody showStringGoTo
  show (if _ then _ else _ : SplitflapTask).calls = _
  split_ifs with h1 h2 h3 h3 h3
  · rw [onModule_calls, if_pos hi]
  · exact absurd ⟨h1, h2⟩ h3
  · exact absurd h3.2 h2
  · simp
  · exact absurd h3.1 h1
  · simp

theorem showStringLoop_calls (cfg : Config) (str : List Nat) (k : Nat) (s : SplitflapTask)
    (hk : k ≤ s.modules.length) :
    (forLoop k (showStringBody cfg str) s).calls
      = s.calls ++ (List.range k).filterMap (showStringCall cfg str s) := by
  induction k with
  | zero => simp [forLoop_zero]
  | succ k ih =>
    have hm := showStringLoop_modules cfg str k s
    have hlenk : k < (forLoop k (showStringBody cfg str) s).modules.length := by
      rw [hm.1]; omega
    have hgetk : (forLoop k (showStringBody cfg str) s).modules.getD k default
        = s.modules.getD k default := by
      rw [hm.2 k, if_neg (fun h => absurd h.1 (lt_irrefl k))]
    rw [forLoop_succ, showStringBody_calls cfg str k _ hlenk, hgetk, ih (by omega),
      List.range_succ, List.filterMap_append, List.append_assoc]
    congr 2
    by_cases hc : findFlapIndex cfg (str.getD k 0) ≠ -1
        ∧ (cfg.FORCE_FULL_ROTATION = true
          ∨ findFlapIndex cfg (str.getD k 0)
            ≠ (((s.modules.getD k default).GetTargetFlapIndex : Nat) : Int))
    · rw [if_pos hc]
      simp only [List.filterMap_cons, List.filterMap_nil, showStringCall, if_pos hc]
    · rw [if_neg hc]
      simp only [List.filterMap_cons, List.filterMap_nil, showStringCall, if_neg hc]

theorem list_ext_getD {α : Type} (d : α) (l1 l2 : List α) (hlen : l1.length = l2.length)
    (h : ∀ i, i < l1.length → l1.getD i d = l2.getD i d) : l1 = l2 := by
  apply List.ext_getElem hlen
  intro i h1 h2
  have := h i h1
  rwa [List.getD_eq_getElem?_getD, List.getD_eq_getElem?_getD, List.getElem?_eq_getElem h1,
    List.getElem?_eq_getElem h2] at this

theorem showString_calls (cfg : Config) (str : List Nat) (n : Nat) (s : SplitflapTask)
    (hn : n ≤ s.modules.length) :
    (showString cfg str n s).calls
      = s.calls ++ Call.lock :: (List.range n).filterMap (showStringCall cfg str s) := by
  unfold showString
  show (forLoop n (showStringBody cfg str) (showStringOpen s)).calls = _
  rw [showStringLoop_calls cfg str n (showStringOpen s) hn]
  show (s.calls ++ [Call.lock]) ++ _ = _
  rw [List.append_assoc]
  rfl

/-- When every matched character already is the target of its module and full rotation is not
forced, `showString` issues no `go_to` and leaves the modules as they are. -/
theorem showString_redundant (cfg : Config) (str : List Nat) (n : Nat) (s : SplitflapTask)
    (hn : n ≤ s.modules.length) (hF : cfg.FORCE_FULL_ROTATION = false)
    (hsame : ∀ i, i < n → findFlapIndex cfg (str.getD i 0) ≠ -1 →
      findFlapIndex cfg (str.getD i 0)
        = (((s.modules.getD i default).GetTargetFlapIndex : Nat) : Int)) :
    (showString cfg str n s).calls = s.calls ++ [Call.lock]
    ∧ (showString cfg str n s).modules = s.modules := by
  constructor
  · rw [showString_calls cfg str n s hn]
    congr 2
    rw [List.filterMap_eq_nil_iff]
    intro i hi
    unfold showStringCall
    rw [if_neg]
    rintro ⟨h1, h2 | h2⟩
    · rw [hF] at h2; cases h2
    · exact h2 (hsame i (List.mem_range.mp hi) h1)
  · obtain ⟨hlen, hget⟩ := showString_modules cfg str n s
    apply list_ext_getD default _ _ hlen
    intro i _
    rw [hget i]
    split_ifs with hc
    · apply goTo_of_target_eq
      have := hsame i hc.1 hc.2.2
      show (s.modules.getD i default).GetTargetFlapIndex = _
      omega
    · rfl

/-- After a dispatch every matched character is the target of its module. -/
theorem showString_target_eq (cfg : Config) (str : List Nat) (n : Nat) (s : SplitflapTask)
    (hn : n ≤ s.modules.length) (i : Nat) (hi : i < n)
    (hm : findFlapIndex cfg (str.getD i 0) ≠ -1) :
    findFlapIndex cfg (str.getD i 0)
      = ((((showString cfg str n s).modules.getD i default).GetTargetFlapIndex : Nat) : Int) := by
  rw [(showString_modules cfg str n s).2 i, if_pos ⟨hi, by omega, hm⟩]
  rcases findFlapIndex_range cfg (str.getD i 0) with h1 | h1
  · exact absurd h1 hm
  · exact (Int.toNat_of_nonneg h1.1).symm

/-- C6. Skip-redundant-motion: `showString` issues `GoToFlapIndex` on module `i < n` exactly
when `str[i]` is in the alphabet and (`FORCE_FULL_ROTATION` is set or the matched index differs
from the module's current target): the calls of a dispatch are the mutex followed by exactly
those `go_to`s in index order. Hence with `FORCE_FULL_ROTATION` off a string whose matched
indices all equal the current targets issues no `go_to` and leaves the modules alone, the second
of two identical dispatches does so, and with `FORCE_FULL_ROTATION` on every matched character
issues its `go_to`. -/
theorem showString_skips_redundant_motion (cfg : Config) (str : List Nat) (n : Nat)
    (s : SplitflapTask) (hn : n ≤ cfg.NUM_MODULES) (hlen : s.modules.length = cfg.NUM_MODULES) :
    (showString cfg str n s).calls
        = s.calls ++ Call.lock :: (List.range n).filterMap (fun i =>
            if findFlapIndex cfg (str.getD i 0) ≠ -1
                ∧ (cfg.FORCE_FULL_ROTATION = true
                  ∨ findFlapIndex cfg (str.getD i 0)
                    ≠ (((s.modules.getD i default).GetTargetFlapIndex : Nat) : Int)) then
              some (Call.GoToFlapIndex i (findFlapIndex cfg (str.getD i 0)).toNat)
            else none)
    ∧ (cfg.FORCE_FULL_ROTATION = false →
        (∀ i, i < n → findFlapIndex cfg (str.getD i 0) ≠ -1 →
          findFlapIndex cfg (str.getD i 0)
            = (((s.modules.getD i default).GetTargetFlapIndex : Nat) : Int)) →
        (showString cfg str n s).calls = s.calls ++ [Call.lock]
        ∧ (showString cfg str n s).modules = s.modules)
    ∧ (cfg.FORCE_FULL_ROTATION = false →
        (showString cfg str n (showString cfg str n s)).calls
          = (showString cfg str n s).calls ++ [Call.lock]
        ∧ (showString cfg str n (showString cfg str n s)).modules
          = (showString cfg str n s).modules)
    ∧ (cfg.FORCE_FULL_ROTATION = true →
        (showString cfg str n s).calls
          = s.calls ++ Call.lock :: (List.range n).filterMap (fun i =>
              if findFlapIndex cfg (str.getD i 0) ≠ -1 then
                some (Call.GoToFlapIndex i (findFlapIndex cfg (str.getD i 0)).toNat)
              else none)) := by
  have hn' : n ≤ s.modules.length := by omega
  refine ⟨showString_calls cfg str n s hn', fun hF hsame =>
    showString_redundant cfg str n s hn' hF hsame, fun hF => ?_, fun hF => ?_⟩
  · have hlen2 := (showString_modules cfg str n s).1
    exact showString_redundant cfg str n _ (by omega) hF
      (fun i hi hm => showString_target_eq cfg str n s hn' i hi hm)
  · rw [showString_calls cfg str n s hn']
    congr 3
    funext i
    unfold showStringCall
    simp only [hF, true_or, and_true]

/-- Witness for C6 on the three-module build: dispatching `"AB"` twice issues the two `go_to`s
once. -/
theorem showString_skips_redundant_motion_witness :
    (showString exampleConfig [65, 66, 0] 2 exampleTask).calls
      = [Call.lock, Call.GoToFlapIndex 0 1, Call.GoToFlapIndex 1 2]
    ∧ (showString exampleConfig [65, 66, 0] 2
        (showString exampleConfig [65, 66, 0] 2 exampleTask)).calls
      = [Call.lock, Call.GoToFlapIndex 0 1, Call.GoToFlapIndex 1 2, Call.lock] :=
  ⟨(showString_skips_redundant_motion exampleConfig [65, 66, 0] 2 exampleTask (by decide)
      (by decide)).1.trans (by decide),
    ((showString_skips_redundant_motion exampleConfig [65, 66, 0] 2 exampleTask (by decide)
      (by decide)).2.2.1 (by decide)).1.trans (by decide)⟩

/-! ## C7: the verdict of the loopback self test -/

theorem printBadLoopback_sensor_buffer (a b : Nat) (s : SplitflapTask) :
    (printBadLoopback a b s).sensor_buffer = s.sensor_buffer := by
  simp only [printBadLoopback, Serial_print, Serial_printNat]

theorem printBadZero_sensor_buffer (a : Nat) (s : SplitflapTask) :
    (printBadZero a s).sensor_buffer = s.sensor_buffer := by
  simp only [printBadZero, Serial_print, Serial_printNat]

/-- The inner loop of the self test reads one sensor buffer throughout and raises the flag
exactly on a mismatch. -/
theorem loopbackCheckLoop (i n : Nat) (t : SelfTest) :
    (forLoop n (loopbackCheckBody i) t).task.sensor_buffer = t.task.sensor_buffer
    ∧ ((forLoop n (loopbackCheckBody i) t).loopback_error = true ↔
        (t.loopback_error = true
          ∨ ∃ j, j < n ∧ loopbackMismatch t.task.sensor_buffer i j = true)) := by
  induction n with
  | zero => exact ⟨rfl, by simp [forLoop_zero]⟩
  | succ n ih =>
    obtain ⟨h1, h2⟩ := ih
    rw [forLoop_succ]
    generalize forLoop n (loopbackCheckBody i) t = r at *
    unfold loopbackCheckBody
    rw [h1]
    split_ifs with hc
    · refine ⟨(printBadLoopback_sensor_buffer _ _ _).trans h1, ?_⟩
      simp only [true_iff]
      exact Or.inr ⟨n, by omega, hc⟩
    · refine ⟨h1, ?_⟩
      rw [h2]
      constructor
      · rintro (h | ⟨j, hj, hm⟩)
        · exact Or.inl h
        · exact Or.inr ⟨j, by omega, hm⟩
      · rintro (h | ⟨j, hj, hm⟩)
        · exact Or.inl h
        · by_cases hjn : j = n
          · subst hjn; exact absurd hm hc
          · exact Or.inr ⟨j, by omega, hm⟩

/-- The flag after `k` outer iterations: some asserted channel produced a mismatch. -/
theorem loopbackScanLoop (cfg : Config) (s : SplitflapTask) (k : Nat) :
    (forLoop k (loopbackOutBody cfg) { task := s, loopback_error := false }).loopback_error
        = true ↔
      ∃ i, i < k ∧ ∃ j, j < cfg.NUM_LOOPBACKS
        ∧ loopbackMismatch (loopbackSensed cfg s i) i j = true := by
  induction k with
  | zero => simp [forLoop_zero]
  | succ k ih =>
    rw [forLoop_succ]
    have hb : (loopbackOutBody cfg k
        (forLoop k (loopbackOutBody cfg) { task := s, loopback_error := false })).loopback_error
        = true ↔
        ((forLoop k (loopbackOutBody cfg)
            { task := s, loopback_error := false }).loopback_error = true
          ∨ ∃ j, j < cfg.NUM_LOOPBACKS ∧ loopbackMismatch (loopbackSensed cfg s k) k j = true) := by
      unfold loopbackOutBody
      exact (loopbackCheckLoop k cfg.NUM_LOOPBACKS _).2
    rw [hb, ih]
    constructor
    · rintro (⟨i, hi, h⟩ | h)
      · exact ⟨i, by omega, h⟩
      · exact ⟨k, by omega, h⟩
    · rintro ⟨i, hi, h⟩
      by_cases hik : i = k
      · subst hik; exact Or.inr h
      · exact Or.inl ⟨i, by omega, h⟩

/-- The final loop of the self test reads one sensor buffer throughout and raises the flag
exactly on a loopback input that is not zero. -/
theorem loopbackZeroLoop (n : Nat) (t : SelfTest) :
    (forLoop n loopbackZeroBody t).task.sensor_buffer = t.task.sensor_buffer
    ∧ ((forLoop n loopbackZeroBody t).loopback_error = true ↔
        (t.loopback_error = true ∨ ∃ j, j < n ∧ loopbackNonZero t.task.sensor_buffer j = true)) := by
  induction n with
  | zero => exact ⟨rfl, by simp [forLoop_zero]⟩
  | succ n ih =>
    obtain ⟨h1, h2⟩ := ih
    rw [forLoop_succ]
    generalize forLoop n loopbackZeroBody t = r at *
    unfold loopbackZeroBody
    rw [h1]
    split_ifs with hc
    · refine ⟨(printBadZero_sensor_buffer _ _).trans h1, ?_⟩
      simp only [true_iff]
      exact Or.inr ⟨n, by omega, hc⟩
    · refine ⟨h1, ?_⟩
      rw [h2]
      constructor
      · rintro (h | ⟨j, hj, hm⟩)
        · exact Or.inl h
        · exact Or.inr ⟨j, by omega, hm⟩
      · rintro (h | ⟨j, hj, hm⟩)
        · exact Or.inl h
        · by_cases hjn : j = n
          · subst hjn; exact absurd hm hc
          · exact Or.inr ⟨j, by omega, hm⟩

/-- The self test passes exactly when every asserted channel reads back on its own input only
and every input reads zero once the outputs are cleared. -/
theorem selfTest_passes_iff (cfg : Config) (s : SplitflapTask) :
    (selfTest cfg s).loopback_error = false ↔
      LoopbackWiringOk cfg s := by
  have h := (loopbackZeroLoop cfg.NUM_LOOPBACKS
    { task := loopbackQuiesce cfg (loopbackScan cfg s).task,
      loopback_error := (loopbackScan cfg s).loopback_error }).2
  have hscan := loopbackScanLoop cfg s cfg.NUM_LOOPBACKS
  rw [← Bool.not_eq_true]
  unfold selfTest
  rw [h]
  change ¬ ((loopbackScan cfg s).loopback_error = true
    ∨ ∃ j, j < cfg.NUM_LOOPBACKS ∧ loopbackNonZero (loopbackQuiesced cfg s) j = true) ↔ _
  unfold loopbackScan
  rw [hscan]
  simp only [LoopbackWiringOk, loopbackMismatch, loopbackNonZero, decide_eq_true_eq, not_or,
    not_exists, not_and, ne_eq, not_not]

theorem printBadLoopback_calls (a b : Nat) (s : SplitflapTask) :
    (printBadLoopback a b s).calls = s.calls := by
  simp only [printBadLoopback, Serial_print, Serial_printNat]

theorem printBadZero_calls (a : Nat) (s : SplitflapTask) :
    (printBadZero a s).calls = s.calls := by
  simp only [printBadZero, Serial_print, Serial_printNat]

theorem callsExtend_loopbackOutBody {P : Call → Prop} (hio : P Call.motor_sensor_io)
    (cfg : Config) (i : Nat) (t : SelfTest) :
    CallsExtend P t.task (loopbackOutBody cfg i t).task := by
  unfold loopbackOutBody
  refine callsExtend_trans (callsExtend_trans
    (callsExtend_motor_sensor_io hio cfg
      (setMotorBuffer (t.task.motor_buffer.set (loopbackMotorByte cfg i)
        (loopbackMotorBitMask i)) t.task))
    (callsExtend_motor_sensor_io hio cfg _)) ?_
  refine callsExtend_trans
    (callsExtend_forLoop (fun t : SelfTest => t.task) (loopbackCheckBody i) (fun j r => ?_) _ _)
    (callsExtend_of_calls_eq rfl)
  unfold loopbackCheckBody
  split_ifs
  · exact callsExtend_of_calls_eq (printBadLoopback_calls _ _ _)
  · exact callsExtend_refl P _

theorem callsExtend_selfTest {P : Call → Prop} (hio : P Call.motor_sensor_io)
    (cfg : Config) (s : SplitflapTask) : CallsExtend P s (selfTest cfg s).task := by
  unfold selfTest
  have h1 : CallsExtend P s (loopbackScan cfg s).task :=
    callsExtend_forLoop (fun t : SelfTest => t.task) (loopbackOutBody cfg)
      (fun i t => callsExtend_loopbackOutBody hio cfg i t) _ _
  have h2 : CallsExtend P (loopbackScan cfg s).task
      (loopbackQuiesce cfg (loopbackScan cfg s).task) :=
    callsExtend_trans
      (callsExtend_motor_sensor_io hio cfg
        (setMotorBuffer (clearMotorBuffer cfg (loopbackScan cfg s).task.motor_buffer)
          (loopbackScan cfg s).task))
      (callsExtend_motor_sensor_io hio cfg _)
  refine callsExtend_trans (callsExtend_trans h1 h2)
    (callsExtend_forLoop (fun t : SelfTest => t.task) loopbackZeroBody (fun j r => ?_) _ _)
  unfold loopbackZeroBody
  split_ifs
  · exact callsExtend_of_calls_eq (printBadZero_calls _ _)
  · exact callsExtend_refl P _

theorem callsExtend_runPrologue {P : Call → Prop} (hio : P Call.motor_sensor_io)
    (cfg : Config) (s : SplitflapTask) : CallsExtend P s (runPrologue cfg s) := by
  have h1 : CallsExtend P s (bringUp cfg s) := ⟨[Call.motor_sensor_io], rfl, by simpa using hio⟩
  refine callsExtend_trans h1 (callsExtend_of_calls_eq ?_)
  simp only [runPrologue, printInit, clearRecvBuffer, Serial_print, Serial_printNat]

theorem callsExtend_holdIteration {P : Call → Prop} (hl : P Call.lock) (hw : P Call.wdt_reset)
    (cfg : Config) (s : SplitflapTask) : CallsExtend P s (holdIteration cfg s) := by
  unfold holdIteration
  refine callsExtend_trans ?_ (callsExtend_logCall _ hw _)
  unfold updateStateCache
  split_ifs
  · exact ⟨[Call.lock], rfl, by simpa using hl⟩
  · exact callsExtend_refl P s

theorem callsExtend_holdLoop {P : Call → Prop} (hl : P Call.lock) (hw : P Call.wdt_reset)
    (cfg : Config) (inputs : List LoopInput) (l : LoopState) :
    CallsExtend P l.task
      (inputs.foldl (fun l inp =>
        { task := holdIteration cfg l.task, pending := l.pending ++ inp.arrived }) l).task := by
  induction inputs generalizing l with
  | nil => exact callsExtend_refl P _
  | cons inp rest ih =>
    exact callsExtend_trans (callsExtend_holdIteration hl hw cfg l.task) (ih _)

/-! ## C8, C9: the current conditions of the safety monitor -/

/-- The module array after `k` iterations of the loop of `disableAll`. -/
theorem disableLoop_modules (k : Nat) (s : SplitflapTask) :
    (forLoop k (fun i s => onModule i (Call.Disable i) SplitflapModule.Disable s) s).modules.length
        = s.modules.length
    ∧ ∀ i, (forLoop k (fun i s => onModule i (Call.Disable i) SplitflapModule.Disable s)
          s).modules.getD i default =
        if i < k ∧ i < s.modules.length then (s.modules.getD i default).Disable
        else s.modules.getD i default := by
  induction k with
  | zero => exact ⟨rfl, fun i => by simp [forLoop_zero]⟩
  | succ k ih =>
    obtain ⟨hlen, hget⟩ := ih
    have hk : (forLoop k (fun i s => onModule i (Call.Disable i) SplitflapModule.Disable s)
        s).modules.getD k default = s.modules.getD k default := by
      rw [hget k, if_neg (fun h => absurd h.1 (lt_irrefl k))]
    rw [forLoop_succ, onModule_modules, hk]
    refine ⟨by rw [List.length_set, hlen], fun i => ?_⟩
    rw [getD_set_eq, hlen, hget i]
    by_cases hik : k = i
    · subst hik
      by_cases hl : k < s.modules.length
      · rw [if_pos ⟨rfl, hl⟩, if_pos ⟨by omega, hl⟩]
      · rw [if_neg (fun h => hl h.2), if_neg (fun h => hl h.2), if_neg (fun h => hl h.2)]
    · have h1 : (i < k + 1) = (i < k) := by
        apply propext; constructor <;> intro h <;> omega
      simp only [hik, false_and, if_false, h1]

/-- After `disableAll` every module is `STATE_DISABLED`. -/
theorem disableAll_disables (cfg : Config) (message : String) (s : SplitflapTask)
    (hlen : s.modules.length = cfg.NUM_MODULES) :
    (disableAll cfg message s).modules.length = cfg.NUM_MODULES
    ∧ ∀ m ∈ (disableAll cfg message s).modules, m.state = State.STATE_DISABLED := by
  have hm : (disableAll cfg message s).modules = (disableModules cfg s).modules := by
    unfold disableAll announceDisabled
    split_ifs <;> rfl
  obtain ⟨h1, h2⟩ := disableLoop_modules cfg.NUM_MODULES s
  rw [hm]
  unfold disableModules
  refine ⟨by rw [h1, hlen], ?_⟩
  rw [← forall_getD_iff_forall_mem _ default]
  intro i hi
  rw [h1] at hi
  rw [h2 i, if_pos ⟨by omega, hi⟩]
  rfl

/-- When the safety monitor is due, the current is sampled and checked. -/
theorem safetyMonitor_modules_of_due (cfg : Config) (inp : TickInput) (all_stopped : Bool)
    (s : SplitflapTask) (hP : cfg.INA219_POWER_SENSE = true)
    (hdue : millisSince inp.millis s.lastCurrentReadMillis > 100) :
    (safetyMonitor cfg inp all_stopped s).modules
      = (currentCheck cfg inp all_stopped (sampleCurrent inp s)).modules := by
  unfold safetyMonitor
  rw [if_pos ⟨hP, hdue⟩]

/-- C8. Over-current disable: in every evaluation of the safety monitor (power sensing built
in, more than 100 ms since the last reading) with a sensed current above `250 * NUM_MODULES`,
every module is in `STATE_DISABLED` after the evaluation. -/
theorem over_current_disables (cfg : Config) (inp : TickInput) (all_stopped : Bool)
    (s : SplitflapTask) (hlen : s.modules.length = cfg.NUM_MODULES)
    (hP : cfg.INA219_POWER_SENSE = true)
    (hdue : millisSince inp.millis s.lastCurrentReadMillis > 100)
    (hcur : inp.current_mA > 250 * (cfg.NUM_MODULES : ℚ)) :
    (safetyMonitor cfg inp all_stopped s).modules.length = cfg.NUM_MODULES
    ∧ ∀ m ∈ (safetyMonitor cfg inp all_stopped s).modules, m.state = State.STATE_DISABLED := by
  rw [safetyMonitor_modules_of_due cfg inp all_stopped s hP hdue]
  unfold currentCheck
  rw [if_pos (by
    show ((cfg.NUM_MODULES * 250 : Nat) : ℚ) < inp.current_mA
    push_cast
    linarith)]
  exact disableAll_disables cfg _ _ hlen

/-- Witness for C8 on the three-module build: a reading of 751 mA disables the turning
module 0. -/
theorem over_current_disables_witness :
    ((safetyMonitor exampleConfig ⟨1000, 751, 12⟩ false movingTask).modules.getD 0 default).state
      = State.STATE_DISABLED
    ∧ (safetyMonitor exampleConfig ⟨1000, 751, 12⟩ false movingTask).modules.length = 3 :=
  ⟨(over_current_disables exampleConfig ⟨1000, 751, 12⟩ false movingTask (by decide) rfl
      (by decide) (by norm_num [exampleConfig])).2 _ (by decide),
    (over_current_disables exampleConfig ⟨1000, 751, 12⟩ false movingTask (by decide) rfl
      (by decide) (by norm_num [exampleConfig])).1⟩

/-- C9. Unexpected-current disable: in every evaluation of the safety monitor in which all
modules are stopped and have been for more than 100 ms
(`iterationStartMillis - stopped_at_millis > 100`) and the sensed current is at least 3 but not
above `250 * NUM_MODULES`, the "Unexpected current" disable is triggered: every module is in
`STATE_DISABLED` afterwards and the `disabled` flag is set. -/
theorem unexpected_current_disables (cfg : Config) (inp : TickInput) (s : SplitflapTask)
    (hlen : s.modules.length = cfg.NUM_MODULES)
    (hP : cfg.INA219_POWER_SENSE = true)
    (hdue : millisSince inp.millis s.lastCurrentReadMillis > 100)
    (hgrace : millisSince inp.millis s.stopped_at_millis > 100)
    (hlow : inp.current_mA ≥ 3) (hhigh : inp.current_mA ≤ 250 * (cfg.NUM_MODULES : ℚ)) :
    (safetyMonitor cfg inp true s).modules.length = cfg.NUM_MODULES
    ∧ (∀ m ∈ (safetyMonitor cfg inp true s).modules, m.state = State.STATE_DISABLED)
    ∧ (safetyMonitor cfg inp true s).disabled = true
    ∧ safetyMonitor cfg inp true s =
        { disableAll cfg "Unexpected current" (sampleCurrent inp s) with
          lastCurrentReadMillis := inp.millis } := by
  have e : safetyMonitor cfg inp true s =
      { disableAll cfg "Unexpected current" (sampleCurrent inp s) with
        lastCurrentReadMillis := inp.millis } := by
    unfold safetyMonitor
    rw [if_pos ⟨hP, hdue⟩]
    unfold currentCheck
    rw [if_neg (by
      show ¬ (((cfg.NUM_MODULES * 250 : Nat) : ℚ) < inp.current_mA)
      push_cast
      linarith), if_pos ⟨rfl, hgrace, hlow⟩]
  have hd := disableAll_disables cfg "Unexpected current" (sampleCurrent inp s) hlen
  refine ⟨by rw [e]; exact hd.1, by rw [e]; exact hd.2, ?_, e⟩
  rw [e]
  show (disableAll cfg "Unexpected current" (sampleCurrent inp s)).disabled = true
  unfold disableAll announceDisabled
  split_ifs with h
  · exact h
  · rfl

/-- Witness for C9 on the three-module build: 5 mA with all modules at rest for a second. -/
theorem unexpected_current_disables_witness :
    ((safetyMonitor exampleConfig ⟨1000, 5, 12⟩ true exampleTask).modules.getD 0 default).state
      = State.STATE_DISABLED
    ∧ (safetyMonitor exampleConfig ⟨1000, 5, 12⟩ true exampleTask).disabled = true :=
  ⟨(unexpected_current_disables exampleConfig ⟨1000, 5, 12⟩ exampleTask (by decide) rfl
      (by decide) (by decide) (by norm_num) (by norm_num [exampleConfig])).2.1 _ (by decide),
    (unexpected_current_disables exampleConfig ⟨1000, 5, 12⟩ exampleTask (by decide) rfl
      (by decide) (by decide) (by norm_num) (by norm_num [exampleConfig])).2.2.1⟩

/-! ## C10: publishing the status cache -/

theorem snapshotLoop (s : SplitflapTask) (n k : Nat) :
    (forLoop k (fun i (new_state : List SplitflapModuleState) =>
        new_state.set i
          { flapIndex := (s.modules.getD i default).GetCurrentFlapIndex,
            state := (s.modules.getD i default).state })
        (List.replicate n default)).length = n
    ∧ ∀ i, (forLoop k (fun i (new_state : List SplitflapModuleState) =>
        new_state.set i
          { flapIndex := (s.modules.getD i default).GetCurrentFlapIndex,
            state := (s.modules.getD i default).state })
        (List.replicate n default)).getD i default
        = if i < k ∧ i < n then snapshotEntry s i else default := by
  induction k with
  | zero =>
    refine ⟨by simp [forLoop_zero], fun i => ?_⟩
    rw [forLoop_zero, if_neg (fun h => absurd h.1 (Nat.not_lt_zero i))]
    simp only [List.getD_eq_getElem?_getD, List.getElem?_replicate]
    split_ifs <;> rfl
  | succ k ih =>
    obtain ⟨hlen, hget⟩ := ih
    rw [forLoop_succ]
    refine ⟨by rw [List.length_set, hlen], fun i => ?_⟩
    rw [getD_set_eq, hlen, hget i]
    by_cases hik : k = i
    · subst hik
      by_cases hl : k < n
      · rw [if_pos ⟨rfl, hl⟩, if_pos ⟨by omega, hl⟩]; rfl
      · rw [if_neg (fun h => hl h.2), if_neg (fun h => hl h.2), if_neg (fun h => hl h.2)]
    · have h1 : (i < k + 1) = (i < k) := by
        apply propext; constructor <;> intro h <;> omega
      simp only [hik, false_and, if_false, h1]

/-- The candidate snapshot has one entry per module, read from that module. -/
theorem buildSnapshot_eq (cfg : Config) (s : SplitflapTask) :
    buildSnapshot cfg s = (List.range cfg.NUM_MODULES).map (snapshotEntry s) := by
  obtain ⟨hlen, hget⟩ := snapshotLoop s cfg.NUM_MODULES cfg.NUM_MODULES
  unfold buildSnapshot
  apply list_ext_getD default _ _ (by rw [hlen]; simp)
  intro i hi
  rw [hlen] at hi
  rw [hget i, if_pos ⟨hi, hi⟩]
  simp [List.getD_eq_getElem?_getD, List.getElem?_range hi, hi]

/-- C10. Status-cache publish: after `updateStateCache` the published cache holds, for every
module `i < NUM_MODULES`, that module's current flap index and state, whether or not the cache
was rewritten; the cache is overwritten and the mutex taken exactly when the candidate snapshot
differs from the published one, otherwise the call changes nothing; and a second publish with
unchanged modules changes nothing. -/
theorem updateStateCache_publishes (cfg : Config) (s : SplitflapTask) :
    (updateStateCache cfg s).state_cache_ = (List.range cfg.NUM_MODULES).map (snapshotEntry s)
    ∧ (∀ i, i < cfg.NUM_MODULES →
        (updateStateCache cfg s).state_cache_.getD i default
          = { flapIndex := (s.modules.getD i default).GetCurrentFlapIndex,
              state := (s.modules.getD i default).state })
    ∧ (updateStateCache cfg s).modules = s.modules
    ∧ (s.state_cache_ ≠ (List.range cfg.NUM_MODULES).map (snapshotEntry s) →
        (updateStateCache cfg s).calls = s.calls ++ [Call.lock])
    ∧ (s.state_cache_ = (List.range cfg.NUM_MODULES).map (snapshotEntry s) →
        updateStateCache cfg s = s)
    ∧ updateStateCache cfg (updateStateCache cfg s) = updateStateCache cfg s := by
  have hb := buildSnapshot_eq cfg s
  have h1 : (updateStateCache cfg s).state_cache_
      = (List.range cfg.NUM_MODULES).map (snapshotEntry s) := by
    unfold updateStateCache
    split_ifs with h
    · exact hb
    · rw [← hb]; exact not_not.mp h
  have hm : (updateStateCache cfg s).modules = s.modules := by
    unfold updateStateCache; split_ifs <;> rfl
  have hstable : ∀ r : SplitflapTask,
      r.state_cache_ = (List.range cfg.NUM_MODULES).map (snapshotEntry r) →
      updateStateCache cfg r = r := by
    intro r hr
    unfold updateStateCache
    rw [if_neg (by rw [buildSnapshot_eq]; exact not_not.mpr hr)]
  refine ⟨h1, fun i hi => ?_, hm, fun hne => ?_, hstable s, ?_⟩
  · rw [h1]
    simp [List.getD_eq_getElem?_getD, List.getElem?_range hi, hi, snapshotEntry]
  · unfold updateStateCache
    rw [if_pos (by rw [hb]; exact hne)]
    rfl
  · apply hstable
    rw [h1]
    unfold snapshotEntry
    rw [hm]

/-- Witness for C10 on the three-module build: once module 2 shows flap 1 the publish rewrites
the cache under the mutex, and a publish with an up-to-date cache changes nothing. -/
theorem updateStateCache_publishes_witness :
    (updateStateCache exampleConfig
        { exampleTask with modules := [restingModule 0, restingModule 0, restingModule 1] }).calls
      = [] ++ [Call.lock]
    ∧ updateStateCache exampleConfig exampleTask = exampleTask :=
  ⟨(updateStateCache_publishes exampleConfig
      { exampleTask with
        modules := [restingModule 0, restingModule 0, restingModule 1] }).2.2.2.1 (by decide),
    (updateStateCache_publishes exampleConfig exampleTask).2.2.2.2.1 (by decide)⟩

/-! ## C16: stopped implies idle -/

theorem is_idle_of_is_stopped (m : SplitflapModule) (h : is_stopped m = true) :
    is_idle m = true := by
  rw [is_stopped_iff] at h
  rw [is_idle_iff]
  rcases h with h | h | h
  · exact Or.inl h
  · exact Or.inr (Or.inl h)
  · cases hs : m.state
    · exact Or.inr (Or.inr (Or.inr (Or.inr ⟨rfl, h⟩)))
    · exact Or.inr (Or.inr (Or.inl rfl))
    · exact Or.inr (Or.inr (Or.inr (Or.inl rfl)))
    · exact Or.inl rfl
    · exact Or.inr (Or.inl rfl)

theorem not_is_idle_iff (m : SplitflapModule) :
    is_idle m = false ↔ (m.state = State.NORMAL ∧ m.current_accel_step ≠ 0) := by
  rw [← Bool.not_eq_true, is_idle_iff]
  cases hs : m.state <;> simp

theorem moduleLoop_stopped_idle (cfg : Config) (fg fp : Nat) (s : SplitflapTask) (k : Nat) :
    (forLoop k (updateBody cfg fg fp)
        { task := s, all_idle := true, all_stopped := true }).all_stopped = true →
      (forLoop k (updateBody cfg fg fp)
        { task := s, all_idle := true, all_stopped := true }).all_idle = true := by
  induction k with
  | zero => intro _; rfl
  | succ k ih =>
    rw [forLoop_succ]
    generalize forLoop k (updateBody cfg fg fp)
      { task := s, all_idle := true, all_stopped := true } = t at *
    unfold updateBody
    split
    · exact ih
    · intro h
      simp only [Bool.and_eq_true] at h ⊢
      exact ⟨ih h.1, is_idle_of_is_stopped _ h.2⟩

theorem all_idle_of_all_stopped (cfg : Config) (now : Nat) (s : SplitflapTask)
    (h : (advancePhase cfg now s).all_stopped = true) :
    (advancePhase cfg now s).all_idle = true := by
  unfold advancePhase at h ⊢
  split_ifs at h ⊢ with hs
  · exact moduleLoop_stopped_idle cfg _ _ s cfg.NUM_MODULES h
  · rfl

/-- C16. Stopped implies idle: a module classified stopped by `runUpdate` is classified idle, and
a module is non-idle exactly when it is in `NORMAL` with `current_accel_step ≠ 0`; hence in
every tick `all_stopped` implies `all_idle`, the conjunction `all_idle && all_stopped` equals
`all_stopped`, and a tick with `all_stopped` runs the `if (all_idle)` block, where the two
pending acknowledgments are guarded by `all_stopped` alone. -/
theorem stopped_implies_idle (cfg : Config) :
    (∀ (state : State) (current_accel_step : Nat) (m : SplitflapModule),
      m.state = state → m.current_accel_step = current_accel_step →
      (is_stopped m = true → is_idle m = true)
      ∧ (is_idle m = false ↔ (state = State.NORMAL ∧ current_accel_step ≠ 0)))
    ∧ (∀ (now : Nat) (s : SplitflapTask),
      ((advancePhase cfg now s).all_stopped = true → (advancePhase cfg now s).all_idle = true)
      ∧ ((advancePhase cfg now s).all_idle && (advancePhase cfg now s).all_stopped)
          = (advancePhase cfg now s).all_stopped)
    ∧ (∀ (inp : TickInput) (pending : List Nat) (s : SplitflapTask),
      (advancePhase cfg inp.millis s).all_stopped = true →
      runUpdate cfg inp pending s =
        (commandLoop cfg true pending
          (ackMove cfg true (ackNoOp true (voltageCheck cfg inp
            (safetyMonitor cfg inp true (advancePhase cfg inp.millis s).task)))), [])) := by
  refine ⟨fun state accel m hs ha => ⟨is_idle_of_is_stopped m, ?_⟩, fun now s => ⟨
    all_idle_of_all_stopped cfg now s, ?_⟩, fun inp pending s h => ?_⟩
  · rw [← hs, ← ha]; exact not_is_idle_iff m
  · cases hst : (advancePhase cfg now s).all_stopped
    · simp
    · rw [all_idle_of_all_stopped cfg now s hst]; rfl
  · unfold runUpdate idlePrelude
    rw [if_pos (all_idle_of_all_stopped cfg inp.millis s h), h]

/-- Witness for C16 on the three-module build: at rest the tick is stopped, hence idle. -/
theorem stopped_implies_idle_witness :
    (advancePhase exampleConfig 1000 exampleTask).all_idle = true :=
  ((stopped_implies_idle exampleConfig).2.1 1000 exampleTask).1 (by decide)

/-! ## C12: the reset command `'@'` -/

/-- The module array after `k` iterations of the loop of `case '@'`. -/
theorem resetLoop_modules (k : Nat) (s : SplitflapTask) :
    (forLoop k (fun i s =>
        onModule i (Call.GoHome i) SplitflapModule.GoHome
          (onModule i (Call.ResetErrorCounters i) SplitflapModule.ResetErrorCounters s))
        s).modules.length = s.modules.length
    ∧ ∀ i, (forLoop k (fun i s =>
        onModule i (Call.GoHome i) SplitflapModule.GoHome
          (onModule i (Call.ResetErrorCounters i) SplitflapModule.ResetErrorCounters s))
        s).modules.getD i default =
        if i < k ∧ i < s.modules.length then
          ((s.modules.getD i default).ResetErrorCounters).GoHome
        else s.modules.getD i default := by
  induction k with
  | zero => exact ⟨rfl, fun i => by simp [forLoop_zero]⟩
  | succ k ih =>
    obtain ⟨hlen, hget⟩ := ih
    have hk : (forLoop k (fun i s =>
        onModule i (Call.GoHome i) SplitflapModule.GoHome
          (onModule i (Call.ResetErrorCounters i) SplitflapModule.ResetErrorCounters s))
        s).modules.getD k default = s.modules.getD k default := by
      rw [hget k, if_neg (fun h => absurd h.1 (lt_irrefl k))]
    rw [forLoop_succ, onModule_modules, onModule_modules, List.set_set, getD_set_eq, hlen, hk]
    refine ⟨by rw [List.length_set, hlen], fun i => ?_⟩
    rw [getD_set_eq, hlen, hget i]
    by_cases hik : k = i
    · subst hik
      by_cases hl : k < s.modules.length
      · rw [if_pos ⟨rfl, hl⟩, if_pos ⟨rfl, hl⟩, if_pos ⟨by omega, hl⟩]
      · rw [if_neg (fun h => hl h.2), if_neg (fun h => hl h.2), if_neg (fun h => hl h.2)]
    · have h1 : (i < k + 1) = (i < k) := by
        apply propext; constructor <;> intro h <;> omega
      simp only [hik, false_and, if_false, h1]

theorem onModule_length (i : Nat) (c : Call) (f : SplitflapModule → SplitflapModule)
    (s : SplitflapTask) : (onModule i c f s).modules.length = s.modules.length := by
  rw [onModule_modules, List.length_set]

/-- The calls made by `k` iterations of the loop of `case '@'`. -/
theorem resetLoop_calls (k : Nat) (s : SplitflapTask) (hk : k ≤ s.modules.length) :
    (forLoop k (fun i s =>
        onModule i (Call.GoHome i) SplitflapModule.GoHome
          (onModule i (Call.ResetErrorCounters i) SplitflapModule.ResetErrorCounters s))
        s).calls
      = s.calls ++ (List.range k).flatMap
          (fun i => [Call.ResetErrorCounters i, Call.GoHome i]) := by
  induction k with
  | zero => simp [forLoop_zero]
  | succ k ih =>
    have hlen := (resetLoop_modules k s).1
    rw [forLoop_succ, onModule_calls, onModule_length, onModule_calls, hlen,
      if_pos (by omega), ih (by omega), List.range_succ, List.flatMap_append]
    have hk2 : k < s.modules.length := by omega
    simp [hk2]

/-- Counterexample to C12 as stated: in sensor-test mode the tick reads the `'@'` byte and drops
it, so module 1 keeps its fault counters and its state, and no module method is called. -/
theorem reset_command_counterexample :
    sensorTestTask.sensor_test_ = true
    ∧ (runUpdate exampleConfig ⟨1000, 0, 12⟩ [64] sensorTestTask).2 = []
    ∧ (runUpdate exampleConfig ⟨1000, 0, 12⟩ [64] sensorTestTask).1.modules
        = sensorTestTask.modules
    ∧ ((runUpdate exampleConfig ⟨1000, 0, 12⟩ [64] sensorTestTask).1.modules.getD 1
        default).count_missed_home = 2
    ∧ ((runUpdate exampleConfig ⟨1000, 0, 12⟩ [64] sensorTestTask).1.modules.getD 1
        default).count_unexpected_home = 1
    ∧ ((runUpdate exampleConfig ⟨1000, 0, 12⟩ [64] sensorTestTask).1.modules.getD 1
        default).state = State.SENSOR_ERROR
    ∧ (runUpdate exampleConfig ⟨1000, 0, 12⟩ [64] sensorTestTask).1.calls
        = [Call.motor_sensor_io, Call.motor_sensor_io, Call.getCurrent_mA,
            Call.getBusVoltage_V] := by
  decide

/-- C12 (amended). Reset command: when the command interpreter processes an `'@'` byte with
sensor-test mode off, `ResetErrorCounters` followed by `GoHome` is applied to every module
`i < NUM_MODULES`, in index order, so that afterwards every module has `count_missed_home = 0`,
`count_unexpected_home = 0` and is in `LOOK_FOR_HOME`; an `'@'` byte read in sensor-test mode is
consumed and discarded, and the task (every module, counter and call included) is left exactly as
it was. -/
theorem reset_command (cfg : Config) (all_stopped : Bool) (s : SplitflapTask)
    (hlen : s.modules.length = cfg.NUM_MODULES) :
    (s.sensor_test_ = false →
      (processByte cfg all_stopped 64 s).modules.length = cfg.NUM_MODULES
      ∧ (∀ i, i < cfg.NUM_MODULES →
          (processByte cfg all_stopped 64 s).modules.getD i default
            = ((s.modules.getD i default).ResetErrorCounters).GoHome)
      ∧ (∀ m ∈ (processByte cfg all_stopped 64 s).modules,
          m.count_missed_home = 0 ∧ m.count_unexpected_home = 0
            ∧ m.state = State.LOOK_FOR_HOME)
      ∧ (processByte cfg all_stopped 64 s).calls
          = s.calls ++ (List.range cfg.NUM_MODULES).flatMap
              (fun i => [Call.ResetErrorCounters i, Call.GoHome i]))
    ∧ (s.sensor_test_ = true → processByte cfg all_stopped 64 s = s) := by
  refine ⟨fun hst => ?_, fun hst => by
    unfold processByte
    rw [if_neg (by simp), if_neg (by simp [hst])]⟩
  have e : processByte cfg all_stopped 64 s = resetAll cfg s := by
    unfold processByte
    rw [if_neg (by simp), if_pos hst, if_pos rfl]
  obtain ⟨h1, h2⟩ := resetLoop_modules cfg.NUM_MODULES s
  rw [e]
  unfold resetAll
  have hget : ∀ i, i < cfg.NUM_MODULES →
      (forLoop cfg.NUM_MODULES (fun i s =>
        onModule i (Call.GoHome i) SplitflapModule.GoHome
          (onModule i (Call.ResetErrorCounters i) SplitflapModule.ResetErrorCounters s))
        s).modules.getD i default
        = ((s.modules.getD i default).ResetErrorCounters).GoHome := by
    intro i hi
    rw [h2 i, if_pos ⟨hi, by omega⟩]
  refine ⟨by rw [h1, hlen], hget, ?_, resetLoop_calls cfg.NUM_MODULES s (by omega)⟩
  rw [← forall_getD_iff_forall_mem _ default]
  intro i hi
  rw [h1, hlen] at hi
  rw [hget i hi]
  exact ⟨rfl, rfl, rfl⟩

/-- Witness for C12 (amended) on the three-module build: with sensor-test mode off, after `'@'`
the faulted module 1 is homing with both fault counters at zero; in sensor-test mode the byte
changes nothing. -/
theorem reset_command_witness :
    (processByte exampleConfig true 64
        { sensorTestTask with sensor_test_ := false }).modules.getD 1 default
      = (faultedModule.ResetErrorCounters).GoHome
    ∧ (processByte exampleConfig true 64 { sensorTestTask with sensor_test_ := false }).calls
      = [Call.ResetErrorCounters 0, Call.GoHome 0, Call.ResetErrorCounters 1, Call.GoHome 1,
          Call.ResetErrorCounters 2, Call.GoHome 2]
    ∧ processByte exampleConfig true 64 sensorTestTask = sensorTestTask :=
  ⟨((reset_command exampleConfig true { sensorTestTask with sensor_test_ := false }
      (by decide)).1 rfl).2.1 1 (by decide),
    ((reset_command exampleConfig true { sensorTestTask with sensor_test_ := false }
      (by decide)).1 rfl).2.2.2.trans (by decide),
    (reset_command exampleConfig true sensorTestTask (by decide)).2 rfl⟩

/-! ## C19: a newline does not clear the accumulator -/

theorem processByte_newline (cfg : Config) (all_stopped : Bool) (s : SplitflapTask)
    (hst : s.sensor_test_ = false) :
    processByte cfg all_stopped 10 s = showString cfg s.recv_buffer s.recv_count s := by
  unfold processByte
  rw [if_neg (by simp), if_pos hst, if_neg (by decide), if_neg (by decide), if_neg (by decide),
    if_pos rfl]

/-- In sensor-test mode a byte other than `'%'` is dropped. -/
theorem processByte_sensor_test_drop (cfg : Config) (all_stopped : Bool) (b : Nat)
    (s : SplitflapTask) (hst : s.sensor_test_ = true) (hb : b ≠ 37) :
    processByte cfg all_stopped b s = s := by
  unfold processByte
  rw [if_neg (fun h => hb h.1), if_neg (by simp [hst])]

/-- No byte clears `pending_no_op`. -/
theorem processByte_pending_no_op (cfg : Config) (all_stopped : Bool) (b : Nat)
    (s : SplitflapTask) (h : s.pending_no_op = true) :
    (processByte cfg all_stopped b s).pending_no_op = true := by
  unfold processByte
  split_ifs
  · exact h
  · exact (congrArg CommandView.pending_no_op (resetAll_view cfg s)).trans h
  · rfl
  · exact h
  · exact (congrArg CommandView.pending_no_op (showString_view cfg _ _ s)).trans h
  · rw [appendByte_eq]; split_ifs <;> exact h
  · exact h

theorem commandLoop_pending_no_op (cfg : Config) (all_stopped : Bool) (bytes : List Nat)
    (s : SplitflapTask) (h : s.pending_no_op = true) :
    (commandLoop cfg all_stopped bytes s).pending_no_op = true := by
  induction bytes generalizing s with
  | nil => exact h
  | cons b rest ih => exact ih _ (processByte_pending_no_op cfg all_stopped b s h)

/-- A byte other than `'%'` leaves `sensor_test_` alone. -/
theorem processByte_sensor_test_of_ne (cfg : Config) (all_stopped : Bool) (b : Nat)
    (s : SplitflapTask) (hb : b ≠ 37) :
    (processByte cfg all_stopped b s).sensor_test_ = s.sensor_test_ := by
  unfold processByte
  rw [if_neg (fun h => hb h.1)]
  split_ifs
  · exact congrArg CommandView.sensor_test_ (resetAll_view cfg s)
  · rfl
  · rfl
  · exact congrArg CommandView.sensor_test_ (showString_view cfg _ _ s)
  · rw [appendByte_eq]; split_ifs <;> rfl
  · rfl

theorem commandLoop_sensor_test_of_not_mem (cfg : Config) (all_stopped : Bool)
    (bytes : List Nat) (s : SplitflapTask) (hb : 37 ∉ bytes) :
    (commandLoop cfg all_stopped bytes s).sensor_test_ = s.sensor_test_ := by
  induction bytes generalizing s with
  | nil => rfl
  | cons b rest ih =>
    have h1 : b ≠ 37 := fun h => hb (by simp [h])
    have h2 : 37 ∉ rest := fun h => hb (List.mem_cons_of_mem _ h)
    exact (ih _ h2).trans (processByte_sensor_test_of_ne cfg all_stopped b s h1)

theorem commandLoop_cons_append (cfg : Config) (all_stopped : Bool) (pre post : List Nat)
    (b : Nat) (s : SplitflapTask) :
    commandLoop cfg all_stopped (pre ++ b :: post) s
      = commandLoop cfg all_stopped post
          (processByte cfg all_stopped b (commandLoop cfg all_stopped pre s)) := by
  induction pre generalizing s with
  | nil => rfl
  | cons a rest ih => exact ih _

/-! ## C14: the move echo -/

theorem onModule_serial_out (i : Nat) (c : Call) (f : SplitflapModule → SplitflapModule)
    (s : SplitflapTask) : (onModule i c f s).serial_out = s.serial_out := by
  unfold onModule; split <;> rfl

theorem showStringBody_serial_out (cfg : Config) (str : List Nat) (i : Nat)
    (s : SplitflapTask) :
    (showStringBody cfg str i s).serial_out = s.serial_out ++ [str.getD i 0 % 256] := by
  have h : ∀ index, (showStringGoTo cfg i index s).serial_out = s.serial_out := by
    intro index
    unfold showStringGoTo
    split_ifs <;> first | exact onModule_serial_out _ _ _ _ | rfl
  unfold showStringBody
  show (showStringGoTo cfg i _ s).serial_out ++ _ = _
  rw [h]

theorem showStringLoop_serial_out (cfg : Config) (str : List Nat) (k : Nat)
    (s : SplitflapTask) :
    (forLoop k (showStringBody cfg str) s).serial_out
      = s.serial_out ++ (List.range k).map (fun i => str.getD i 0 % 256) := by
  induction k with
  | zero => simp [forLoop_zero]
  | succ k ih =>
    rw [forLoop_succ, showStringBody_serial_out, ih, List.range_succ, List.map_append,
      List.append_assoc]
    rfl

/-- The bytes written by `showString`: the opening of the record, the first `length` characters
of the buffer, the closing of the record. -/
theorem showString_serial_out (cfg : Config) (str : List Nat) (n : Nat) (s : SplitflapTask) :
    (showString cfg str n s).serial_out
      = s.serial_out ++ (bytesOf "\x7b\"type\":\"move_echo\", \"dest\":\""
          ++ (List.range n).map (fun i => str.getD i 0 % 256) ++ bytesOf "\"\x7d\n") := by
  unfold showString
  show (forLoop n (showStringBody cfg str) (showStringOpen s)).serial_out ++ _ = _
  rw [showStringLoop_serial_out]
  show ((s.serial_out ++ _) ++ _) ++ _ = _
  simp only [List.append_assoc]

/-- The first `n` bytes of a buffer of bytes, read one index at a time. -/
theorem map_getD_range_eq_take (l : List Nat) (n : Nat) (hn : n ≤ l.length)
    (hb : ∀ b ∈ l, b < 256) :
    (List.range n).map (fun i => l.getD i 0 % 256) = l.take n := by
  apply List.ext_getElem
  · simp [hn]
  · intro i h1 h2
    simp only [List.length_map, List.length_range] at h1
    have hi : i < l.length := by omega
    simp only [List.getElem_map, List.getElem_range, List.getElem_take,
      List.getD_eq_getElem?_getD, List.getElem?_eq_getElem hi, Option.getD_some]
    exact Nat.mod_eq_of_lt (hb _ (List.getElem_mem hi))

theorem callsExtend_showString {P : Call → Prop} (hl : P Call.lock)
    (hg : ∀ i index, P (Call.GoToFlapIndex i index)) (cfg : Config) (str : List Nat) (n : Nat)
    (s : SplitflapTask) : CallsExtend P s (showString cfg str n s) := by
  unfold showString
  have h1 : CallsExtend P s (showStringOpen s) := ⟨[Call.lock], rfl, by simpa using hl⟩
  have h2 : CallsExtend P (showStringOpen s)
      (forLoop n (showStringBody cfg str) (showStringOpen s)) := by
    refine callsExtend_forLoop id (showStringBody cfg str) (fun i t => ?_) n _
    show CallsExtend P t (Serial_write _ (showStringGoTo cfg i _ t))
    refine callsExtend_trans ?_ (callsExtend_of_calls_eq rfl)
    unfold showStringGoTo
    split_ifs
    · exact callsExtend_onModule i _ (hg i _) _ t
    · exact callsExtend_refl P t
    · exact callsExtend_refl P t
  exact callsExtend_trans (callsExtend_trans h1 h2) (callsExtend_of_calls_eq rfl)

/-- Counterexample to C14 as stated. First, on `"=AB\n"` the bytes written are those of
`{"type":"move_echo", "dest":"AB"}` and a newline, with a space after the comma, which are not
the bytes of the record without the space. Second, in sensor-test mode a tick reads the newline
and drops it: with `"AB"` accumulated nothing is written, no call is made on the mutex or on a
module, and no move response is left pending. -/
theorem move_echo_counterexample :
    ((commandLoop exampleConfig true [61, 65, 66, 10] exampleTask).serial_out
        = bytesOf "\x7b\"type\":\"move_echo\", \"dest\":\"AB\"\x7d\n"
      ∧ (commandLoop exampleConfig true [61, 65, 66, 10] exampleTask).serial_out
        ≠ bytesOf "\x7b\"type\":\"move_echo\",\"dest\":\"AB\"\x7d\n")
    ∧ (sensorTestTask.sensor_test_ = true
      ∧ sensorTestTask.recv_buffer.take sensorTestTask.recv_count = [65, 66]
      ∧ (runUpdate exampleConfig ⟨1000, 0, 12⟩ [10] sensorTestTask).2 = []
      ∧ (runUpdate exampleConfig ⟨1000, 0, 12⟩ [10] sensorTestTask).1.serial_out = []
      ∧ (runUpdate exampleConfig ⟨1000, 0, 12⟩ [10] sensorTestTask).1.pending_move_response
          = false
      ∧ (runUpdate exampleConfig ⟨1000, 0, 12⟩ [10] sensorTestTask).1.calls
          = [Call.motor_sensor_io, Call.motor_sensor_io, Call.getCurrent_mA,
              Call.getBusVoltage_V]) := by
  decide

/-- C14 (amended). Move echo: with sensor-test mode off, processing the newline byte makes
`showString` write, at once, exactly the bytes of `{"type":"move_echo", "dest":"` (with a space
after the comma), the first `recv_count` characters of the buffer in order, and `"}` with a
newline; for the input `"=AB\n"` the bytes written are those of
`{"type":"move_echo", "dest":"AB"}` and a newline. In sensor-test mode the newline is consumed
and discarded: nothing is written and the task is left exactly as it was. In either mode
processing the byte makes no module `Update` call, and in an idle tick the newline is processed
within that tick. -/
theorem move_echo (cfg : Config) (all_stopped : Bool) (x : SplitflapTask) :
    (x.sensor_test_ = false →
      (processByte cfg all_stopped 10 x).serial_out
          = x.serial_out ++ (bytesOf "\x7b\"type\":\"move_echo\", \"dest\":\""
              ++ (List.range x.recv_count).map (fun i => x.recv_buffer.getD i 0 % 256)
              ++ bytesOf "\"\x7d\n")
      ∧ (x.recv_count ≤ x.recv_buffer.length → (∀ b ∈ x.recv_buffer, b < 256) →
          (processByte cfg all_stopped 10 x).serial_out
            = x.serial_out ++ (bytesOf "\x7b\"type\":\"move_echo\", \"dest\":\""
                ++ x.recv_buffer.take x.recv_count ++ bytesOf "\"\x7d\n"))
      ∧ (2 ≤ cfg.NUM_MODULES → x.recv_buffer.length = cfg.NUM_MODULES →
          (commandLoop cfg all_stopped [61, 65, 66, 10] x).serial_out
            = x.serial_out ++ bytesOf "\x7b\"type\":\"move_echo\", \"dest\":\"AB\"\x7d\n"))
    ∧ (x.sensor_test_ = true →
        processByte cfg all_stopped 10 x = x
        ∧ (processByte cfg all_stopped 10 x).serial_out = x.serial_out)
    ∧ (∃ added : List Call, (processByte cfg all_stopped 10 x).calls = x.calls ++ added
        ∧ ∀ c ∈ added, ∀ i, c ≠ Call.Update i)
    ∧ (∀ (inp : TickInput) (pre : List Nat) (s : SplitflapTask),
        (advancePhase cfg inp.millis s).all_idle = true →
        runUpdate cfg inp (pre ++ [10]) s
          = (processByte cfg (advancePhase cfg inp.millis s).all_stopped 10
              (runUpdate cfg inp pre s).1, [])) := by
  have hdrop : x.sensor_test_ = true → processByte cfg all_stopped 10 x = x :=
    fun hst => processByte_sensor_test_drop cfg all_stopped 10 x hst (by decide)
  refine ⟨fun hst => ⟨?_, fun hn hb => ?_, fun hN hlen => ?_⟩,
    fun hst => ⟨hdrop hst, by rw [hdrop hst]⟩, ?_, fun inp pre s hi => ?_⟩
  · rw [processByte_newline cfg all_stopped x hst]; exact showString_serial_out cfg _ _ x
  · rw [processByte_newline cfg all_stopped x hst, showString_serial_out,
      map_getD_range_eq_take _ _ hn hb]
  · rw [commandLoop_eqABnl cfg all_stopped x hN hst, showString_serial_out]
    have g0 : ((x.recv_buffer.set 0 65).set 1 66).getD 0 0 = 65 := by
      rw [getD_set_eq, if_neg (by omega), getD_set_eq, if_pos ⟨rfl, by omega⟩]
    have g1 : ((x.recv_buffer.set 0 65).set 1 66).getD 1 0 = 66 := by
      rw [getD_set_eq, if_pos ⟨rfl, by rw [List.length_set]; omega⟩]
    have hr : (List.range 2).map (fun i => ((x.recv_buffer.set 0 65).set 1 66).getD i 0 % 256)
        = [65, 66] := by
      show [((x.recv_buffer.set 0 65).set 1 66).getD 0 0 % 256,
        ((x.recv_buffer.set 0 65).set 1 66).getD 1 0 % 256] = _
      rw [g0, g1]
    show x.serial_out ++ _ = _
    rw [hr]
    rfl
  · cases hst : x.sensor_test_
    · rw [processByte_newline cfg all_stopped x hst]
      exact callsExtend_showString (P := fun c => ∀ i, c ≠ Call.Update i)
        (fun i h => by cases h) (fun i index j h => by cases h) cfg _ _ x
    · rw [hdrop hst]
      exact ⟨[], by simp, by simp⟩
  · unfold runUpdate
    rw [if_pos hi, if_pos hi, commandLoop_append]

/-- Witness for C14 (amended) on the three-module build: after `"=AB"` the newline writes the
record with destination `AB`; in sensor-test mode the newline writes nothing. -/
theorem move_echo_witness :
    (processByte exampleConfig true 10
        (commandLoop exampleConfig true [61, 65, 66] exampleTask)).serial_out
      = bytesOf "\x7b\"type\":\"move_echo\", \"dest\":\"AB\"\x7d\n"
    ∧ (processByte exampleConfig true 10 sensorTestTask).serial_out = [] :=
  ⟨(((move_echo exampleConfig true (commandLoop exampleConfig true [61, 65, 66] exampleTask)).1
      (by decide)).2.1 (by decide) (by decide)).trans (by decide),
    ((move_echo exampleConfig true sensorTestTask).2.1 rfl).2⟩

/-! ## C15: the LED bit layout -/

theorem setLedStatus_eq (cfg : Config) (m : Nat) (ledOn : Bool) (buf : List Nat) :
    setLedStatus cfg m ledOn buf =
      if cfg.CHAINLINK = true then
        if ledOn = true then
          buf.set (ledByteIndex cfg m) (buf.getD (ledByteIndex cfg m) 0 ||| ledBitMask m)
        else
          buf.set (ledByteIndex cfg m) (buf.getD (ledByteIndex cfg m) 0 &&& (255 ^^^ ledBitMask m))
      else buf := rfl

theorem ledBitMask_eq (m : Nat) : ledBitMask m = 2 ^ ledBit m := by
  unfold ledBitMask ledBit
  split_ifs <;> rw [Nat.one_shiftLeft]

theorem ledBit_lt (m : Nat) : ledBit m < 8 := by
  unfold ledBit
  split_ifs <;> omega

/-- Inside the buffer, `byteIndex` is the second or third byte from the top of the module's
four-byte block. -/
theorem ledByteIndex_eq (cfg : Config) (m : Nat) (hM : cfg.MOTOR_BUFFER_LENGTH ≤ 256)
    (hm : 4 * (m / 6) + 3 ≤ cfg.MOTOR_BUFFER_LENGTH) :
    ledByteIndex cfg m + 4 * (m / 6) + (if m % 6 < 3 then 2 else 3)
      = cfg.MOTOR_BUFFER_LENGTH := by
  unfold ledByteIndex
  split_ifs <;> omega

theorem testBit_or_two_pow (x p k : Nat) :
    (x ||| 2 ^ p).testBit k = if k = p then true else x.testBit k := by
  rw [Nat.testBit_or, Nat.testBit_two_pow]
  by_cases h : k = p
  · subst h; simp
  · have : ¬ p = k := fun e => h e.symm
    simp [h, this]

theorem testBit_and_not_two_pow (x p k : Nat) (hx : x < 256) (hp : p < 8) :
    (x &&& (255 ^^^ 2 ^ p)).testBit k = if k = p then false else x.testBit k := by
  rw [Nat.testBit_and, Nat.testBit_xor, Nat.testBit_two_pow,
    show (255 : Nat) = 2 ^ 8 - 1 from rfl, Nat.testBit_two_pow_sub_one]
  by_cases h : k = p
  · subst h; simp [hp]
  · have hpk : ¬ p = k := fun e => h e.symm
    by_cases hk : k < 8
    · simp [h, hpk, hk]
    · have hx2 : x.testBit k = false :=
        Nat.testBit_lt_two_pow (lt_of_lt_of_le hx
          (by
            have : 2 ^ 8 ≤ 2 ^ k := Nat.pow_le_pow_right (by norm_num) (by omega)
            simpa using this))
      simp [h, hpk, hk, hx2]

theorem getD_lt_of_forall {l : List Nat} (hb : ∀ b ∈ l, b < 256) (j : Nat) :
    l.getD j 0 < 256 := by
  by_cases hj : j < l.length
  · rw [List.getD_eq_getElem?_getD, List.getElem?_eq_getElem hj]
    exact hb _ (List.getElem_mem hj)
  · rw [List.getD_eq_getElem?_getD, List.getElem?_eq_none_iff.mpr (by omega)]
    exact Nat.zero_lt_succ _

/-- Every bit of the motor buffer after `setLedStatus`: the addressed bit takes the value `on`,
every other bit of every byte keeps its value. -/
theorem setLedStatus_testBit (cfg : Config) (m : Nat) (ledOn : Bool) (buf : List Nat)
    (hb : ∀ b ∈ buf, b < 256) (j k : Nat) :
    ((setLedStatus cfg m ledOn buf).getD j 0).testBit k =
      if cfg.CHAINLINK = true ∧ j = ledByteIndex cfg m ∧ j < buf.length ∧ k = ledBit m then ledOn
      else (buf.getD j 0).testBit k := by
  by_cases hC : cfg.CHAINLINK = true
  · have eT : setLedStatus cfg m true buf
        = buf.set (ledByteIndex cfg m) (buf.getD (ledByteIndex cfg m) 0 ||| ledBitMask m) := by
      rw [setLedStatus_eq, if_pos hC, if_pos rfl]
    have eF : setLedStatus cfg m false buf
        = buf.set (ledByteIndex cfg m)
            (buf.getD (ledByteIndex cfg m) 0 &&& (255 ^^^ ledBitMask m)) := by
      rw [setLedStatus_eq, if_pos hC, if_neg (by simp)]
    by_cases hj : ledByteIndex cfg m = j ∧ j < buf.length
    · obtain ⟨hj1, hj2⟩ := hj
      subst hj1
      by_cases hk : k = ledBit m
      · rw [if_pos ⟨hC, rfl, hj2, hk⟩]
        cases ledOn
        · rw [eF, getD_set_eq, if_pos ⟨rfl, hj2⟩, ledBitMask_eq,
            testBit_and_not_two_pow _ _ _ (getD_lt_of_forall hb _) (ledBit_lt m), if_pos hk]
        · rw [eT, getD_set_eq, if_pos ⟨rfl, hj2⟩, ledBitMask_eq, testBit_or_two_pow, if_pos hk]
      · rw [if_neg (fun h => hk h.2.2.2)]
        cases ledOn
        · rw [eF, getD_set_eq, if_pos ⟨rfl, hj2⟩, ledBitMask_eq,
            testBit_and_not_two_pow _ _ _ (getD_lt_of_forall hb _) (ledBit_lt m), if_neg hk]
        · rw [eT, getD_set_eq, if_pos ⟨rfl, hj2⟩, ledBitMask_eq, testBit_or_two_pow, if_neg hk]
    · rw [if_neg (fun h => hj ⟨h.2.1.symm, h.2.2.1⟩)]
      cases ledOn
      · rw [eF, getD_set_eq, if_neg hj]
      · rw [eT, getD_set_eq, if_neg hj]
  · rw [setLedStatus_eq, if_neg hC, if_neg (fun h => hC h.1)]

theorem setLedStatus_length (cfg : Config) (m : Nat) (ledOn : Bool) (buf : List Nat) :
    (setLedStatus cfg m ledOn buf).length = buf.length := by
  rw [setLedStatus_eq]
  split_ifs <;> simp

/-- C15. LED bit layout (`CHAINLINK` build, buffer of at most 256 bytes addressed by the
`uint8_t` index): for every module index `m` with `4*(m/6) + 3 ≤ MOTOR_BUFFER_LENGTH`,
`setLedStatus(m, on)` gives the bit `(ledByteIndex m, ledBit m)` of `motor_buffer` the value `on`
and leaves every other bit of every byte unchanged; the position depends on `m` alone, it lies in
the second or third byte from the top of the four-byte block of the group `m / 6`, and distinct
module indices address distinct positions. -/
theorem led_bit_layout (cfg : Config) (hC : cfg.CHAINLINK = true)
    (hM : cfg.MOTOR_BUFFER_LENGTH ≤ 256) :
    (∀ (m : Nat) (ledOn : Bool) (motor_buffer : List Nat),
      m < 256 → 4 * (m / 6) + 3 ≤ cfg.MOTOR_BUFFER_LENGTH →
      motor_buffer.length = cfg.MOTOR_BUFFER_LENGTH → (∀ b ∈ motor_buffer, b < 256) →
      (setLedStatus cfg m ledOn motor_buffer).length = cfg.MOTOR_BUFFER_LENGTH
      ∧ ledByteIndex cfg m < cfg.MOTOR_BUFFER_LENGTH ∧ ledBit m < 8
      ∧ ∀ j k, ((setLedStatus cfg m ledOn motor_buffer).getD j 0).testBit k =
          if j = ledByteIndex cfg m ∧ k = ledBit m then ledOn
          else (motor_buffer.getD j 0).testBit k)
    ∧ (∀ m, m < 256 → 4 * (m / 6) + 3 ≤ cfg.MOTOR_BUFFER_LENGTH →
        ledByteIndex cfg m + 4 * (m / 6) + (if m % 6 < 3 then 2 else 3)
            = cfg.MOTOR_BUFFER_LENGTH
        ∧ cfg.MOTOR_BUFFER_LENGTH - 4 * (m / 6 + 1) ≤ ledByteIndex cfg m
        ∧ ledByteIndex cfg m < cfg.MOTOR_BUFFER_LENGTH - 4 * (m / 6))
    ∧ (∀ m1 m2, m1 < 256 → m2 < 256 →
        4 * (m1 / 6) + 3 ≤ cfg.MOTOR_BUFFER_LENGTH →
        4 * (m2 / 6) + 3 ≤ cfg.MOTOR_BUFFER_LENGTH →
        ledByteIndex cfg m1 = ledByteIndex cfg m2 → ledBit m1 = ledBit m2 → m1 = m2) := by
  refine ⟨fun m ledOn buf _ hm hlen hb => ?_, fun m _ hm => ?_, fun m1 m2 _ _ h1 h2 hb hk => ?_⟩
  · have hidx := ledByteIndex_eq cfg m hM hm
    have hlt : ledByteIndex cfg m < cfg.MOTOR_BUFFER_LENGTH := by
      split_ifs at hidx <;> omega
    refine ⟨by rw [setLedStatus_length, hlen], hlt, ledBit_lt m, fun j k => ?_⟩
    rw [setLedStatus_testBit cfg m ledOn buf hb j k]
    by_cases hj : j = ledByteIndex cfg m ∧ k = ledBit m
    · rw [if_pos hj, if_pos ⟨hC, hj.1, by rw [hj.1, hlen]; exact hlt, hj.2⟩]
    · rw [if_neg hj, if_neg (fun h => hj ⟨h.2.1, h.2.2.2⟩)]
  · have hidx := ledByteIndex_eq cfg m hM hm
    refine ⟨hidx, ?_, ?_⟩ <;> split_ifs at hidx <;> omega
  · have e1 := ledByteIndex_eq cfg m1 hM h1
    have e2 := ledByteIndex_eq cfg m2 hM h2
    rw [hb] at e1
    unfold ledBit at hk
    split_ifs at e1 e2 hk <;> omega

/-- Witness for C15 on the three-module build: switching on the LED of module 1 sets bit 5 of
byte 2 and nothing else. -/
theorem led_bit_layout_witness :
    setLedStatus exampleConfig 1 true [0, 0, 0, 0] = [0, 0, 32, 0]
    ∧ ((setLedStatus exampleConfig 1 true [0, 0, 0, 0]).getD 2 0).testBit 5 = true :=
  ⟨by decide,
    (((led_bit_layout exampleConfig rfl (by decide)).1 1 true [0, 0, 0, 0] (by decide)
      (by decide) (by decide) (by decide)).2.2.2 2 5).trans (by decide)⟩

/-! ## C17: loopback bits are isolated from each other and from the LED bits -/

theorem loopbackMotorBitMask_eq (i : Nat) :
    loopbackMotorBitMask i = 2 ^ loopbackMotorBit i := by
  unfold loopbackMotorBitMask loopbackMotorBit
  split_ifs <;> rw [Nat.one_shiftLeft]

/-- The LED bit of a module is never bit 7 or bit 3, the two loopback output bits. -/
theorem ledBit_ne_loopbackMotorBit (m i : Nat) : ledBit m ≠ loopbackMotorBit i := by
  unfold ledBit loopbackMotorBit
  split_ifs <;> omega

theorem ledBitMask_ne_loopbackMotorBitMask (m i : Nat) :
    ledBitMask m ≠ loopbackMotorBitMask i := by
  rw [ledBitMask_eq, loopbackMotorBitMask_eq]
  intro h
  exact ledBit_ne_loopbackMotorBit m i (Nat.pow_right_injective (le_refl 2) h)

theorem and_two_pow_eq_of_testBit_eq (x y p : Nat) (h : x.testBit p = y.testBit p) :
    x &&& 2 ^ p = y &&& 2 ^ p := by
  apply Nat.eq_of_testBit_eq
  intro k
  rw [Nat.testBit_and, Nat.testBit_and, Nat.testBit_two_pow]
  by_cases hk : p = k
  · subst hk; rw [h]
  · simp [hk]

/-- C17. Loopback bit isolation (buffer of at most 256 bytes): distinct loopback indices
within the buffer range have distinct motor-buffer positions (byte, mask) and distinct
sensor-buffer positions; the bit written by `setLedStatus(m, _)` is never a loopback output bit,
and `setLedStatus` leaves the loopback output bit of every channel as it was. -/
theorem loopback_bit_isolation (cfg : Config) (hM : cfg.MOTOR_BUFFER_LENGTH ≤ 256) :
    (∀ i j, i ≠ j → 4 * (i / 2) + 3 ≤ cfg.MOTOR_BUFFER_LENGTH →
        4 * (j / 2) + 3 ≤ cfg.MOTOR_BUFFER_LENGTH →
        (loopbackMotorByte cfg i, loopbackMotorBitMask i)
          ≠ (loopbackMotorByte cfg j, loopbackMotorBitMask j))
    ∧ (∀ i j, i ≠ j →
        (loopbackSensorByte i, loopbackSensorBitMask i)
          ≠ (loopbackSensorByte j, loopbackSensorBitMask j))
    ∧ (∀ m i, (ledByteIndex cfg m, ledBitMask m)
        ≠ (loopbackMotorByte cfg i, loopbackMotorBitMask i))
    ∧ (∀ (m : Nat) (ledOn : Bool) (motor_buffer : List Nat) (i : Nat),
        (∀ b ∈ motor_buffer, b < 256) →
        (setLedStatus cfg m ledOn motor_buffer).getD (loopbackMotorByte cfg i) 0
            &&& loopbackMotorBitMask i
          = motor_buffer.getD (loopbackMotorByte cfg i) 0 &&& loopbackMotorBitMask i) := by
  refine ⟨fun i j hij hi hj h => ?_, fun i j hij h => ?_, fun m i h => ?_,
    fun m ledOn buf i hb => ?_⟩
  · rw [Prod.mk.injEq, loopbackMotorBitMask_eq, loopbackMotorBitMask_eq] at h
    have hbit := Nat.pow_right_injective (le_refl 2) h.2
    have hbyte := h.1
    unfold loopbackMotorByte at hbyte
    unfold loopbackMotorBit at hbit
    split_ifs at hbyte hbit <;> omega
  · rw [Prod.mk.injEq] at h
    obtain ⟨hbyte, hmask⟩ := h
    unfold loopbackSensorByte at hbyte
    unfold loopbackSensorBitMask at hmask
    rw [Nat.one_shiftLeft, Nat.one_shiftLeft] at hmask
    split_ifs at hmask with h1 h2 h2
    · omega
    · exact absurd hmask (by decide)
    · exact absurd hmask (by decide)
    · omega
  · rw [Prod.mk.injEq] at h
    exact ledBitMask_ne_loopbackMotorBitMask m i h.2
  · rw [loopbackMotorBitMask_eq]
    apply and_two_pow_eq_of_testBit_eq
    rw [setLedStatus_testBit cfg m ledOn buf hb,
      if_neg (fun h => ledBit_ne_loopbackMotorBit m i h.2.2.2.symm)]

/-- Witness for C17 on the three-module build: the two loopback outputs sit at (byte 2, mask
128) and (byte 1, mask 8), and lighting the LED of module 0 in a buffer that asserts loopback 0
keeps the loopback bit. -/
theorem loopback_bit_isolation_witness :
    (loopbackMotorByte exampleConfig 0, loopbackMotorBitMask 0)
        ≠ (loopbackMotorByte exampleConfig 1, loopbackMotorBitMask 1)
    ∧ (setLedStatus exampleConfig 0 true [0, 0, 128, 0]).getD
          (loopbackMotorByte exampleConfig 0) 0 &&& loopbackMotorBitMask 0
        = ([0, 0, 128, 0] : List Nat).getD (loopbackMotorByte exampleConfig 0) 0
            &&& loopbackMotorBitMask 0 :=
  ⟨(loopback_bit_isolation exampleConfig (by decide)).1 0 1 (by decide) (by decide)
      (by decide),
    (loopback_bit_isolation exampleConfig (by decide)).2.2.2 0 true [0, 0, 128, 0] 0
      (by decide)⟩

/-! ## C3: the amended statement -/

theorem onModule_withoutRecv (i : Nat) (c : Call) (f : SplitflapModule → SplitflapModule)
    (s : SplitflapTask) : (onModule i c f s).withoutRecv = onModule i c f s.withoutRecv := by
  unfold onModule
  show _ = match s.modules[i]? with
    | none => s.withoutRecv
    | some m => logCall c (setModule i (f m) s.withoutRecv)
  cases s.modules[i]? <;> rfl

theorem resetAll_withoutRecv (cfg : Config) (s : SplitflapTask) :
    (resetAll cfg s).withoutRecv = resetAll cfg s.withoutRecv := by
  unfold resetAll
  induction cfg.NUM_MODULES with
  | zero => rfl
  | succ n ih => rw [forLoop_succ, forLoop_succ, onModule_withoutRecv, onModule_withoutRecv, ih]

theorem appendByte_withoutRecv (cfg : Config) (b : Nat) (s : SplitflapTask) :
    (appendByte cfg b s).withoutRecv = s.withoutRecv := by
  unfold appendByte
  split_ifs <;> rfl

/-- Outside sensor-test mode and without `all_stopped`, every byte goes to the `switch`. -/
theorem processByte_of_not_stopped (cfg : Config) (b : Nat) (y : SplitflapTask)
    (hy : y.sensor_test_ = false) :
    processByte cfg false b y =
      if b = 64 then resetAll cfg y
      else if b = 35 then { y with pending_no_op := true }
      else if b = 61 then { y with recv_count := 0 }
      else if b = 10 then showString cfg y.recv_buffer y.recv_count y
      else appendByte cfg b y := by
  unfold processByte
  rw [if_neg (by simp), if_pos hy]

/-- Outside sensor-test mode and without `all_stopped`, a byte other than newline acts on the
fields outside the accumulator without reading the accumulator. -/
theorem processByte_withoutRecv (cfg : Config) (b : Nat) (y z : SplitflapTask)
    (hb : b ≠ 10) (hy : y.sensor_test_ = false) (hz : z.sensor_test_ = false)
    (h : y.withoutRecv = z.withoutRecv) :
    (processByte cfg false b y).withoutRecv = (processByte cfg false b z).withoutRecv := by
  rw [processByte_of_not_stopped cfg b y hy, processByte_of_not_stopped cfg b z hz]
  split_ifs
  · rw [resetAll_withoutRecv, resetAll_withoutRecv, h]
  · exact congrArg (fun t : SplitflapTask => { t with pending_no_op := true }) h
  · exact h
  · rw [appendByte_withoutRecv, appendByte_withoutRecv, h]

theorem commandLoop_withoutRecv (cfg : Config) (bytes : List Nat) (y z : SplitflapTask)
    (hb : 10 ∉ bytes) (hy : y.sensor_test_ = false) (hz : z.sensor_test_ = false)
    (h : y.withoutRecv = z.withoutRecv) :
    (commandLoop cfg false bytes y).withoutRecv = (commandLoop cfg false bytes z).withoutRecv := by
  induction bytes generalizing y z with
  | nil => exact h
  | cons b rest ih =>
    have h1 : b ≠ 10 := fun e => hb (by simp [e])
    have h2 : 10 ∉ rest := fun e => hb (List.mem_cons_of_mem _ e)
    exact ih _ _ h2
      ((processByte_sensor_test_of_not_stopped cfg b y).trans hy)
      ((processByte_sensor_test_of_not_stopped cfg b z).trans hz)
      (processByte_withoutRecv cfg b y z h1 hy hz h)

/-- Outside sensor-test mode and without `all_stopped`, what a byte does to the two latches
depends on the byte alone. -/
theorem processByte_latches (cfg : Config) (b : Nat) (y : SplitflapTask)
    (hy : y.sensor_test_ = false) :
    (processByte cfg false b y).pending_no_op = (y.pending_no_op || decide (b = 35))
    ∧ (processByte cfg false b y).pending_move_response
        = (y.pending_move_response || decide (b = 10)) := by
  rw [processByte_of_not_stopped cfg b y hy]
  split_ifs with h1 h2 h3 h4
  · have hv := resetAll_view cfg y
    exact ⟨(congrArg CommandView.pending_no_op hv).trans (by simp [h1, SplitflapTask.view]),
      (congrArg CommandView.pending_move_response hv).trans
        (by simp [h1, SplitflapTask.view])⟩
  · exact ⟨by simp [h2], by simp [h2]⟩
  · exact ⟨by simp [h3], by simp [h3]⟩
  · have hv := showString_view cfg y.recv_buffer y.recv_count y
    exact ⟨(congrArg CommandView.pending_no_op hv).trans (by simp [h4, SplitflapTask.view]),
      (congrArg CommandView.pending_move_response hv).trans
        (by simp [h4, SplitflapTask.view])⟩
  · rw [appendByte_eq]
    split_ifs <;> exact ⟨by simp [h2], by simp [h4]⟩

theorem commandLoop_latches (cfg : Config) (bytes : List Nat) (y : SplitflapTask)
    (hy : y.sensor_test_ = false) :
    (commandLoop cfg false bytes y).pending_no_op = (y.pending_no_op || decide (35 ∈ bytes))
    ∧ (commandLoop cfg false bytes y).pending_move_response
        = (y.pending_move_response || decide (10 ∈ bytes)) := by
  induction bytes generalizing y with
  | nil => simp [commandLoop]
  | cons b rest ih =>
    obtain ⟨h1, h2⟩ := processByte_latches cfg b y hy
    obtain ⟨h3, h4⟩ := ih (processByte cfg false b y)
      ((processByte_sensor_test_of_not_stopped cfg b y).trans hy)
    show (commandLoop cfg false rest (processByte cfg false b y)).pending_no_op = _
      ∧ (commandLoop cfg false rest (processByte cfg false b y)).pending_move_response = _
    rw [h3, h4, h1, h2]
    constructor
    · cases y.pending_no_op <;> by_cases hb : b = 35 <;> by_cases hr : 35 ∈ rest <;>
        simp [hb, hr, eq_comm]
    · cases y.pending_move_response <;> by_cases hb : b = 10 <;> by_cases hr : 10 ∈ rest <;>
        simp [hb, hr, eq_comm]

theorem commandLoop_append_list (cfg : Config) (all_stopped : Bool) (pre post : List Nat)
    (s : SplitflapTask) :
    commandLoop cfg all_stopped (pre ++ post) s
      = commandLoop cfg all_stopped post (commandLoop cfg all_stopped pre s) := by
  induction pre generalizing s with
  | nil => rfl
  | cons a rest ih => exact ih _

/-- Counterexample to C3 as stated: module 0 of `homingTask` is homing and turning, so the tick
is idle but not stopped. A pending `'%'` is then stored in `recv_buffer` and counted, whereas
without the byte the buffer stays empty; and in `"=%AB\n"` the stored `'%'` shifts the string that
the newline dispatches, so the targets end as `[0, 1, 2]` where `"=AB\n"` gives `[1, 2, 3]`. -/
theorem percent_while_moving_counterexample :
    (advancePhase exampleConfig 1000 homingTask).all_stopped = false
    ∧ ((runUpdate exampleConfig ⟨1000, 0, 12⟩ [37] homingTask).1.recv_buffer = [37, 0, 0]
      ∧ (runUpdate exampleConfig ⟨1000, 0, 12⟩ [37] homingTask).1.recv_count = 1
      ∧ (runUpdate exampleConfig ⟨1000, 0, 12⟩ [] homingTask).1.recv_buffer = [0, 0, 0]
      ∧ (runUpdate exampleConfig ⟨1000, 0, 12⟩ [] homingTask).1.recv_count = 0)
    ∧ ((runUpdate exampleConfig ⟨1000, 0, 12⟩ [61, 37, 65, 66, 10] homingTask).1.modules.map
          SplitflapModule.target_flap_index = [0, 1, 2]
      ∧ (runUpdate exampleConfig ⟨1000, 0, 12⟩ [61, 65, 66, 10] homingTask).1.modules.map
          SplitflapModule.target_flap_index = [1, 2, 3]
      ∧ (runUpdate exampleConfig ⟨1000, 0, 12⟩ [61, 37, 65, 66, 10] homingTask).1.recv_buffer
          = [37, 65, 66]
      ∧ (runUpdate exampleConfig ⟨1000, 0, 12⟩ [61, 65, 66, 10] homingTask).1.recv_buffer
          = [65, 66, 0]) := by
  decide

/-- C3 (amended). In a tick in which not all modules are stopped, a `'%'` byte anywhere in the
pending input (`pre` before it, `post` after it) never toggles `sensor_test_`, which is and stays
`false`, and the two pending latches end the tick as they do without the byte. If some module is
not idle no byte is read and the tick is the same. If all modules are idle the byte is consumed as
an ordinary character: reading it prints nothing and only stores `'%'` at
`recv_buffer[recv_count]` and increments `recv_count` when `recv_count < NUM_MODULES`; the bytes
after it are interpreted from there. So if the buffer was full the tick is the same as without the
byte, and if no newline follows the byte in that tick the two ticks differ at most in
`recv_buffer` and `recv_count` (same modules, same serial output); a newline after it dispatches
the accumulator with the `'%'` in it. -/
theorem percent_while_moving (cfg : Config) (inp : TickInput) (pre post : List Nat)
    (s : SplitflapTask) (h : (advancePhase cfg inp.millis s).all_stopped = false) :
    ((runUpdate cfg inp (pre ++ 37 :: post) s).1.sensor_test_ = false
      ∧ (runUpdate cfg inp (pre ++ post) s).1.sensor_test_ = false)
    ∧ ((runUpdate cfg inp (pre ++ 37 :: post) s).1.pending_no_op
          = (runUpdate cfg inp (pre ++ post) s).1.pending_no_op
      ∧ (runUpdate cfg inp (pre ++ 37 :: post) s).1.pending_move_response
          = (runUpdate cfg inp (pre ++ post) s).1.pending_move_response)
    ∧ ((advancePhase cfg inp.millis s).all_idle = false →
        (runUpdate cfg inp (pre ++ 37 :: post) s).1 = (runUpdate cfg inp (pre ++ post) s).1
        ∧ (runUpdate cfg inp (pre ++ 37 :: post) s).2 = pre ++ 37 :: post)
    ∧ ((advancePhase cfg inp.millis s).all_idle = true →
        (runUpdate cfg inp (pre ++ 37 :: post) s).2 = []
        ∧ (runUpdate cfg inp (pre ++ [37]) s).1 =
            (if (runUpdate cfg inp pre s).1.recv_count < cfg.NUM_MODULES then
              { (runUpdate cfg inp pre s).1 with
                recv_buffer := (runUpdate cfg inp pre s).1.recv_buffer.set
                  (runUpdate cfg inp pre s).1.recv_count 37,
                recv_count := ((runUpdate cfg inp pre s).1.recv_count + 1) % 256 }
            else (runUpdate cfg inp pre s).1)
        ∧ (runUpdate cfg inp (pre ++ [37]) s).1.serial_out
            = (runUpdate cfg inp pre s).1.serial_out
        ∧ (runUpdate cfg inp (pre ++ 37 :: post) s).1
            = commandLoop cfg false post (runUpdate cfg inp (pre ++ [37]) s).1
        ∧ (runUpdate cfg inp (pre ++ post) s).1
            = commandLoop cfg false post (runUpdate cfg inp pre s).1
        ∧ (10 ∉ post →
            (runUpdate cfg inp (pre ++ 37 :: post) s).1.withoutRecv
              = (runUpdate cfg inp (pre ++ post) s).1.withoutRecv
            ∧ (runUpdate cfg inp (pre ++ 37 :: post) s).1.modules
              = (runUpdate cfg inp (pre ++ post) s).1.modules
            ∧ (runUpdate cfg inp (pre ++ 37 :: post) s).1.serial_out
              = (runUpdate cfg inp (pre ++ post) s).1.serial_out)
        ∧ (cfg.NUM_MODULES ≤ (runUpdate cfg inp pre s).1.recv_count →
            (runUpdate cfg inp (pre ++ 37 :: post) s).1
              = (runUpdate cfg inp (pre ++ post) s).1)) := by
  have hs : s.sensor_test_ = false := sensor_test_of_not_all_stopped cfg inp.millis s h
  have hpre : (safetyMonitor cfg inp (advancePhase cfg inp.millis s).all_stopped
      (advancePhase cfg inp.millis s).task).sensor_test_ = false :=
    (congrArg CommandView.sensor_test_
      ((safetyMonitor_view cfg inp _ _).trans (advancePhase_view cfg inp.millis s))).trans hs
  have hidle : (idlePrelude cfg inp (advancePhase cfg inp.millis s).all_stopped
      (safetyMonitor cfg inp (advancePhase cfg inp.millis s).all_stopped
        (advancePhase cfg inp.millis s).task)).sensor_test_ = false :=
    (congrArg CommandView.sensor_test_ (idlePrelude_view cfg inp _ _)).trans hpre
  by_cases hi : (advancePhase cfg inp.millis s).all_idle = true
  · have e1 : ∀ p, runUpdate cfg inp p s =
        (commandLoop cfg false p
          (idlePrelude cfg inp false
            (safetyMonitor cfg inp false (advancePhase cfg inp.millis s).task)), []) := by
      intro p
      unfold runUpdate
      rw [if_pos hi, h]
    rw [h] at hidle
    generalize idlePrelude cfg inp false
      (safetyMonitor cfg inp false (advancePhase cfg inp.millis s).task) = X at e1 hidle
    have hR : (commandLoop cfg false pre X).sensor_test_ = false :=
      (commandLoop_sensor_test_of_not_stopped cfg pre X).trans hidle
    have hpc : processByte cfg false 37 (commandLoop cfg false pre X)
        = appendByte cfg 37 (commandLoop cfg false pre X) := by
      rw [processByte_of_not_stopped cfg 37 _ hR, if_neg (by decide), if_neg (by decide),
        if_neg (by decide), if_neg (by decide)]
    have hA : (appendByte cfg 37 (commandLoop cfg false pre X)).sensor_test_ = false := by
      rw [← hpc]
      exact (processByte_sensor_test_of_not_stopped cfg 37 _).trans hR
    have eT : (runUpdate cfg inp (pre ++ 37 :: post) s).1
        = commandLoop cfg false post (appendByte cfg 37 (commandLoop cfg false pre X)) := by
      rw [e1, commandLoop_cons_append, hpc]
    have eT0 : (runUpdate cfg inp (pre ++ post) s).1
        = commandLoop cfg false post (commandLoop cfg false pre X) := by
      rw [e1, commandLoop_append_list]
    have eR : (runUpdate cfg inp pre s).1 = commandLoop cfg false pre X := by rw [e1]
    have eR1 : (runUpdate cfg inp (pre ++ [37]) s).1
        = appendByte cfg 37 (commandLoop cfg false pre X) := by
      rw [e1, commandLoop_append, hpc]
    have hl := commandLoop_latches cfg (pre ++ 37 :: post) X hidle
    have hl0 := commandLoop_latches cfg (pre ++ post) X hidle
    have hm35 : decide (35 ∈ pre ++ 37 :: post) = decide (35 ∈ pre ++ post) := by simp
    have hm10 : decide (10 ∈ pre ++ 37 :: post) = decide (10 ∈ pre ++ post) := by simp
    have hw : 10 ∉ post →
        (commandLoop cfg false post (appendByte cfg 37 (commandLoop cfg false pre X))).withoutRecv
          = (commandLoop cfg false post (commandLoop cfg false pre X)).withoutRecv :=
      fun hp => commandLoop_withoutRecv cfg post _ _ hp hA hR (appendByte_withoutRecv cfg 37 _)
    refine ⟨⟨?_, ?_⟩, ⟨?_, ?_⟩, fun hc => absurd hi (by simp [hc]), fun _ =>
      ⟨by rw [e1], ?_, ?_, ?_, ?_, fun hp => ⟨?_, ?_, ?_⟩, fun hfull => ?_⟩⟩
    · rw [e1]; exact (commandLoop_sensor_test_of_not_stopped cfg _ X).trans hidle
    · rw [e1]; exact (commandLoop_sensor_test_of_not_stopped cfg _ X).trans hidle
    · rw [e1, e1]; exact hl.1.trans ((congrArg _ hm35).trans hl0.1.symm)
    · rw [e1, e1]; exact hl.2.trans ((congrArg _ hm10).trans hl0.2.symm)
    · rw [eR1, eR, appendByte_eq]
    · rw [eR1, eR, appendByte_eq]; split_ifs <;> rfl
    · rw [eT, eR1]
    · rw [eT0, eR]
    · rw [eT, eT0]; exact hw hp
    · rw [eT, eT0]
      have hm := congrArg SplitflapTask.modules (hw hp)
      exact hm
    · rw [eT, eT0]
      have ho := congrArg SplitflapTask.serial_out (hw hp)
      exact ho
    · rw [eT, eT0]
      rw [eR] at hfull
      rw [appendByte_eq, if_neg (by omega)]
  · have e1 : ∀ p, runUpdate cfg inp p s =
        (safetyMonitor cfg inp (advancePhase cfg inp.millis s).all_stopped
          (advancePhase cfg inp.millis s).task, p) := by
      intro p
      unfold runUpdate
      rw [if_neg hi]
    refine ⟨⟨?_, ?_⟩, ⟨?_, ?_⟩, fun _ => ⟨?_, ?_⟩, fun hc => absurd hc hi⟩
    · rw [e1]; exact hpre
    · rw [e1]; exact hpre
    · rw [e1, e1]
    · rw [e1, e1]
    · rw [e1, e1]
    · rw [e1]

/-- Witness for C3 (amended) on the homing example, with the `'%'` inside `"=%AB\n"`. -/
theorem percent_while_moving_witness :
    (runUpdate exampleConfig ⟨1000, 0, 12⟩ ([61] ++ 37 :: [65, 66, 10]) homingTask).1.sensor_test_
      = false
    ∧ (runUpdate exampleConfig ⟨1000, 0, 12⟩ ([61] ++ 37 :: [65, 66, 10])
        homingTask).1.pending_move_response
      = (runUpdate exampleConfig ⟨1000, 0, 12⟩ ([61] ++ [65, 66, 10])
        homingTask).1.pending_move_response
    ∧ (runUpdate exampleConfig ⟨1000, 0, 12⟩ ([61] ++ [37]) homingTask).1.serial_out
      = (runUpdate exampleConfig ⟨1000, 0, 12⟩ [61] homingTask).1.serial_out :=
  ⟨(percent_while_moving exampleConfig ⟨1000, 0, 12⟩ [61] [65, 66, 10] homingTask
      (by decide)).1.1,
    (percent_while_moving exampleConfig ⟨1000, 0, 12⟩ [61] [65, 66, 10] homingTask
      (by decide)).2.1.2,
    ((percent_while_moving exampleConfig ⟨1000, 0, 12⟩ [61] [65, 66, 10] homingTask
      (by decide)).2.2.2 (by decide)).2.2.1⟩

/-! ## C13: the no-op latch and the serial output

Apart from the acknowledgment itself, no step of a tick reads `pending_no_op`, and no step reads
what has been written to the serial port: every step commutes with `retag`. -/

theorem forLoop_comm {σ : Type} (g : σ → σ) (body : Nat → σ → σ)
    (h : ∀ i s, body i (g s) = g (body i s)) (n : Nat) (s : σ) :
    forLoop n body (g s) = g (forLoop n body s) := by
  induction n with
  | zero => rfl
  | succ n ih => rw [forLoop_succ, forLoop_succ, ih, h]

theorem retag_eta (s : SplitflapTask) :
    s = SplitflapTask.retag s.pending_no_op s.serial_out { s with serial_out := [] } := by
  cases s
  simp [SplitflapTask.retag]

theorem Serial_print_retag (str : String) (c : Bool) (p : List Nat) (s : SplitflapTask) :
    Serial_print str (s.retag c p) = (Serial_print str s).retag c p := by
  simp [Serial_print, SplitflapTask.retag, List.append_assoc]

theorem Serial_printNat_retag (n : Nat) (c : Bool) (p : List Nat) (s : SplitflapTask) :
    Serial_printNat n (s.retag c p) = (Serial_printNat n s).retag c p := by
  simp [Serial_printNat, SplitflapTask.retag, List.append_assoc]

theorem Serial_write_retag (b : Nat) (c : Bool) (p : List Nat) (s : SplitflapTask) :
    Serial_write b (s.retag c p) = (Serial_write b s).retag c p := by
  simp [Serial_write, SplitflapTask.retag, List.append_assoc]

theorem onModule_retag (i : Nat) (k : Call) (f : SplitflapModule → SplitflapModule)
    (c : Bool) (p : List Nat) (s : SplitflapTask) :
    onModule i k f (s.retag c p) = (onModule i k f s).retag c p := by
  unfold onModule
  show (match s.modules[i]? with
    | none => s.retag c p
    | some m => logCall k (setModule i (f m) (s.retag c p))) = _
  cases s.modules[i]? <;> rfl

theorem showStringGoTo_retag (cfg : Config) (i : Nat) (index : Int) (c : Bool) (p : List Nat)
    (s : SplitflapTask) :
    showStringGoTo cfg i index (s.retag c p) = (showStringGoTo cfg i index s).retag c p := by
  unfold showStringGoTo
  show (if index ≠ -1 then
      if cfg.FORCE_FULL_ROTATION = true ∨
          index ≠ ((s.modules.getD i default).GetTargetFlapIndex : Int) then
        onModule i (Call.GoToFlapIndex i index.toNat) (fun m => m.GoToFlapIndex index.toNat)
          (s.retag c p)
      else s.retag c p
    else s.retag c p) = _
  split_ifs
  · exact onModule_retag _ _ _ _ _ _
  · rfl
  · rfl

theorem showStringBody_retag (cfg : Config) (str : List Nat) (i : Nat) (c : Bool) (p : List Nat)
    (s : SplitflapTask) :
    showStringBody cfg str i (s.retag c p) = (showStringBody cfg str i s).retag c p := by
  unfold showStringBody
  rw [showStringGoTo_retag, Serial_write_retag]

theorem showString_retag (cfg : Config) (str : List Nat) (n : Nat) (c : Bool) (p : List Nat)
    (s : SplitflapTask) :
    showString cfg str n (s.retag c p) = (showString cfg str n s).retag c p := by
  have ho : showStringOpen (s.retag c p) = (showStringOpen s).retag c p :=
    Serial_print_retag _ c p { logCall Call.lock s with pending_move_response := true }
  unfold showString
  rw [ho, forLoop_comm (SplitflapTask.retag c p) _
    (fun i t => showStringBody_retag cfg str i c p t), Serial_print_retag]

theorem toggleSensorTest_retag (c : Bool) (p : List Nat) (s : SplitflapTask) :
    toggleSensorTest (s.retag c p) = (toggleSensorTest s).retag c p := by
  unfold toggleSensorTest announceSensorTest
  show Serial_print _ (Serial_print (if (!s.sensor_test_) = true then "true" else "false")
    (Serial_print _ (SplitflapTask.retag c p { s with sensor_test_ := !s.sensor_test_ }))) = _
  rw [Serial_print_retag, Serial_print_retag, Serial_print_retag]

theorem resetAll_retag (cfg : Config) (c : Bool) (p : List Nat) (s : SplitflapTask) :
    resetAll cfg (s.retag c p) = (resetAll cfg s).retag c p := by
  unfold resetAll
  exact forLoop_comm (SplitflapTask.retag c p) _
    (fun i t => by rw [onModule_retag, onModule_retag]) _ s

theorem appendByte_retag (cfg : Config) (b : Nat) (c : Bool) (p : List Nat)
    (s : SplitflapTask) :
    appendByte cfg b (s.retag c p) = (appendByte cfg b s).retag c p := by
  unfold appendByte
  show (if (s.recv_count : Int) > (cfg.NUM_MODULES : Int) - 1 then s.retag c p
    else SplitflapTask.retag c p
      { s with recv_buffer := s.recv_buffer.set s.recv_count (b % 256),
               recv_count := (s.recv_count + 1) % 256 }) = _
  split_ifs <;> rfl

/-- One byte of the interpreter commutes with `retag`, up to the value of the latch. -/
theorem processByte_retag (cfg : Config) (st : Bool) (b : Nat) (c : Bool) (s : SplitflapTask) :
    ∃ c2 : Bool, ∀ p : List Nat,
      processByte cfg st b (s.retag c p) = (processByte cfg st b s).retag c2 p := by
  unfold processByte
  show ∃ c2 : Bool, ∀ p : List Nat,
    (if b = 37 ∧ st = true then toggleSensorTest (s.retag c p)
      else if s.sensor_test_ = false then
        if b = 64 then resetAll cfg (s.retag c p)
        else if b = 35 then SplitflapTask.retag true p { s with pending_no_op := true }
        else if b = 61 then SplitflapTask.retag c p { s with recv_count := 0 }
        else if b = 10 then showString cfg s.recv_buffer s.recv_count (s.retag c p)
        else appendByte cfg b (s.retag c p)
      else s.retag c p) = _
  split_ifs
  · exact ⟨c, fun p => toggleSensorTest_retag c p s⟩
  · exact ⟨c, fun p => resetAll_retag cfg c p s⟩
  · exact ⟨true, fun p => rfl⟩
  · exact ⟨c, fun p => rfl⟩
  · exact ⟨c, fun p => showString_retag cfg _ _ c p s⟩
  · exact ⟨c, fun p => appendByte_retag cfg b c p s⟩
  · exact ⟨c, fun p => rfl⟩

theorem commandLoop_retag (cfg : Config) (st : Bool) (bytes : List Nat) (c : Bool)
    (s : SplitflapTask) :
    ∃ c2 : Bool, ∀ p : List Nat,
      commandLoop cfg st bytes (s.retag c p) = (commandLoop cfg st bytes s).retag c2 p := by
  induction bytes generalizing c s with
  | nil => exact ⟨c, fun p => rfl⟩
  | cons b rest ih =>
    obtain ⟨c1, h1⟩ := processByte_retag cfg st b c s
    obtain ⟨c2, h2⟩ := ih c1 (processByte cfg st b s)
    refine ⟨c2, fun p => ?_⟩
    show commandLoop cfg st rest (processByte cfg st b (s.retag c p)) = _
    rw [h1 p, h2 p]
    rfl

theorem dumpModule_retag (cfg : Config) (m : SplitflapModule) (c : Bool) (p : List Nat)
    (s : SplitflapTask) :
    dumpModule cfg m (s.retag c p) = (dumpModule cfg m s).retag c p := by
  unfold dumpModule
  rw [Serial_print_retag, Serial_print_retag, Serial_print_retag, Serial_write_retag,
    Serial_print_retag, Serial_printNat_retag, Serial_print_retag, Serial_printNat_retag,
    Serial_print_retag]

theorem dumpStatusBody_retag (cfg : Config) (i : Nat) (c : Bool) (p : List Nat)
    (s : SplitflapTask) :
    dumpStatusBody cfg i (s.retag c p) = (dumpStatusBody cfg i s).retag c p := by
  unfold dumpStatusBody
  show (if (i : Int) < (cfg.NUM_MODULES : Int) - 1 then
      Serial_print ", " (dumpModule cfg (s.modules.getD i default) (s.retag c p))
    else dumpModule cfg (s.modules.getD i default) (s.retag c p)) = _
  split_ifs
  · rw [dumpModule_retag, Serial_print_retag]
  · rw [dumpModule_retag]

theorem dumpStatus_retag (cfg : Config) (c : Bool) (p : List Nat) (s : SplitflapTask) :
    dumpStatus cfg (s.retag c p) = (dumpStatus cfg s).retag c p := by
  unfold dumpStatus
  rw [Serial_print_retag, forLoop_comm (SplitflapTask.retag c p) _
    (fun i t => dumpStatusBody_retag cfg i c p t), Serial_print_retag]

theorem ackMove_retag (cfg : Config) (st : Bool) (c : Bool) (p : List Nat)
    (s : SplitflapTask) :
    ackMove cfg st (s.retag c p) = (ackMove cfg st s).retag c p := by
  unfold ackMove
  show (if s.pending_move_response = true ∧ st = true then
      dumpStatus cfg (SplitflapTask.retag c p { s with pending_move_response := false })
    else s.retag c p) = _
  split_ifs
  · rw [dumpStatus_retag]
  · rfl

theorem updateBody_retag (cfg : Config) (fg fp i : Nat) (c : Bool) (p : List Nat)
    (t : TickState) :
    updateBody cfg fg fp i { t with task := t.task.retag c p }
      = { updateBody cfg fg fp i t with task := (updateBody cfg fg fp i t).task.retag c p } := by
  unfold updateBody
  show (match t.task.modules[i]? with
    | none => ({ t with task := t.task.retag c p } : TickState)
    | some m0 =>
      { task := updateModule cfg fg fp i m0 (t.task.retag c p),
        all_idle :=
          t.all_idle && is_idle (cfg.Update i m0 t.task.sensor_buffer t.task.motor_buffer).1,
        all_stopped := t.all_stopped
          && is_stopped (cfg.Update i m0 t.task.sensor_buffer t.task.motor_buffer).1 }) = _
  cases t.task.modules[i]? <;> rfl

theorem moduleLoop_retag (cfg : Config) (now : Nat) (c : Bool) (p : List Nat)
    (s : SplitflapTask) :
    moduleLoop cfg now (s.retag c p)
      = { moduleLoop cfg now s with task := (moduleLoop cfg now s).task.retag c p } := by
  unfold moduleLoop
  exact forLoop_comm (fun t : TickState => { t with task := t.task.retag c p })
    (updateBody cfg ((now / 200 % 16) / 2) (now / 200 % 2))
    (fun i t => updateBody_retag cfg _ _ i c p t) cfg.NUM_MODULES
    { task := s, all_idle := true, all_stopped := true }

theorem noteStopped_retag (now : Nat) (b : Bool) (c : Bool) (p : List Nat)
    (s : SplitflapTask) :
    noteStopped now b (s.retag c p) = (noteStopped now b s).retag c p := by
  unfold noteStopped
  show (if b = true ∧ s.was_stopped = false then
      SplitflapTask.retag c p { s with stopped_at_millis := now, was_stopped := b }
    else SplitflapTask.retag c p { s with was_stopped := b }) = _
  split_ifs <;> rfl

/-- The first part of a tick commutes with `retag`, and its two flags do not depend on it. -/
theorem advancePhase_retag (cfg : Config) (now : Nat) (c : Bool) (p : List Nat)
    (s : SplitflapTask) :
    advancePhase cfg now (s.retag c p)
      = { advancePhase cfg now s with task := (advancePhase cfg now s).task.retag c p } := by
  unfold advancePhase
  by_cases hs : s.sensor_test_ = false
  · rw [if_pos hs, if_pos (show (s.retag c p).sensor_test_ = false from hs), moduleLoop_retag]
    show TickState.mk (motor_sensor_io cfg (noteStopped now _ ((moduleLoop cfg now s).task.retag
      c p))) _ _ = _
    rw [noteStopped_retag]
    rfl
  · rw [if_neg hs, if_neg (show ¬ (s.retag c p).sensor_test_ = false from hs)]
    show TickState.mk (motor_sensor_io cfg (forLoop cfg.NUM_MODULES (sensorLedBody cfg)
      ((motor_sensor_io cfg s).retag c p))) _ _ = _
    rw [forLoop_comm (SplitflapTask.retag c p) (sensorLedBody cfg) (fun i t => rfl)]
    rfl

theorem disableAll_retag (cfg : Config) (message : String) (c : Bool) (p : List Nat)
    (s : SplitflapTask) :
    disableAll cfg message (s.retag c p) = (disableAll cfg message s).retag c p := by
  have hm : disableModules cfg (s.retag c p) = (disableModules cfg s).retag c p :=
    forLoop_comm (SplitflapTask.retag c p) _ (fun i t => onModule_retag _ _ _ c p t) _ s
  have ha : ∀ t : SplitflapTask,
      announceDisabled message (t.retag c p) = (announceDisabled message t).retag c p := by
    intro t
    unfold announceDisabled
    show (if t.disabled = true then t.retag c p
      else Serial_print (message ++ "\r\n")
        (Serial_print "#### DISABLED! ####\r\n"
          (SplitflapTask.retag c p { t with disabled := true }))) = _
    split_ifs
    · rfl
    · rw [Serial_print_retag, Serial_print_retag]
  unfold disableAll
  rw [hm]
  show announceDisabled message ((motor_sensor_io cfg (disableModules cfg s)).retag c p) = _
  rw [ha]

theorem currentCheck_retag (cfg : Config) (inp : TickInput) (st : Bool) (c : Bool)
    (p : List Nat) (s : SplitflapTask) :
    currentCheck cfg inp st (s.retag c p) = (currentCheck cfg inp st s).retag c p := by
  unfold currentCheck
  show (if s.currentmA > ((cfg.NUM_MODULES * 250 : Nat) : ℚ) then
      disableAll cfg "Over current" (s.retag c p)
    else if st = true ∧ millisSince inp.millis s.stopped_at_millis > 100 ∧ s.currentmA ≥ 3 then
      disableAll cfg "Unexpected current" (s.retag c p)
    else s.retag c p) = _
  split_ifs
  · rw [disableAll_retag]
  · rw [disableAll_retag]
  · rfl

theorem safetyMonitor_retag (cfg : Config) (inp : TickInput) (st : Bool) (c : Bool)
    (p : List Nat) (s : SplitflapTask) :
    safetyMonitor cfg inp st (s.retag c p) = (safetyMonitor cfg inp st s).retag c p := by
  unfold safetyMonitor
  show (if cfg.INA219_POWER_SENSE = true ∧ millisSince inp.millis s.lastCurrentReadMillis > 100
    then { currentCheck cfg inp st ((sampleCurrent inp s).retag c p) with
      lastCurrentReadMillis := inp.millis }
    else s.retag c p) = _
  split_ifs
  · rw [currentCheck_retag]
    rfl
  · rfl

theorem voltageCheck_retag (cfg : Config) (inp : TickInput) (c : Bool) (p : List Nat)
    (s : SplitflapTask) :
    voltageCheck cfg inp (s.retag c p) = (voltageCheck cfg inp s).retag c p := by
  unfold voltageCheck
  show (if cfg.INA219_POWER_SENSE = true then
      if inp.busVoltage_V > 14 then
        disableAll cfg "Over voltage" ((logCall Call.getBusVoltage_V s).retag c p)
      else if inp.busVoltage_V < 10 then
        disableAll cfg "Under voltage" ((logCall Call.getBusVoltage_V s).retag c p)
      else (logCall Call.getBusVoltage_V s).retag c p
    else s.retag c p) = _
  split_ifs
  · rw [disableAll_retag]
  · rw [disableAll_retag]
  · rfl
  · rfl

theorem retag_nil (c : Bool) (s : SplitflapTask) :
    s.retag c [] = { s with pending_no_op := c } := rfl

theorem retag_retag (c d : Bool) (p q : List Nat) (s : SplitflapTask) :
    (s.retag c p).retag d q = s.retag d (q ++ p) := by
  simp [SplitflapTask.retag, List.append_assoc]

/-- The task that reaches the acknowledgment block, for given flags, commutes with `retag`. -/
theorem tickHead_retag (cfg : Config) (inp : TickInput) (st : Bool) (c : Bool) (p : List Nat)
    (s : SplitflapTask) :
    voltageCheck cfg inp (safetyMonitor cfg inp st (advancePhase cfg inp.millis (s.retag c p)).task)
      = (voltageCheck cfg inp
          (safetyMonitor cfg inp st (advancePhase cfg inp.millis s).task)).retag c p := by
  rw [advancePhase_retag]
  show voltageCheck cfg inp (safetyMonitor cfg inp st
    ((advancePhase cfg inp.millis s).task.retag c p)) = _
  rw [safetyMonitor_retag, voltageCheck_retag]

/-- The status dump and the interpreter commute with `retag`, up to the value of the latch. -/
theorem ackTail_retag (cfg : Config) (st : Bool) (pending : List Nat) (c : Bool)
    (s : SplitflapTask) :
    ∃ c2 : Bool, ∀ p : List Nat,
      commandLoop cfg st pending (ackMove cfg st (s.retag c p))
        = (commandLoop cfg st pending (ackMove cfg st s)).retag c2 p := by
  obtain ⟨c2, h2⟩ := commandLoop_retag cfg st pending c (ackMove cfg st s)
  exact ⟨c2, fun p => by rw [ackMove_retag, h2 p]⟩

/-- A tick started with the latch clear: it is the tick of the task as it stands, minus the
acknowledgment of the no-op, up to the value of the latch. -/
theorem runUpdate_latch_clear (cfg : Config) (inp : TickInput) (pending : List Nat)
    (s : SplitflapTask) :
    ∃ c2 : Bool,
      (runUpdate cfg inp pending { s with pending_no_op := false }).1
        = SplitflapTask.retag c2 []
          (if (advancePhase cfg inp.millis s).all_idle = true then
            commandLoop cfg (advancePhase cfg inp.millis s).all_stopped pending
              (ackMove cfg (advancePhase cfg inp.millis s).all_stopped
                (voltageCheck cfg inp
                  (safetyMonitor cfg inp (advancePhase cfg inp.millis s).all_stopped
                    (advancePhase cfg inp.millis s).task)))
          else
            safetyMonitor cfg inp (advancePhase cfg inp.millis s).all_stopped
              (advancePhase cfg inp.millis s).task) := by
  have hflags : (advancePhase cfg inp.millis (s.retag false [])).all_idle
        = (advancePhase cfg inp.millis s).all_idle
      ∧ (advancePhase cfg inp.millis (s.retag false [])).all_stopped
        = (advancePhase cfg inp.millis s).all_stopped := by
    rw [advancePhase_retag]
    exact ⟨rfl, rfl⟩
  have hno : ∀ (st : Bool) (y : SplitflapTask),
      ackNoOp st (y.retag false []) = y.retag false [] := by
    intro st y
    unfold ackNoOp
    rw [if_neg (fun h => Bool.noConfusion (show false = true from h.1))]
  rw [← retag_nil]
  by_cases hi : (advancePhase cfg inp.millis s).all_idle = true
  · obtain ⟨c2, h2⟩ := ackTail_retag cfg (advancePhase cfg inp.millis s).all_stopped pending
      false (voltageCheck cfg inp
        (safetyMonitor cfg inp (advancePhase cfg inp.millis s).all_stopped
          (advancePhase cfg inp.millis s).task))
    refine ⟨c2, ?_⟩
    unfold runUpdate idlePrelude
    rw [hflags.1, hflags.2, if_pos hi, if_pos hi, tickHead_retag, hno, h2 []]
  · refine ⟨false, ?_⟩
    unfold runUpdate
    rw [hflags.1, hflags.2, if_neg hi, if_neg hi, advancePhase_retag]
    show safetyMonitor cfg inp _ ((advancePhase cfg inp.millis s).task.retag false []) = _
    rw [safetyMonitor_retag]

/-- A byte other than `'#'` leaves `pending_no_op` alone. -/
theorem processByte_pending_no_op_of_ne (cfg : Config) (all_stopped : Bool) (b : Nat)
    (s : SplitflapTask) (hb : b ≠ 35) :
    (processByte cfg all_stopped b s).pending_no_op = s.pending_no_op := by
  unfold processByte
  split_ifs
  · unfold toggleSensorTest announceSensorTest
    simp only [Serial_print]
  · exact congrArg CommandView.pending_no_op (resetAll_view cfg s)
  · rfl
  · exact congrArg CommandView.pending_no_op (showString_view cfg _ _ s)
  · rw [appendByte_eq]; split_ifs <;> rfl
  · rfl

theorem commandLoop_pending_no_op_of_not_mem (cfg : Config) (all_stopped : Bool)
    (bytes : List Nat) (s : SplitflapTask) (hb : 35 ∉ bytes) :
    (commandLoop cfg all_stopped bytes s).pending_no_op = s.pending_no_op := by
  induction bytes generalizing s with
  | nil => rfl
  | cons b rest ih =>
    have h1 : b ≠ 35 := fun h => hb (by simp [h])
    have h2 : 35 ∉ rest := fun h => hb (List.mem_cons_of_mem _ h)
    exact (ih _ h2).trans (processByte_pending_no_op_of_ne cfg all_stopped b s h1)

/-- Counterexample to C13 as stated: in sensor-test mode the tick reads the `'#'` byte and drops
it, so the latch stays clear, and the following tick, with every module stopped, writes nothing. -/
theorem no_op_latch_counterexample :
    sensorTestTask.sensor_test_ = true
    ∧ sensorTestTask.pending_no_op = false
    ∧ (runUpdate exampleConfig ⟨1000, 0, 12⟩ [35] sensorTestTask).2 = []
    ∧ (runUpdate exampleConfig ⟨1000, 0, 12⟩ [35] sensorTestTask).1.pending_no_op = false
    ∧ (advancePhase exampleConfig 1200
        (runUpdate exampleConfig ⟨1000, 0, 12⟩ [35] sensorTestTask).1).all_stopped = true
    ∧ (runUpdate exampleConfig ⟨1200, 0, 12⟩ []
        (runUpdate exampleConfig ⟨1000, 0, 12⟩ [35] sensorTestTask).1).1.serial_out = [] := by
  decide

/-- C13 (amended). No-op acknowledgment latch: a `'#'` byte read with sensor-test mode off sets
`pending_no_op` and nothing else; read in sensor-test mode it is discarded. The latch reaches the
acknowledgment block of a tick as it was when the tick began. If it was set when the tick began
and `all_stopped` holds in that tick, the tick writes the `no_op` record and clears the latch:
its serial output is that of the same tick started with the latch clear, with the bytes of
`{"type":"no_op"}` and a newline inserted after the output of the safety checks, and the latch
ends clear unless a `'#'` is among the bytes read afterwards. In every other tick the serial
output is exactly that of the same tick started with the latch clear (no record is written) and a
set latch stays set. A `'#'` read in a tick is read after the acknowledgment block, so the tick
that consumes it ends with the latch set. -/
theorem no_op_latch (cfg : Config) (inp : TickInput) (pending : List Nat) (s : SplitflapTask) :
    (∀ (all_stopped : Bool) (x : SplitflapTask),
      (x.sensor_test_ = false →
        processByte cfg all_stopped 35 x = { x with pending_no_op := true })
      ∧ (x.sensor_test_ = true → processByte cfg all_stopped 35 x = x))
    ∧ (voltageCheck cfg inp (safetyMonitor cfg inp (advancePhase cfg inp.millis s).all_stopped
        (advancePhase cfg inp.millis s).task)).pending_no_op = s.pending_no_op
    ∧ (s.pending_no_op = true → (advancePhase cfg inp.millis s).all_stopped = true →
        runUpdate cfg inp pending s =
          (commandLoop cfg true pending
            (ackMove cfg true
              { Serial_print "\x7b\"type\":\"no_op\"\x7d\n"
                  (voltageCheck cfg inp
                    (safetyMonitor cfg inp true (advancePhase cfg inp.millis s).task)) with
                pending_no_op := false }), [])
        ∧ (∃ A W : List Nat,
            (runUpdate cfg inp pending s).1.serial_out
              = s.serial_out ++ A ++ bytesOf "\x7b\"type\":\"no_op\"\x7d\n" ++ W
            ∧ (runUpdate cfg inp pending { s with pending_no_op := false }).1.serial_out
              = s.serial_out ++ A ++ W)
        ∧ (35 ∉ pending → (runUpdate cfg inp pending s).1.pending_no_op = false))
    ∧ (¬ (s.pending_no_op = true ∧ (advancePhase cfg inp.millis s).all_stopped = true) →
        runUpdate cfg inp pending s =
          (if (advancePhase cfg inp.millis s).all_idle = true then
            (commandLoop cfg (advancePhase cfg inp.millis s).all_stopped pending
              (ackMove cfg (advancePhase cfg inp.millis s).all_stopped
                (voltageCheck cfg inp
                  (safetyMonitor cfg inp (advancePhase cfg inp.millis s).all_stopped
                    (advancePhase cfg inp.millis s).task))), [])
          else
            (safetyMonitor cfg inp (advancePhase cfg inp.millis s).all_stopped
              (advancePhase cfg inp.millis s).task, pending))
        ∧ (s.pending_no_op = true → (runUpdate cfg inp pending s).1.pending_no_op = true)
        ∧ (runUpdate cfg inp pending s).1.serial_out
            = (runUpdate cfg inp pending { s with pending_no_op := false }).1.serial_out)
    ∧ (∀ pre post : List Nat, (advancePhase cfg inp.millis s).all_idle = true →
        s.sensor_test_ = false → 37 ∉ pre → pending = pre ++ 35 :: post →
        (runUpdate cfg inp pending s).1.pending_no_op = true) := by
  have hX : (voltageCheck cfg inp (safetyMonitor cfg inp (advancePhase cfg inp.millis s).all_stopped
      (advancePhase cfg inp.millis s).task)).view = s.view := by
    rw [voltageCheck_view, safetyMonitor_view, advancePhase_view]
  have hXp := congrArg CommandView.pending_no_op hX
  have hsharp : ∀ (all_stopped : Bool) (x : SplitflapTask), x.sensor_test_ = false →
      processByte cfg all_stopped 35 x = { x with pending_no_op := true } := by
    intro st x hx
    unfold processByte
    rw [if_neg (by simp), if_pos hx, if_neg (by decide), if_pos rfl]
  have hemit : s.pending_no_op = true → (advancePhase cfg inp.millis s).all_stopped = true →
      runUpdate cfg inp pending s =
        (commandLoop cfg true pending
          (ackMove cfg true
            { Serial_print "\x7b\"type\":\"no_op\"\x7d\n"
                (voltageCheck cfg inp
                  (safetyMonitor cfg inp true (advancePhase cfg inp.millis s).task)) with
              pending_no_op := false }), []) := by
    intro hp hst
    unfold runUpdate idlePrelude
    rw [if_pos (all_idle_of_all_stopped cfg inp.millis s hst), hst]
    rw [hst] at hXp
    unfold ackNoOp
    rw [if_pos ⟨hXp.trans hp, rfl⟩]
  have hquiet : ¬ (s.pending_no_op = true ∧ (advancePhase cfg inp.millis s).all_stopped = true) →
      runUpdate cfg inp pending s =
        (if (advancePhase cfg inp.millis s).all_idle = true then
          (commandLoop cfg (advancePhase cfg inp.millis s).all_stopped pending
            (ackMove cfg (advancePhase cfg inp.millis s).all_stopped
              (voltageCheck cfg inp
                (safetyMonitor cfg inp (advancePhase cfg inp.millis s).all_stopped
                  (advancePhase cfg inp.millis s).task))), [])
        else
          (safetyMonitor cfg inp (advancePhase cfg inp.millis s).all_stopped
            (advancePhase cfg inp.millis s).task, pending)) := by
    intro hn
    unfold runUpdate idlePrelude
    split_ifs with hi
    · unfold ackNoOp
      rw [if_neg (fun h => hn ⟨hXp.symm.trans h.1, h.2⟩)]
    · rfl
  obtain ⟨c0, hclear⟩ := runUpdate_latch_clear cfg inp pending s
  refine ⟨fun st x => ⟨hsharp st x, fun hx => processByte_sensor_test_drop cfg st 35 x hx
      (by decide)⟩, hXp, fun hp hst => ⟨hemit hp hst, ?_, fun h35 => ?_⟩,
    fun hn => ⟨hquiet hn, fun hp => ?_, ?_⟩, fun pre post hi hs hpre hpend => ?_⟩
  · -- the record is inserted into the output of the tick started with the latch clear
    have hidle := all_idle_of_all_stopped cfg inp.millis s hst
    rw [if_pos hidle, hst] at hclear
    have hY := tickHead_retag cfg inp true s.pending_no_op s.serial_out
      { s with serial_out := [] }
    rw [← retag_eta s] at hY
    have he := hemit hp hst
    generalize voltageCheck cfg inp (safetyMonitor cfg inp true
      (advancePhase cfg inp.millis s).task) = Y at hY hclear he
    generalize voltageCheck cfg inp (safetyMonitor cfg inp true
      (advancePhase cfg inp.millis { s with serial_out := [] }).task) = Y1 at hY
    obtain ⟨c1, h1⟩ := ackTail_retag cfg true pending false { Y1 with serial_out := [] }
    obtain ⟨c2, h2⟩ := ackTail_retag cfg true pending s.pending_no_op { Y1 with serial_out := [] }
    have eY : Y = SplitflapTask.retag s.pending_no_op (s.serial_out ++ Y1.serial_out)
        { Y1 with serial_out := [] } := by
      rw [hY]
      simp [SplitflapTask.retag]
    have eA : ({ Serial_print "\x7b\"type\":\"no_op\"\x7d\n" Y with pending_no_op := false }
          : SplitflapTask)
        = SplitflapTask.retag false
            (s.serial_out ++ Y1.serial_out ++ bytesOf "\x7b\"type\":\"no_op\"\x7d\n")
            { Y1 with serial_out := [] } := by
      rw [hY]
      simp [SplitflapTask.retag, Serial_print]
    refine ⟨Y1.serial_out, (commandLoop cfg true pending
      (ackMove cfg true { Y1 with serial_out := [] })).serial_out, ?_, ?_⟩
    · rw [he]
      show (commandLoop cfg true pending (ackMove cfg true _)).serial_out = _
      rw [eA, h1]
      rfl
    · rw [hclear, eY, h2]
      show [] ++ (s.serial_out ++ Y1.serial_out ++ _) = _
      rfl
  · rw [hemit hp hst]
    show (commandLoop cfg true pending _).pending_no_op = false
    rw [commandLoop_pending_no_op_of_not_mem cfg true pending _ h35]
    have hv := congrArg CommandView.pending_no_op (ackMove_view cfg true
      { Serial_print "\x7b\"type\":\"no_op\"\x7d\n"
          (voltageCheck cfg inp
            (safetyMonitor cfg inp true (advancePhase cfg inp.millis s).task)) with
        pending_no_op := false })
    exact hv
  · have hpre : (safetyMonitor cfg inp (advancePhase cfg inp.millis s).all_stopped
        (advancePhase cfg inp.millis s).task).pending_no_op = true :=
      (congrArg CommandView.pending_no_op
        ((safetyMonitor_view cfg inp _ _).trans (advancePhase_view cfg inp.millis s))).trans hp
    unfold runUpdate
    split_ifs with hi
    · apply commandLoop_pending_no_op
      have hv := congrArg CommandView.pending_no_op (idlePrelude_view cfg inp
        (advancePhase cfg inp.millis s).all_stopped
        (safetyMonitor cfg inp (advancePhase cfg inp.millis s).all_stopped
          (advancePhase cfg inp.millis s).task))
      refine hv.trans ?_
      show ((safetyMonitor cfg inp (advancePhase cfg inp.millis s).all_stopped
        (advancePhase cfg inp.millis s).task).pending_no_op
          && !(advancePhase cfg inp.millis s).all_stopped) = true
      rw [hpre]
      cases hst : (advancePhase cfg inp.millis s).all_stopped
      · rfl
      · exact absurd ⟨hp, hst⟩ hn
    · exact hpre
  · rw [hclear, hquiet hn]
    split_ifs <;> rfl
  · have hsen : (idlePrelude cfg inp (advancePhase cfg inp.millis s).all_stopped
        (safetyMonitor cfg inp (advancePhase cfg inp.millis s).all_stopped
          (advancePhase cfg inp.millis s).task)).sensor_test_ = false := by
      refine (congrArg CommandView.sensor_test_ (idlePrelude_view cfg inp _ _)).trans ?_
      exact (congrArg CommandView.sensor_test_
        ((safetyMonitor_view cfg inp _ _).trans (advancePhase_view cfg inp.millis s))).trans hs
    unfold runUpdate
    rw [if_pos hi, hpend, commandLoop_cons_append]
    apply commandLoop_pending_no_op
    rw [hsharp _ _ ((commandLoop_sensor_test_of_not_mem cfg _ pre _ hpre).trans hsen)]

/-- Witness for C13 (amended) on the three-module build: a `'#'` read by a tick leaves the latch
set at the end of that tick, and the next tick at rest clears the latch; in sensor-test mode the
byte changes nothing. -/
theorem no_op_latch_witness :
    (runUpdate exampleConfig ⟨1000, 0, 12⟩ [35] exampleTask).1.pending_no_op = true
    ∧ (runUpdate exampleConfig ⟨1200, 0, 12⟩ []
        (runUpdate exampleConfig ⟨1000, 0, 12⟩ [35] exampleTask).1).1.pending_no_op = false
    ∧ processByte exampleConfig true 35 sensorTestTask = sensorTestTask :=
  ⟨(no_op_latch exampleConfig ⟨1000, 0, 12⟩ [35] exampleTask).2.2.2.2 [] [] (by decide)
      (by decide) (by decide) rfl,
    ((no_op_latch exampleConfig ⟨1200, 0, 12⟩ []
      (runUpdate exampleConfig ⟨1000, 0, 12⟩ [35] exampleTask).1).2.2.1 (by decide)
      (by decide)).2.2 (by decide),
    ((no_op_latch exampleConfig ⟨1000, 0, 12⟩ [] exampleTask).1 true sensorTestTask).2 rfl⟩

/-! ## C7: what the self test drives and what it reads -/

theorem loopbackMotorByte_add (cfg : Config) (k : Nat) (hM : cfg.MOTOR_BUFFER_LENGTH ≤ 256)
    (hk : 4 * (k / 2) + 3 ≤ cfg.MOTOR_BUFFER_LENGTH) :
    loopbackMotorByte cfg k + 4 * (k / 2) + (if k % 2 = 0 then 2 else 3)
      = cfg.MOTOR_BUFFER_LENGTH := by
  unfold loopbackMotorByte
  split_ifs <;> omega

theorem loopbackMotorByte_injective (cfg : Config) (i k : Nat)
    (hM : cfg.MOTOR_BUFFER_LENGTH ≤ 256)
    (hi : 4 * (i / 2) + 3 ≤ cfg.MOTOR_BUFFER_LENGTH)
    (hk : 4 * (k / 2) + 3 ≤ cfg.MOTOR_BUFFER_LENGTH)
    (h : loopbackMotorByte cfg i = loopbackMotorByte cfg k) : i = k := by
  have h1 := loopbackMotorByte_add cfg i hM hi
  have h2 := loopbackMotorByte_add cfg k hM hk
  rw [h] at h1
  split_ifs at h1 h2 <;> omega

theorem loopbackMotorBitMask_and_self (k : Nat) :
    loopbackMotorBitMask k &&& loopbackMotorBitMask k ≠ 0 := by
  unfold loopbackMotorBitMask
  split_ifs <;> decide

/-- In the buffer with channel `i` asserted, channel `i` is the only loopback output that is
asserted, provided the loopback bytes of `base` are clear. -/
theorem assertLoopback_only (cfg : Config) (base : List Nat)
    (hM : cfg.MOTOR_BUFFER_LENGTH ≤ 256)
    (hL : ∀ k, k < cfg.NUM_LOOPBACKS → 4 * (k / 2) + 3 ≤ cfg.MOTOR_BUFFER_LENGTH)
    (hlen : base.length = cfg.MOTOR_BUFFER_LENGTH)
    (hbase : ∀ k, k < cfg.NUM_LOOPBACKS → base.getD (loopbackMotorByte cfg k) 0 = 0)
    (i k : Nat) (hi : i < cfg.NUM_LOOPBACKS) (hk : k < cfg.NUM_LOOPBACKS) :
    loopbackAsserted cfg (assertLoopback cfg base i) k = true ↔ k = i := by
  unfold loopbackAsserted assertLoopback
  rw [getD_set_eq]
  by_cases hki : k = i
  · subst hki
    have hin : loopbackMotorByte cfg k < base.length := by
      have := loopbackMotorByte_add cfg k hM (hL k hk)
      split_ifs at this <;> omega
    rw [if_pos ⟨rfl, hin⟩]
    simpa using loopbackMotorBitMask_and_self k
  · have hne : ¬ (loopbackMotorByte cfg i = loopbackMotorByte cfg k
        ∧ loopbackMotorByte cfg k < base.length) :=
      fun h => hki (loopbackMotorByte_injective cfg i k hM (hL i hi) (hL k hk) h.1).symm
    rw [if_neg hne, hbase k hk]
    simp [hki]

theorem printBadLoopback_frame (a b : Nat) (s : SplitflapTask) :
    (printBadLoopback a b s).motor_buffer = s.motor_buffer
    ∧ (printBadLoopback a b s).bus_history = s.bus_history
    ∧ (printBadLoopback a b s).modules = s.modules := by
  simp only [printBadLoopback, Serial_print, Serial_printNat, and_self]

theorem printBadZero_frame (a : Nat) (s : SplitflapTask) :
    (printBadZero a s).motor_buffer = s.motor_buffer
    ∧ (printBadZero a s).bus_history = s.bus_history
    ∧ (printBadZero a s).modules = s.modules := by
  simp only [printBadZero, Serial_print, Serial_printNat, and_self]

theorem loopbackCheckLoop_frame (i n : Nat) (t : SelfTest) :
    (forLoop n (loopbackCheckBody i) t).task.motor_buffer = t.task.motor_buffer
    ∧ (forLoop n (loopbackCheckBody i) t).task.bus_history = t.task.bus_history
    ∧ (forLoop n (loopbackCheckBody i) t).task.modules = t.task.modules := by
  have hb : ∀ j (r : SelfTest),
      (loopbackCheckBody i j r).task.motor_buffer = r.task.motor_buffer
      ∧ (loopbackCheckBody i j r).task.bus_history = r.task.bus_history
      ∧ (loopbackCheckBody i j r).task.modules = r.task.modules := by
    intro j r
    unfold loopbackCheckBody
    split_ifs
    · exact printBadLoopback_frame i j r.task
    · exact ⟨rfl, rfl, rfl⟩
  exact ⟨forLoop_frame (fun r : SelfTest => r.task.motor_buffer) _ (fun j r => (hb j r).1) n t,
    forLoop_frame (fun r : SelfTest => r.task.bus_history) _ (fun j r => (hb j r).2.1) n t,
    forLoop_frame (fun r : SelfTest => r.task.modules) _ (fun j r => (hb j r).2.2) n t⟩

/-- One outer iteration of the self test: the buffer with channel `i` asserted is clocked out
twice and the byte of the channel is cleared again. -/
theorem loopbackOutBody_frame (cfg : Config) (i : Nat) (t : SelfTest) :
    (loopbackOutBody cfg i t).task.motor_buffer
        = t.task.motor_buffer.set (loopbackMotorByte cfg i) 0
    ∧ (loopbackOutBody cfg i t).task.bus_history
        = assertLoopback cfg t.task.motor_buffer i :: assertLoopback cfg t.task.motor_buffer i
            :: t.task.bus_history := by
  unfold loopbackOutBody
  obtain ⟨h1, h2, _⟩ := loopbackCheckLoop_frame i cfg.NUM_LOOPBACKS
    { task := motor_sensor_io cfg (motor_sensor_io cfg
        (setMotorBuffer (t.task.motor_buffer.set (loopbackMotorByte cfg i)
          (loopbackMotorBitMask i)) t.task)),
      loopback_error := t.loopback_error }
  constructor
  · show (forLoop cfg.NUM_LOOPBACKS (loopbackCheckBody i) _).task.motor_buffer.set _ 0 = _
    rw [h1]
    show (t.task.motor_buffer.set _ _).set _ 0 = _
    rw [List.set_set]
  · show (forLoop cfg.NUM_LOOPBACKS (loopbackCheckBody i) _).task.bus_history = _
    rw [h2]
    rfl

/-- The scan after `k` channels: the motor buffer is back to `base` and the history is the one
of `selfTestHistory`, provided the loopback bytes of the starting buffer are clear. -/
theorem loopbackScan_frame (cfg : Config) (s : SplitflapTask)
    (hbase : ∀ k, k < cfg.NUM_LOOPBACKS → s.motor_buffer.getD (loopbackMotorByte cfg k) 0 = 0)
    (k : Nat) (hk : k ≤ cfg.NUM_LOOPBACKS) :
    (forLoop k (loopbackOutBody cfg) { task := s, loopback_error := false }).task.motor_buffer
        = s.motor_buffer
    ∧ (forLoop k (loopbackOutBody cfg) { task := s, loopback_error := false }).task.bus_history
        = selfTestHistory cfg s.motor_buffer s.bus_history k := by
  induction k with
  | zero => exact ⟨rfl, rfl⟩
  | succ k ih =>
    obtain ⟨h1, h2⟩ := ih (by omega)
    obtain ⟨h3, h4⟩ := loopbackOutBody_frame cfg k
      (forLoop k (loopbackOutBody cfg) { task := s, loopback_error := false })
    rw [forLoop_succ, h3, h4, h1, h2]
    refine ⟨?_, rfl⟩
    have h0 := hbase k (by omega)
    rw [← h0]
    exact set_getD_self _ _ _

theorem clearMotorBuffer_eq (cfg : Config) (motor_buffer : List Nat)
    (hlen : motor_buffer.length = cfg.MOTOR_BUFFER_LENGTH) :
    clearMotorBuffer cfg motor_buffer = List.replicate cfg.MOTOR_BUFFER_LENGTH 0 := by
  unfold clearMotorBuffer
  rw [List.drop_of_length_le (by omega), List.append_nil, List.take_of_length_le (by omega)]
  rw [← hlen]
  exact List.map_const' _ _

/-- What the self test reads back is the answer of the bus to the history of `selfTestHistory`. -/
theorem loopbackSensed_eq (cfg : Config) (s : SplitflapTask)
    (hbase : ∀ k, k < cfg.NUM_LOOPBACKS → s.motor_buffer.getD (loopbackMotorByte cfg k) 0 = 0)
    (i : Nat) (hi : i < cfg.NUM_LOOPBACKS) :
    loopbackSensed cfg s i
      = cfg.motor_sensor_io (selfTestHistory cfg s.motor_buffer s.bus_history (i + 1)) := by
  obtain ⟨h1, h2⟩ := loopbackScan_frame cfg s hbase i (by omega)
  unfold loopbackSensed
  show cfg.motor_sensor_io (_ :: _ :: (forLoop i (loopbackOutBody cfg)
    { task := s, loopback_error := false }).task.bus_history) = _
  rw [h1, h2]
  rfl

theorem loopbackQuiesced_eq (cfg : Config) (s : SplitflapTask)
    (hlen : s.motor_buffer.length = cfg.MOTOR_BUFFER_LENGTH)
    (hbase : ∀ k, k < cfg.NUM_LOOPBACKS → s.motor_buffer.getD (loopbackMotorByte cfg k) 0 = 0) :
    loopbackQuiesced cfg s
      = cfg.motor_sensor_io
          (List.replicate cfg.MOTOR_BUFFER_LENGTH 0 :: List.replicate cfg.MOTOR_BUFFER_LENGTH 0
            :: selfTestHistory cfg s.motor_buffer s.bus_history cfg.NUM_LOOPBACKS) := by
  obtain ⟨h1, h2⟩ := loopbackScan_frame cfg s hbase cfg.NUM_LOOPBACKS (le_refl _)
  unfold loopbackQuiesced loopbackQuiesce loopbackScan
  show cfg.motor_sensor_io (clearMotorBuffer cfg _ :: clearMotorBuffer cfg _
    :: (forLoop cfg.NUM_LOOPBACKS (loopbackOutBody cfg)
      { task := s, loopback_error := false }).task.bus_history) = _
  rw [h1, h2, clearMotorBuffer_eq cfg _ hlen]

theorem loopbackSensorBitMask_eq (j : Nat) :
    loopbackSensorBitMask j = 2 ^ (if j % 2 = 0 then 6 else 7) := by
  unfold loopbackSensorBitMask
  split_ifs <;> rfl

theorem and_two_pow_cases (x p : Nat) : x &&& 2 ^ p = 0 ∨ x &&& 2 ^ p = 2 ^ p := by
  cases hb : x.testBit p
  · left
    have h := and_two_pow_eq_of_testBit_eq x 0 p (by simp [hb])
    simpa using h
  · right
    have h := and_two_pow_eq_of_testBit_eq x (2 ^ p) p (by rw [hb, Nat.testBit_two_pow_self])
    simpa using h

/-- A byte masked with a loopback input mask is `0` or the mask, so comparing it with the
expected mask is the same as asking whether the input reads set exactly when expected. -/
theorem loopback_and_eq_iff (x j : Nat) (c : Prop) [Decidable c] :
    (x &&& loopbackSensorBitMask j = if c then loopbackSensorBitMask j else 0)
      ↔ (decide (x &&& loopbackSensorBitMask j ≠ 0) = true ↔ c) := by
  have hm : loopbackSensorBitMask j ≠ 0 := by
    unfold loopbackSensorBitMask
    split_ifs <;> decide
  have h01 : x &&& loopbackSensorBitMask j = 0
      ∨ x &&& loopbackSensorBitMask j = loopbackSensorBitMask j := by
    rw [loopbackSensorBitMask_eq]
    exact and_two_pow_cases x _
  rw [decide_eq_true_eq]
  by_cases hc : c
  · rw [if_pos hc]
    rcases h01 with h | h
    · rw [h]
      exact ⟨fun e => absurd e.symm hm, fun e => absurd rfl (e.mpr hc)⟩
    · rw [h]
      exact ⟨fun _ => ⟨fun _ => hc, fun _ => hm⟩, fun _ => rfl⟩
  · rw [if_neg hc]
    exact ⟨fun e => ⟨fun h => absurd e h, fun h => absurd h hc⟩,
      fun e => by_contra (fun h => hc (e.mp h))⟩

/-- The condition checked by the code is the wiring condition stated on the bus alone. -/
theorem loopbackWiringOk_iff_isolated (cfg : Config) (s : SplitflapTask)
    (hlen : s.motor_buffer.length = cfg.MOTOR_BUFFER_LENGTH)
    (hbase : ∀ k, k < cfg.NUM_LOOPBACKS → s.motor_buffer.getD (loopbackMotorByte cfg k) 0 = 0) :
    LoopbackWiringOk cfg s ↔ LoopbackIsolated cfg s.motor_buffer s.bus_history := by
  unfold LoopbackWiringOk LoopbackIsolated loopbackNonZero
  rw [loopbackQuiesced_eq cfg s hlen hbase]
  constructor
  · rintro ⟨h1, h2⟩
    refine ⟨fun i hi j hj => ?_, fun j hj => ?_⟩
    · have := h1 i hi j hj
      rw [loopbackSensed_eq cfg s hbase i hi, loopback_and_eq_iff] at this
      rw [this]
      exact eq_comm
    · simpa using h2 j hj
  · rintro ⟨h1, h2⟩
    refine ⟨fun i hi j hj => ?_, fun j hj => ?_⟩
    · rw [loopbackSensed_eq cfg s hbase i hi, loopback_and_eq_iff, h1 i hi j hj]
      exact eq_comm
    · simpa using h2 j hj

/-! ## C7: the calls of homing and of the control loop -/

theorem dumpStatus_calls (cfg : Config) (s : SplitflapTask) :
    (dumpStatus cfg s).calls = s.calls := by
  unfold dumpStatus
  show (forLoop cfg.NUM_MODULES (dumpStatusBody cfg) _).calls = _
  rw [forLoop_frame SplitflapTask.calls (dumpStatusBody cfg)]
  · rfl
  · intro i t
    unfold dumpStatusBody dumpModule
    split_ifs <;> simp only [Serial_print, Serial_printNat, Serial_write]

/-- Nothing inside a tick is logged as a call of `runUpdate`. -/
theorem callsExtend_runUpdate (cfg : Config) (inp : TickInput) (pending : List Nat)
    (s : SplitflapTask) :
    CallsExtend (fun c => c ≠ Call.runUpdate) s (runUpdate cfg inp pending s).1 := by
  have hadv := callsExtend_advancePhase (P := fun c => c ≠ Call.runUpdate)
    (fun i h => Call.noConfusion h) (fun h => Call.noConfusion h) cfg inp.millis s
  have hsaf := callsExtend_safetyMonitor (P := fun c => c ≠ Call.runUpdate)
    (fun h => Call.noConfusion h) (fun i h => Call.noConfusion h) (fun h => Call.noConfusion h)
    cfg inp (advancePhase cfg inp.millis s).all_stopped (advancePhase cfg inp.millis s).task
  have hdis : ∀ (m : String) (t : SplitflapTask),
      CallsExtend (fun c => c ≠ Call.runUpdate) t (disableAll cfg m t) :=
    fun m t => callsExtend_disableAll (fun h => Call.noConfusion h)
      (fun i h => Call.noConfusion h) cfg m t
  have hvol : ∀ t : SplitflapTask,
      CallsExtend (fun c => c ≠ Call.runUpdate) t (voltageCheck cfg inp t) := by
    intro t
    have hl : CallsExtend (fun c => c ≠ Call.runUpdate) t (logCall Call.getBusVoltage_V t) :=
      callsExtend_logCall _ (fun h => Call.noConfusion h) t
    unfold voltageCheck
    split_ifs
    · exact callsExtend_trans hl (hdis _ _)
    · exact callsExtend_trans hl (hdis _ _)
    · exact hl
    · exact callsExtend_refl _ t
  have hno : ∀ (st : Bool) (t : SplitflapTask),
      CallsExtend (fun c => c ≠ Call.runUpdate) t (ackNoOp st t) := by
    intro st t
    unfold ackNoOp
    split_ifs
    · exact callsExtend_of_calls_eq rfl
    · exact callsExtend_refl _ t
  have hmv : ∀ (st : Bool) (t : SplitflapTask),
      CallsExtend (fun c => c ≠ Call.runUpdate) t (ackMove cfg st t) := by
    intro st t
    unfold ackMove
    split_ifs
    · exact callsExtend_of_calls_eq (dumpStatus_calls cfg _)
    · exact callsExtend_refl _ t
  have hbyte : ∀ (st : Bool) (b : Nat) (t : SplitflapTask),
      CallsExtend (fun c => c ≠ Call.runUpdate) t (processByte cfg st b t) := by
    intro st b t
    unfold processByte
    split_ifs
    · refine callsExtend_of_calls_eq ?_
      unfold toggleSensorTest announceSensorTest
      simp only [Serial_print]
    · unfold resetAll
      exact callsExtend_forLoop id _ (fun i r => callsExtend_trans
        (callsExtend_onModule i _ (fun h => Call.noConfusion h) _ r)
        (callsExtend_onModule i _ (fun h => Call.noConfusion h) _ _)) _ t
    · exact callsExtend_of_calls_eq rfl
    · exact callsExtend_of_calls_eq rfl
    · exact callsExtend_showString (fun h => Call.noConfusion h)
        (fun i index h => Call.noConfusion h) cfg _ _ t
    · refine callsExtend_of_calls_eq ?_
      unfold appendByte
      split_ifs <;> rfl
    · exact callsExtend_refl _ t
  have hloop : ∀ (st : Bool) (bytes : List Nat) (t : SplitflapTask),
      CallsExtend (fun c => c ≠ Call.runUpdate) t (commandLoop cfg st bytes t) := by
    intro st bytes
    induction bytes with
    | nil => exact fun t => callsExtend_refl _ t
    | cons b rest ih => exact fun t => callsExtend_trans (hbyte st b t) (ih _)
  unfold runUpdate idlePrelude
  split_ifs
  · exact callsExtend_trans (callsExtend_trans hadv hsaf)
      (callsExtend_trans (callsExtend_trans (callsExtend_trans (hvol _) (hno _ _)) (hmv _ _))
        (hloop _ _ _))
  · exact callsExtend_trans hadv hsaf

/-- One iteration of the control loop calls `runUpdate` exactly once, first. -/
theorem controlIteration_calls (cfg : Config) (inp : LoopInput) (l : LoopState) :
    ∃ added : List Call,
      (controlIteration cfg inp l).task.calls = l.task.calls ++ Call.runUpdate :: added
      ∧ added.count Call.runUpdate = 0 := by
  obtain ⟨a1, h1, p1⟩ := callsExtend_runUpdate cfg inp.tick (l.pending ++ inp.arrived)
    (logCall Call.runUpdate l.task)
  have h2 : CallsExtend (fun c => c ≠ Call.runUpdate)
      (runUpdate cfg inp.tick (l.pending ++ inp.arrived) (logCall Call.runUpdate l.task)).1
      (logCall Call.wdt_reset (updateStateCache cfg
        (runUpdate cfg inp.tick (l.pending ++ inp.arrived)
          (logCall Call.runUpdate l.task)).1)) := by
    refine callsExtend_trans ?_ (callsExtend_logCall _ (fun h => Call.noConfusion h) _)
    unfold updateStateCache
    split_ifs
    · exact ⟨[Call.lock], rfl, by simp⟩
    · exact callsExtend_refl _ _
  obtain ⟨a2, h2, p2⟩ := h2
  refine ⟨a1 ++ a2, ?_, ?_⟩
  · show (logCall Call.wdt_reset (updateStateCache cfg _)).calls = _
    rw [h2, h1]
    show (l.task.calls ++ [Call.runUpdate]) ++ a1 ++ a2 = _
    simp
  · rw [List.count_eq_zero]
    intro h
    rcases List.mem_append.mp h with h | h
    · exact p1 _ h rfl
    · exact p2 _ h rfl

/-- The control loop calls `runUpdate` once per iteration. -/
theorem controlLoop_calls (cfg : Config) (inputs : List LoopInput) (l : LoopState) :
    ∃ added : List Call,
      (inputs.foldl (fun l inp => controlIteration cfg inp l) l).task.calls
        = l.task.calls ++ added
      ∧ added.count Call.runUpdate = inputs.length := by
  induction inputs generalizing l with
  | nil => exact ⟨[], by simp, rfl⟩
  | cons inp rest ih =>
    obtain ⟨a1, h1, c1⟩ := controlIteration_calls cfg inp l
    obtain ⟨a2, h2, c2⟩ := ih (controlIteration cfg inp l)
    refine ⟨Call.runUpdate :: a1 ++ a2, ?_, ?_⟩
    · show (rest.foldl _ (controlIteration cfg inp l)).task.calls = _
      rw [h2, h1]
      simp
    · rw [List.count_append, List.count_cons_self, c1, c2]
      simp
      omega

theorem runPrologue_modules (cfg : Config) (s : SplitflapTask) :
    (runPrologue cfg s).modules = s.modules := by
  simp only [runPrologue, printInit, clearRecvBuffer, bringUp, motor_sensor_io, logCall,
    Serial_print, Serial_printNat]

theorem selfTest_modules (cfg : Config) (s : SplitflapTask) :
    (selfTest cfg s).task.modules = s.modules := by
  have hscan : (loopbackScan cfg s).task.modules = s.modules := by
    unfold loopbackScan
    rw [forLoop_frame (fun t : SelfTest => t.task.modules) (loopbackOutBody cfg)]
    intro i t
    unfold loopbackOutBody
    show (forLoop cfg.NUM_LOOPBACKS (loopbackCheckBody i) _).task.modules = _
    rw [(loopbackCheckLoop_frame i cfg.NUM_LOOPBACKS _).2.2]
    rfl
  unfold selfTest
  rw [forLoop_frame (fun t : SelfTest => t.task.modules) loopbackZeroBody]
  · exact hscan
  · intro i t
    unfold loopbackZeroBody
    split_ifs
    · exact (printBadZero_frame i t.task).2.2
    · rfl

theorem flashRounds_modules (cfg : Config) (s : SplitflapTask) :
    (flashRounds cfg s).modules = s.modules := by
  unfold flashRounds
  rw [forLoop_frame SplitflapTask.modules]
  intro r t
  show (forLoop cfg.NUM_MODULES (flashBody cfg) t).modules = _
  rw [forLoop_frame SplitflapTask.modules (flashBody cfg) (fun i t => rfl)]

/-- The calls made by `k` iterations of the homing loop of `run`. -/
theorem homeLoop_calls (cfg : Config) (k : Nat) (s : SplitflapTask)
    (hk : k ≤ s.modules.length) :
    (forLoop k (fun i s => onModule i (Call.GoHome i) SplitflapModule.GoHome
        (onModule i (Call.Init i) (cfg.Init i) s)) s).modules.length = s.modules.length
    ∧ (forLoop k (fun i s => onModule i (Call.GoHome i) SplitflapModule.GoHome
        (onModule i (Call.Init i) (cfg.Init i) s)) s).calls
      = s.calls ++ (List.range k).flatMap (fun i => [Call.Init i, Call.GoHome i]) := by
  induction k with
  | zero => simp [forLoop_zero]
  | succ k ih =>
    obtain ⟨hlen, hc⟩ := ih (by omega)
    have hk2 : k < s.modules.length := by omega
    rw [forLoop_succ, onModule_length, onModule_length, onModule_calls, onModule_length,
      onModule_calls, hlen, if_pos hk2, if_pos hk2, hc, List.range_succ, List.flatMap_append]
    simp

/-- C7. Loopback self-test verdict (`CHAINLINK` build), with the bus an arbitrary function of
the buffers clocked out. `run` reaches module homing and the control loop if and only if, for all
channels `i, j < NUM_LOOPBACKS`, the loopback input `j` read back after asserting output `i` and
two transfers is set exactly when `j = i`, and after clearing all outputs every loopback input
reads zero. What is asserted and cleared is pinned down for a buffer of `MOTOR_BUFFER_LENGTH`
bytes (at most 256, holding every loopback byte) whose loopback bytes bring-up left clear: the
buffer clocked out twice for channel `i` asserts channel `i` and no other loopback output, the
buffer clocked out twice at the end is all zero, and the verdict is the wiring condition stated
on the bus alone. When the test passes, `run` goes on to call `Init` then `GoHome` on every
module in index order and then calls `runUpdate` once in every iteration of the control loop. On
any mismatch `run` enters the diagnostic hold, and however long it runs it calls neither `Init`,
`GoHome` nor `runUpdate`. -/
theorem loopback_self_test_verdict (cfg : Config) (s : SplitflapTask)
    (hC : cfg.CHAINLINK = true) :
    ((∃ s1, runStartup cfg s = RunPhase.controlLoop s1)
      ↔ LoopbackWiringOk cfg (runPrologue cfg s))
    ∧ (cfg.MOTOR_BUFFER_LENGTH ≤ 256 →
        (∀ k, k < cfg.NUM_LOOPBACKS → 4 * (k / 2) + 3 ≤ cfg.MOTOR_BUFFER_LENGTH) →
        (runPrologue cfg s).motor_buffer.length = cfg.MOTOR_BUFFER_LENGTH →
        (∀ k, k < cfg.NUM_LOOPBACKS →
          (runPrologue cfg s).motor_buffer.getD (loopbackMotorByte cfg k) 0 = 0) →
        (∀ i, i < cfg.NUM_LOOPBACKS → ∀ k, k < cfg.NUM_LOOPBACKS →
          (loopbackAsserted cfg (assertLoopback cfg (runPrologue cfg s).motor_buffer i) k = true
            ↔ k = i))
        ∧ (∀ k, loopbackAsserted cfg (List.replicate cfg.MOTOR_BUFFER_LENGTH 0) k = false)
        ∧ (∀ i, i < cfg.NUM_LOOPBACKS →
            loopbackSensed cfg (runPrologue cfg s) i
              = cfg.motor_sensor_io (selfTestHistory cfg (runPrologue cfg s).motor_buffer
                  (runPrologue cfg s).bus_history (i + 1)))
        ∧ loopbackQuiesced cfg (runPrologue cfg s)
            = cfg.motor_sensor_io
                (List.replicate cfg.MOTOR_BUFFER_LENGTH 0
                  :: List.replicate cfg.MOTOR_BUFFER_LENGTH 0
                  :: selfTestHistory cfg (runPrologue cfg s).motor_buffer
                      (runPrologue cfg s).bus_history cfg.NUM_LOOPBACKS)
        ∧ ((∃ s1, runStartup cfg s = RunPhase.controlLoop s1)
            ↔ LoopbackIsolated cfg (runPrologue cfg s).motor_buffer
                (runPrologue cfg s).bus_history))
    ∧ (LoopbackWiringOk cfg (runPrologue cfg s) →
        runStartup cfg s = RunPhase.controlLoop
          (homeAll cfg (flashRounds cfg (selfTest cfg (runPrologue cfg s)).task))
        ∧ (s.modules.length = cfg.NUM_MODULES →
            (homeAll cfg (flashRounds cfg (selfTest cfg (runPrologue cfg s)).task)).calls
              = (flashRounds cfg (selfTest cfg (runPrologue cfg s)).task).calls
                ++ (List.range cfg.NUM_MODULES).flatMap
                    (fun i => [Call.Init i, Call.GoHome i]))
        ∧ ∀ inputs : List LoopInput, ∃ added : List Call,
            (run cfg inputs s).task.calls
              = (homeAll cfg (flashRounds cfg (selfTest cfg (runPrologue cfg s)).task)).calls
                ++ added
            ∧ added.count Call.runUpdate = inputs.length)
    ∧ (¬ LoopbackWiringOk cfg (runPrologue cfg s) →
        runStartup cfg s = RunPhase.diagnosticHold (selfTest cfg (runPrologue cfg s)).task
        ∧ ∀ inputs : List LoopInput, ∃ added : List Call,
            (run cfg inputs s).task.calls = s.calls ++ added
            ∧ ∀ c ∈ added, c.startsOperation = false) := by
  have hpass := selfTest_passes_iff cfg (runPrologue cfg s)
  have hok : LoopbackWiringOk cfg (runPrologue cfg s) →
      runStartup cfg s = RunPhase.controlLoop
        (homeAll cfg (flashRounds cfg (selfTest cfg (runPrologue cfg s)).task)) := by
    intro h
    unfold runStartup
    rw [if_pos hC, if_neg (by rw [hpass.mpr h]; simp)]
  have hbad : ¬ LoopbackWiringOk cfg (runPrologue cfg s) →
      runStartup cfg s = RunPhase.diagnosticHold (selfTest cfg (runPrologue cfg s)).task := by
    intro h
    unfold runStartup
    rw [if_pos hC, if_pos (by
      cases hv : (selfTest cfg (runPrologue cfg s)).loopback_error
      · exact absurd (hpass.mp hv) h
      · rfl)]
  have hverdict : (∃ s1, runStartup cfg s = RunPhase.controlLoop s1)
      ↔ LoopbackWiringOk cfg (runPrologue cfg s) := by
    refine ⟨?_, fun h => ⟨_, hok h⟩⟩
    rintro ⟨s1, hs1⟩
    by_contra h
    rw [hbad h] at hs1
    cases hs1
  refine ⟨hverdict, fun hM hL hlen hbase => ⟨fun i hi k hk => ?_, fun k => ?_, fun i hi => ?_,
      ?_, ?_⟩, fun h => ⟨hok h, fun hmod => ?_, fun inputs => ?_⟩,
    fun h => ⟨hbad h, fun inputs => ?_⟩⟩
  · exact assertLoopback_only cfg _ hM hL hlen hbase i k hi hk
  · unfold loopbackAsserted
    have h0 : (List.replicate cfg.MOTOR_BUFFER_LENGTH 0).getD (loopbackMotorByte cfg k) 0 = 0 := by
      rw [List.getD_eq_getElem?_getD, List.getElem?_replicate]
      split_ifs <;> rfl
    rw [h0]
    simp
  · exact loopbackSensed_eq cfg _ hbase i hi
  · exact loopbackQuiesced_eq cfg _ hlen hbase
  · exact hverdict.trans (loopbackWiringOk_iff_isolated cfg _ hlen hbase)
  · have hl : cfg.NUM_MODULES
        ≤ (flashRounds cfg (selfTest cfg (runPrologue cfg s)).task).modules.length := by
      rw [flashRounds_modules, selfTest_modules, runPrologue_modules, hmod]
    exact (homeLoop_calls cfg cfg.NUM_MODULES _ hl).2
  · unfold run
    rw [hok h]
    exact controlLoop_calls cfg inputs
      { task := homeAll cfg (flashRounds cfg (selfTest cfg (runPrologue cfg s)).task),
        pending := [] }
  · unfold run
    rw [hbad h]
    exact callsExtend_trans
      (callsExtend_trans
        (callsExtend_runPrologue (P := fun c => c.startsOperation = false) rfl cfg s)
        (callsExtend_selfTest (P := fun c => c.startsOperation = false) rfl cfg _))
      (callsExtend_holdLoop (P := fun c => c.startsOperation = false) rfl rfl cfg inputs
        { task := (selfTest cfg (runPrologue cfg s)).task, pending := [] })

/-- Witness for C7: the example bus passes the self test, `run` goes on to homing and the wiring
condition holds on the bus alone; on a dead bus `run` stays in the diagnostic hold. -/
theorem loopback_self_test_verdict_witness :
    (∃ s1, runStartup exampleConfig exampleTask = RunPhase.controlLoop s1)
    ∧ LoopbackIsolated exampleConfig (runPrologue exampleConfig exampleTask).motor_buffer
        (runPrologue exampleConfig exampleTask).bus_history
    ∧ (homeAll exampleConfig (flashRounds exampleConfig
        (selfTest exampleConfig (runPrologue exampleConfig exampleTask)).task)).calls
      = (flashRounds exampleConfig
          (selfTest exampleConfig (runPrologue exampleConfig exampleTask)).task).calls
        ++ [Call.Init 0, Call.GoHome 0, Call.Init 1, Call.GoHome 1, Call.Init 2, Call.GoHome 2]
    ∧ runStartup deadBusConfig exampleTask
        = RunPhase.diagnosticHold (selfTest deadBusConfig (runPrologue deadBusConfig
            exampleTask)).task :=
  ⟨(loopback_self_test_verdict exampleConfig exampleTask rfl).1.mpr (by decide),
    ((loopback_self_test_verdict exampleConfig exampleTask rfl).2.1 (by decide) (by decide)
      (by decide) (by decide)).2.2.2.2.mp
      ((loopback_self_test_verdict exampleConfig exampleTask rfl).1.mpr (by decide)),
    (((loopback_self_test_verdict exampleConfig exampleTask rfl).2.2.1 (by decide)).2.1
      (by decide)).trans (by decide),
    ((loopback_self_test_verdict deadBusConfig exampleTask rfl).2.2.2 (by decide)).1⟩


end Splitflap
